import Mathlib

/-!
# MMFirmware: the G-code interpreter (`gcode.c`)

A shallow embedding of `gc_execute_line` and the functions it is built from.

Conventions of the embedding

* C `double` values are elements of an arbitrary linearly ordered field `α` with a floor
  function (`ℚ` for evaluation, `ℝ` for geometry).  Rounding and infinities are not
  represented.  The NaN test of the source (`isnan(h_x2_div_d)`) is expressed on the
  operands that produce the NaN, and so is the arc tangent of the infinite quotient in
  `theta`; the NaN that `theta` returns for the quotient 0/0 is the value `none`, and it
  travels as such into the arguments of `mc_arc`.
* The C library (`strtod`, `sqrt`, `hypot`, `atan`, `sin`, `cos`, `M_PI`) is a parameter
  `Libc α` of every function that uses it.  So is the macro `clear_vector` where it is
  applied to a pointer: its header, `nuts_bolts.h`, is not among the sources.
* A line is the list of characters before the terminating NUL; reading at or beyond the end
  of the list reads the NUL.
* Calls that leave `gcode.c` are recorded, in order, in a list of `Call` values.
* `int` values are integers in `ℤ`.  Fields and parameters of a fixed width
  (`uint8_t tool`, `int16_t spindle_speed`, `uint16_t homing_max_number_of_times`, the
  `uint32_t milliseconds` of `mc_dwell`) are reduced modulo `2^w`.
* The firmware is built for the ATmega328P, so the code under `#ifdef __AVR_ATmega328P__`
  (G2, G3 and the arc dispatch) is part of the embedding.
-/

namespace MMFirmware

/-! ## Status codes, modes and vectors -/

/-- Status codes of `gcode.h` (`GCSTATUS_*`); `OK` is the zero code. -/
inductive Status where
  | OK
  | BAD_NUMBER_FORMAT
  | EXPECTED_COMMAND_LETTER
  | UNSUPPORTED_STATEMENT
  | FLOATING_POINT_ERROR
  deriving DecidableEq, Repr

/-- The `NEXT_ACTION_*` constants. -/
inductive NextAction where
  | DEFAULT
  | DWELL
  | GO_HOME
  | MEASURE_CAP
  | MILL_GO_HOME
  | CUR_POS_IS_ORIGIN
  | TURN_OFF_ACCEL
  | TURN_ON_ACCEL
  deriving DecidableEq, Repr

/-- The `MOTION_MODE_*` constants. -/
inductive MotionMode where
  | SEEK
  | LINEAR
  | CW_ARC
  | CCW_ARC
  | CANCEL
  deriving DecidableEq, Repr

/-- The `PROGRAM_FLOW_*` constants. -/
inductive ProgramFlow where
  | RUNNING
  | PAUSED
  | COMPLETED
  deriving DecidableEq, Repr

/-- A `double[3]` array. -/
structure Vec3 (α : Type) where
  x : α
  y : α
  z : α
  deriving DecidableEq, Repr

/-- Array read `v[i]`.  An index outside 0..2 is outside the array; it reads as 0. -/
def Vec3.get {α : Type} [Zero α] (v : Vec3 α) (i : ℤ) : α :=
  if i = 0 then v.x else if i = 1 then v.y else if i = 2 then v.z else 0

/-- Array write `v[i] = a`.  An index outside 0..2 is outside the array; it writes nothing. -/
def Vec3.set {α : Type} (v : Vec3 α) (i : ℤ) (a : α) : Vec3 α :=
  if i = 0 then { v with x := a }
  else if i = 1 then { v with y := a }
  else if i = 2 then { v with z := a }
  else v

/-- Modelled from the spec: the macro `clear_vector` of `nuts_bolts.h`, a header that is not
among the sources, applied to an array of three entries ("clear `offset[3]`"): every entry
becomes 0. -/
def clear_vector {α : Type} [Zero α] : Vec3 α := ⟨0, 0, 0⟩

def X_AXIS : ℕ := 0

def Y_AXIS : ℕ := 1

def Z_AXIS : ℕ := 2

/-- C `trunc`: rounding toward zero. -/
def trunc {α : Type} [LinearOrderedField α] [FloorRing α] (v : α) : ℤ :=
  if 0 ≤ v then ⌊v⌋ else ⌈v⌉

/-! ## The C library -/

/-- The C library functions used by the firmware.  `strtod s` returns the parsed value and
the number of characters it consumed (`end - start`); zero characters means no conversion.
The last field is the one macro that is a parameter: `clear_vector_pointer v` is what the
macro `clear_vector` leaves of the vector `v` when its argument is a pointer to the vector
(`double *position` in `mc_cur_pos_is_origin`) and not the array itself.  The header with
the macro, `nuts_bolts.h`, is not among the sources. -/
structure Libc (α : Type) where
  strtod : List Char → α × ℕ
  sqrt : α → α
  hypot : α → α → α
  atan : α → α
  sin : α → α
  cos : α → α
  M_PI : α
  clear_vector_pointer : Vec3 α → Vec3 α

/-- Reads decimal digits, accumulating their value onto `acc` and counting them. -/
def takeDigits : List Char → ℕ → ℕ → ℕ × ℕ × List Char
  | [], acc, cnt => (acc, cnt, [])
  | c :: cs, acc, cnt =>
    if '0' ≤ c ∧ c ≤ '9' then takeDigits cs (acc * 10 + (c.toNat - 48)) (cnt + 1)
    else (acc, cnt, c :: cs)

/-- Splits an optional sign off a character list: whether it is a minus sign, how many
characters it took, and the rest. -/
def takeSign : List Char → Bool × ℕ × List Char
  | '-' :: t => (true, 1, t)
  | '+' :: t => (false, 1, t)
  | s => (false, 0, s)

/-- A decimal numeral as read from the text: sign, digits of the mantissa read as one
natural number, number of digits after the point, sign and value of the exponent, and the
number of characters read. -/
structure Numeral where
  neg : Bool
  mant : ℕ
  frac : ℕ
  eneg : Bool
  exp : ℕ
  len : ℕ
  deriving DecidableEq, Repr

/-- Reads the longest decimal numeral at the start of `s`: an optional sign, decimal digits
with an optional point (at least one digit), and an optional exponent `E` or `e` with an
optional sign and at least one digit.  `none` when there is no digit. -/
def scanNumeral (s : List Char) : Option Numeral :=
  let sg := takeSign s
  let ip := takeDigits sg.2.2 0 0
  let fp : ℕ × ℕ × ℕ × List Char :=
    match ip.2.2 with
    | '.' :: t => let r := takeDigits t ip.1 0; (r.1, r.2.1, 1, r.2.2)
    | _ => (ip.1, 0, 0, ip.2.2)
  if ip.2.1 + fp.2.1 = 0 then none
  else
    let ex : Bool × ℕ × ℕ :=
      match fp.2.2.2 with
      | c :: t =>
        if c = 'E' ∨ c = 'e' then
          let es := takeSign t
          let ed := takeDigits es.2.2 0 0
          if ed.2.1 = 0 then (false, 0, 0) else (es.1, ed.1, 1 + es.2.1 + ed.2.1)
        else (false, 0, 0)
      | [] => (false, 0, 0)
    some { neg := sg.1, mant := fp.1, frac := fp.2.1, eneg := ex.1, exp := ex.2.1,
           len := sg.2.1 + ip.2.1 + fp.2.2.1 + fp.2.1 + ex.2.2 }

/-- The number a numeral denotes. -/
def Numeral.value {α : Type} [Field α] (n : Numeral) : α :=
  let m : α := (n.mant : α) / (10 : α) ^ n.frac
  let v : α := if n.eneg then m / (10 : α) ^ n.exp else m * (10 : α) ^ n.exp
  if n.neg then -v else v

/-- Modelled from the spec: the "standard string-to-double routine" that parses "a signed
decimal number".  The library itself is not part of the repository.  The spellings of
infinity and NaN are not accepted and no white space is skipped.  Without a conversion the
result is 0 and no character is consumed. -/
def strtod_decimal {α : Type} [Field α] (s : List Char) : α × ℕ :=
  match scanNumeral s with
  | none => (0, 0)
  | some n => (n.value, n.len)

/-! ## Tokenizer -/

/-- The character `line[i]`; the terminating NUL at and beyond the end. -/
def charAt (line : List Char) (i : ℕ) : Char :=
  line.getD i (Char.ofNat 0)

/-- Result of `read_double`: the return value, the number stored through `double_ptr`, the
counter and `gc.status_code` afterwards. -/
structure ReadResult (α : Type) where
  ret : Bool
  value : α
  char_counter : ℕ
  status_code : Status

/-- The function `read_double`. -/
def read_double {α : Type} (libc : Libc α) (line : List Char) (char_counter : ℕ)
    (status_code : Status) : ReadResult α :=
  let r := libc.strtod (line.drop char_counter)
  if r.2 = 0 then
    { ret := false, value := r.1, char_counter := char_counter,
      status_code := Status.BAD_NUMBER_FORMAT }
  else
    { ret := true, value := r.1, char_counter := char_counter + r.2,
      status_code := status_code }

/-- Result of `next_statement`: the return value, the counter and `gc.status_code`
afterwards, and what a call that returns 1 has stored in `*letter` and `*double_ptr`.  After
a call that returns 0 the callers read neither location again; there `letter` repeats the
character under the counter and `value` what `read_double` stored, or 0 if it was not
called. -/
structure StatementResult (α : Type) where
  ret : Bool
  letter : Char
  value : α
  char_counter : ℕ
  status_code : Status

/-- The function `next_statement`. -/
def next_statement {α : Type} [Zero α] (libc : Libc α) (line : List Char)
    (char_counter : ℕ) (status_code : Status) : StatementResult α :=
  if charAt line char_counter = Char.ofNat 0 then
    { ret := false, letter := charAt line char_counter, value := 0,
      char_counter := char_counter, status_code := status_code }
  else
    let letter := charAt line char_counter
    if letter < 'A' ∨ letter > 'Z' then
      { ret := false, letter := letter, value := 0, char_counter := char_counter,
        status_code := Status.EXPECTED_COMMAND_LETTER }
    else
      let r := read_double libc line (char_counter + 1) status_code
      { ret := r.ret, letter := letter, value := r.value,
        char_counter := r.char_counter, status_code := r.status_code }

/-! ## Interpreter state -/

/-- The type `parser_state_t` of the global `gc`. -/
structure parser_state_t (α : Type) where
  status_code : Status
  motion_mode : MotionMode
  inverse_feed_rate_mode : Bool
  inches_mode : Bool
  absolute_mode : Bool
  program_flow : ProgramFlow
  spindle_direction : ℤ
  feed_rate : α
  seek_rate : α
  position : Vec3 α
  tool : ℤ
  spindle_speed : ℤ
  plane_axis_0 : ℕ
  plane_axis_1 : ℕ
  plane_axis_2 : ℕ

/-- The function `select_plane`. -/
def select_plane {α : Type} (gc : parser_state_t α) (axis_0 axis_1 axis_2 : ℕ) :
    parser_state_t α :=
  { gc with plane_axis_0 := axis_0, plane_axis_1 := axis_1, plane_axis_2 := axis_2 }

/-- The function `gc_init`; the two arguments are `settings.default_feed_rate` and
`settings.default_seek_rate`. -/
def gc_init {α : Type} [LinearOrderedField α] (default_feed_rate default_seek_rate : α) :
    parser_state_t α :=
  let gc : parser_state_t α :=
    { status_code := Status.OK, motion_mode := MotionMode.SEEK,
      inverse_feed_rate_mode := false, inches_mode := false, absolute_mode := false,
      program_flow := ProgramFlow.RUNNING, spindle_direction := 0, feed_rate := 0,
      seek_rate := 0, position := clear_vector, tool := 0, spindle_speed := 0,
      plane_axis_0 := 0, plane_axis_1 := 0, plane_axis_2 := 0 }
  let gc := { gc with feed_rate := default_feed_rate / 60 }
  let gc := { gc with seek_rate := default_seek_rate / 60 }
  let gc := select_plane gc X_AXIS Y_AXIS Z_AXIS
  { gc with absolute_mode := true }

def MM_PER_INCH {α : Type} [LinearOrderedField α] : α := 25.4

/-- The function `to_millimeters`. -/
def to_millimeters {α : Type} [LinearOrderedField α] (gc : parser_state_t α) (value : α) : α :=
  if gc.inches_mode then value * MM_PER_INCH else value

/-- The function `theta`; the value `none` is NaN.  For `x = 0` and `y = 0` the quotient
`x/fabs(y)` is 0/0, a NaN: `atan` passes it on, both comparisons are false on it and
`-M_PI - theta` is a NaN again.  For `y = 0` and `x ≠ 0` the quotient is an infinity, of
which `atan` returns `M_PI/2` with the sign of `x`; this is expressed on the operands. -/
def theta {α : Type} [LinearOrderedField α] (libc : Libc α) (x y : α) : Option α :=
  if x = 0 ∧ y = 0 then none
  else
    let theta :=
      if y = 0 ∧ 0 < x then libc.M_PI / 2
      else if y = 0 ∧ x < 0 then -(libc.M_PI / 2)
      else libc.atan (x / |y|)
    if y > 0 then some theta
    else if theta > 0 then some (libc.M_PI - theta)
    else some (-libc.M_PI - theta)

/-- A call that leaves `gcode.c` or `motion_control.c`, with its arguments as the callee
receives them.  In the two angles of `mc_arc` the value `none` is NaN. -/
inductive Call (α : Type) where
  | sp_millInfo
  | settings_dump
  | settings_store_setting (parameter : α) (value : α)
  | mc_dwell (milliseconds : ℤ)
  | spindle_run (direction : ℤ) (rpm : ℤ)
  | spindle_stop
  | mc_do_homing_with_params (axis : ℤ) (feedRate moveVal thresholdToStop : α)
      (maxNumTimesToMove : ℕ) (position : Vec3 α)
  | mc_do_mill_homing_with_params (feedRate moveVal thresholdToStop : α)
      (maxNumTimesToMove : ℕ) (position : Vec3 α)
  | mc_cur_pos_is_origin (selection : ℤ) (position : Vec3 α)
  | plan_set_acceleration_manager_enabled (enabled : Bool)
  | cc_measure_cap (selection : ℤ)
  | plan_buffer_line (x y z feed_rate : α) (invert_feed_rate : Bool)
  | plan_redefine_current_position (x y z : α)
  | st_synchronize
  | cc_axisAverageCapValue (axis : ℤ) (numSamples : ℕ)
  | printString (s : String)
  | printInteger (n : ℤ)
  | print_newline
  | mc_arc (theta angular_travel : Option α) (radius linear_travel : α)
      (axis_1 axis_2 axis_linear : ℕ) (feed_rate : α) (invert_feed_rate : Bool)
      (position : Vec3 α)
  deriving DecidableEq, Repr

/-- The automatic variables of `gc_execute_line` that live across its loops.  (`letter`,
`value`, `int_value`, `unit_converted_value` and `char_counter` are handed from statement to
statement by the loops themselves.) -/
structure Locals (α : Type) where
  inverse_feed_rate : α
  radius_mode : Bool
  absolute_override : Bool
  next_action : NextAction
  target : Vec3 α
  offset : Vec3 α
  p : α
  r : α
  homing_dist_to_move : α
  homing_threshold : α
  homing_max_number_of_times : ℕ
  spindle_changed : Bool
  homing_feed_rate : α

/-- The interpreter in the middle of `gc_execute_line`: the global `gc`, the automatic
variables, and the calls made so far. -/
structure Frame (α : Type) where
  gc : parser_state_t α
  loc : Locals α
  calls : List (Call α)

/-- What `gc_execute_line` leaves behind: its return value, the global `gc`, the automatic
variables at the return, and the calls it made. -/
structure Outcome (α : Type) where
  ret : Status
  gc : parser_state_t α
  loc : Locals α
  calls : List (Call α)

/-- The macro `FAIL`: the assignment `gc.status_code = status`.  The loops also use it to
take over the status code that `next_statement` leaves in `gc.status_code`. -/
def FAIL {α : Type} (fr : Frame α) (status : Status) : Frame α :=
  { fr with gc := { fr.gc with status_code := status } }

/-- The initial values of the automatic variables (source lines 131 to 152). -/
def initial_locals {α : Type} [LinearOrderedField α] : Locals α :=
  { inverse_feed_rate := -1, radius_mode := false,
    absolute_override := false, next_action := NextAction.DEFAULT, target := clear_vector,
    offset := clear_vector, p := 0, r := 0, homing_dist_to_move := 0, homing_threshold := 0,
    homing_max_number_of_times := 0, spindle_changed := false, homing_feed_rate := 0 }

/-! ## Assignments to single variables -/

/-- The assignment `gc.motion_mode = m`. -/
def Frame.set_motion_mode {α : Type} (fr : Frame α) (m : MotionMode) : Frame α :=
  { fr with gc := { fr.gc with motion_mode := m } }

/-- The assignment `next_action = a`. -/
def Frame.set_next_action {α : Type} (fr : Frame α) (a : NextAction) : Frame α :=
  { fr with loc := { fr.loc with next_action := a } }

/-- The call `select_plane(axis_0, axis_1, axis_2)`. -/
def Frame.set_plane {α : Type} (fr : Frame α) (axis_0 axis_1 axis_2 : ℕ) : Frame α :=
  { fr with gc := select_plane fr.gc axis_0 axis_1 axis_2 }

/-- The assignment `gc.inches_mode = b`. -/
def Frame.set_inches_mode {α : Type} (fr : Frame α) (b : Bool) : Frame α :=
  { fr with gc := { fr.gc with inches_mode := b } }

/-- The assignment `absolute_override = b`. -/
def Frame.set_absolute_override {α : Type} (fr : Frame α) (b : Bool) : Frame α :=
  { fr with loc := { fr.loc with absolute_override := b } }

/-- The assignment `gc.absolute_mode = b`. -/
def Frame.set_absolute_mode {α : Type} (fr : Frame α) (b : Bool) : Frame α :=
  { fr with gc := { fr.gc with absolute_mode := b } }

/-- The assignment `gc.inverse_feed_rate_mode = b`. -/
def Frame.set_inverse_feed_rate_mode {α : Type} (fr : Frame α) (b : Bool) : Frame α :=
  { fr with gc := { fr.gc with inverse_feed_rate_mode := b } }

/-- The assignment `gc.program_flow = f`. -/
def Frame.set_program_flow {α : Type} (fr : Frame α) (f : ProgramFlow) : Frame α :=
  { fr with gc := { fr.gc with program_flow := f } }

/-- The assignments `gc.spindle_direction = d; spindle_changed = TRUE`. -/
def Frame.set_spindle_direction {α : Type} (fr : Frame α) (d : ℤ) : Frame α :=
  { fr with gc := { fr.gc with spindle_direction := d },
            loc := { fr.loc with spindle_changed := true } }

/-- The assignment `gc.tool = t`. -/
def Frame.set_tool {α : Type} (fr : Frame α) (t : ℤ) : Frame α :=
  { fr with gc := { fr.gc with tool := t } }

/-- The assignment `inverse_feed_rate = v`. -/
def Frame.set_inverse_feed_rate {α : Type} (fr : Frame α) (v : α) : Frame α :=
  { fr with loc := { fr.loc with inverse_feed_rate := v } }

/-- The assignment `homing_feed_rate = v`. -/
def Frame.set_homing_feed_rate {α : Type} (fr : Frame α) (v : α) : Frame α :=
  { fr with loc := { fr.loc with homing_feed_rate := v } }

/-- The assignment `gc.seek_rate = v`. -/
def Frame.set_seek_rate {α : Type} (fr : Frame α) (v : α) : Frame α :=
  { fr with gc := { fr.gc with seek_rate := v } }

/-- The assignment `gc.feed_rate = v`. -/
def Frame.set_feed_rate {α : Type} (fr : Frame α) (v : α) : Frame α :=
  { fr with gc := { fr.gc with feed_rate := v } }

/-- The assignment `offset[i] = v`. -/
def Frame.set_offset {α : Type} (fr : Frame α) (i : ℤ) (v : α) : Frame α :=
  { fr with loc := { fr.loc with offset := fr.loc.offset.set i v } }

/-- The assignment `p = v`. -/
def Frame.set_p {α : Type} (fr : Frame α) (v : α) : Frame α :=
  { fr with loc := { fr.loc with p := v } }

/-- The assignments `r = v; radius_mode = TRUE`. -/
def Frame.set_r {α : Type} (fr : Frame α) (v : α) : Frame α :=
  { fr with loc := { fr.loc with r := v, radius_mode := true } }

/-- The assignment `gc.spindle_speed = n`. -/
def Frame.set_spindle_speed {α : Type} (fr : Frame α) (n : ℤ) : Frame α :=
  { fr with gc := { fr.gc with spindle_speed := n } }

/-- The assignment `target[i] = v`. -/
def Frame.set_target {α : Type} (fr : Frame α) (i : ℤ) (v : α) : Frame α :=
  { fr with loc := { fr.loc with target := fr.loc.target.set i v } }

/-- The assignment `homing_dist_to_move = v`. -/
def Frame.set_homing_dist_to_move {α : Type} (fr : Frame α) (v : α) : Frame α :=
  { fr with loc := { fr.loc with homing_dist_to_move := v } }

/-- The assignment `homing_threshold = v`. -/
def Frame.set_homing_threshold {α : Type} (fr : Frame α) (v : α) : Frame α :=
  { fr with loc := { fr.loc with homing_threshold := v } }

/-- The assignment `homing_max_number_of_times = n`. -/
def Frame.set_homing_max_number_of_times {α : Type} (fr : Frame α) (n : ℕ) : Frame α :=
  { fr with loc := { fr.loc with homing_max_number_of_times := n } }

/-! ## Pass 1: commands -/

/-- The `switch(int_value)` of pass 1 under `case 'G'`. -/
def pass1_G {α : Type} (fr : Frame α) (int_value : ℤ) : Frame α :=
  if int_value = 0 then fr.set_motion_mode MotionMode.SEEK
  else if int_value = 1 then fr.set_motion_mode MotionMode.LINEAR
  else if int_value = 2 then fr.set_motion_mode MotionMode.CW_ARC
  else if int_value = 3 then fr.set_motion_mode MotionMode.CCW_ARC
  else if int_value = 4 then fr.set_next_action NextAction.DWELL
  else if int_value = 17 then fr.set_plane X_AXIS Y_AXIS Z_AXIS
  else if int_value = 18 then fr.set_plane X_AXIS Z_AXIS Y_AXIS
  else if int_value = 19 then fr.set_plane Y_AXIS Z_AXIS X_AXIS
  else if int_value = 20 then fr.set_inches_mode true
  else if int_value = 21 then fr.set_inches_mode false
  else if int_value = 28 then fr.set_next_action NextAction.GO_HOME
  else if int_value = 30 then fr.set_next_action NextAction.MILL_GO_HOME
  else if int_value = 31 then fr.set_next_action NextAction.MEASURE_CAP
  else if int_value = 34 then fr.set_next_action NextAction.CUR_POS_IS_ORIGIN
  else if int_value = 35 then fr.set_next_action NextAction.TURN_OFF_ACCEL
  else if int_value = 36 then fr.set_next_action NextAction.TURN_ON_ACCEL
  else if int_value = 53 then fr.set_absolute_override true
  else if int_value = 80 then fr.set_motion_mode MotionMode.CANCEL
  else if int_value = 90 then fr.set_absolute_mode true
  else if int_value = 91 then fr.set_absolute_mode false
  else if int_value = 93 then fr.set_inverse_feed_rate_mode true
  else if int_value = 94 then fr.set_inverse_feed_rate_mode false
  else FAIL fr Status.UNSUPPORTED_STATEMENT

/-- The `switch(int_value)` of pass 1 under `case 'M'`. -/
def pass1_M {α : Type} (fr : Frame α) (int_value : ℤ) : Frame α :=
  if int_value = 0 ∨ int_value = 1 then fr.set_program_flow ProgramFlow.PAUSED
  else if int_value = 2 ∨ int_value = 30 ∨ int_value = 60 then
    fr.set_program_flow ProgramFlow.COMPLETED
  else if int_value = 3 then fr.set_spindle_direction 1
  else if int_value = 5 then fr.set_spindle_direction 0
  else FAIL fr Status.UNSUPPORTED_STATEMENT

/-- The body of the pass-1 loop, up to the test of `gc.status_code`: the `switch` on
`letter`. -/
def pass1_statement {α : Type} [LinearOrderedField α] [FloorRing α] (fr : Frame α)
    (letter : Char) (value : α) : Frame α :=
  let int_value : ℤ := trunc value
  if letter = 'G' then pass1_G fr int_value
  else if letter = 'M' then pass1_M fr int_value
  else if letter = 'T' then fr.set_tool (trunc value % 256)
  else fr

/-- The pass-1 loop `while(next_statement(...)) { ... if(gc.status_code) { break; } }`,
started with the counter at `char_counter`.  Every iteration moves the counter forward
inside the line, so `fuel` no smaller than the number of characters left never runs out. -/
def pass1 {α : Type} [LinearOrderedField α] [FloorRing α] (libc : Libc α) (line : List Char) :
    ℕ → ℕ → Frame α → Frame α
  | 0, _, fr => fr
  | fuel + 1, char_counter, fr =>
    let s := next_statement libc line char_counter fr.gc.status_code
    let fr := FAIL fr s.status_code
    if s.ret then
      let fr := pass1_statement fr s.letter s.value
      if fr.gc.status_code ≠ Status.OK then fr else pass1 libc line fuel s.char_counter fr
    else fr

/-! ## Pass 2: parameters -/

/-- Conversion of a `double` to `int16_t`. -/
def to_int16 (n : ℤ) : ℤ := (n + 32768) % 65536 - 32768

/-- The body of the pass-2 loop: the `switch` on `letter`. -/
def pass2_statement {α : Type} [LinearOrderedField α] [FloorRing α] (fr : Frame α)
    (letter : Char) (value : α) : Frame α :=
  let unit_converted_value := to_millimeters fr.gc value
  if letter = 'F' then
    if fr.gc.inverse_feed_rate_mode then fr.set_inverse_feed_rate unit_converted_value
    else if fr.loc.next_action = NextAction.MILL_GO_HOME
        ∨ fr.loc.next_action = NextAction.GO_HOME then
      fr.set_homing_feed_rate (unit_converted_value / 60)
    else if fr.gc.motion_mode = MotionMode.SEEK then fr.set_seek_rate (unit_converted_value / 60)
    else fr.set_feed_rate (unit_converted_value / 60)
  else if letter = 'I' ∨ letter = 'J' ∨ letter = 'K' then
    fr.set_offset ((letter.toNat : ℤ) - ('I'.toNat : ℤ)) unit_converted_value
  else if letter = 'P' then fr.set_p value
  else if letter = 'R' then fr.set_r unit_converted_value
  else if letter = 'S' then fr.set_spindle_speed (to_int16 (trunc value))
  else if letter = 'X' ∨ letter = 'Y' ∨ letter = 'Z' then
    let i : ℤ := (letter.toNat : ℤ) - ('X'.toNat : ℤ)
    if fr.gc.absolute_mode ∨ fr.loc.absolute_override then fr.set_target i unit_converted_value
    else fr.set_target i (fr.loc.target.get i + unit_converted_value)
  else if letter = 'A' then fr.set_homing_dist_to_move unit_converted_value
  else if letter = 'B' then fr.set_homing_threshold value
  else if letter = 'C' then fr.set_homing_max_number_of_times (trunc value % 65536).toNat
  else fr

/-- The pass-2 loop `while(next_statement(...)) { ... }`, started with the counter at
`char_counter`. -/
def pass2 {α : Type} [LinearOrderedField α] [FloorRing α] (libc : Libc α) (line : List Char) :
    ℕ → ℕ → Frame α → Frame α
  | 0, _, fr => fr
  | fuel + 1, char_counter, fr =>
    let s := next_statement libc line char_counter fr.gc.status_code
    let fr := FAIL fr s.status_code
    if s.ret then pass2 libc line fuel s.char_counter (pass2_statement fr s.letter s.value)
    else fr

/-! ## Motion control used by the dispatch -/

/-- The function `mc_cur_pos_is_origin` of `motion_control.c`: the position vector after the
call and the planner calls made.  For the selection -1 the source applies the macro
`clear_vector` to its parameter `double *position`. -/
def mc_cur_pos_is_origin {α : Type} [LinearOrderedField α] (libc : Libc α) (selection : ℤ)
    (position : Vec3 α) : Vec3 α × List (Call α) :=
  if selection = -1 then
    (libc.clear_vector_pointer position, [Call.plan_redefine_current_position 0 0 0])
  else if selection ≥ 0 ∧ selection ≤ 2 then
    let position := position.set selection 0
    if selection = 0 then
      (position, [Call.plan_redefine_current_position 0 position.y position.z])
    else if selection = 1 then
      (position, [Call.plan_redefine_current_position position.x 0 position.z])
    else if selection = 2 then
      (position, [Call.plan_redefine_current_position position.x position.y 0])
    else (position, [])
  else (position, [])

/-- Whether a call is `plan_buffer_line`. -/
def Call.is_plan_buffer_line {α : Type} : Call α → Bool
  | Call.plan_buffer_line _ _ _ _ _ => true
  | _ => false

/-- Whether a call is `plan_redefine_current_position`. -/
def Call.is_plan_redefine_current_position {α : Type} : Call α → Bool
  | Call.plan_redefine_current_position _ _ _ => true
  | _ => false

/-- Whether a call is `mc_arc`. -/
def Call.is_mc_arc {α : Type} : Call α → Bool
  | Call.mc_arc _ _ _ _ _ _ _ _ _ _ => true
  | _ => false

/-- Modelled from the spec: the planner (`planner.c`, not part of the sources at hand) keeps
one flag for its acceleration manager; `plan_is_acceleration_manager_enabled()` returns it
and `plan_set_acceleration_manager_enabled(b)` sets it.  This is the flag after a sequence
of calls, started from `enabled`. -/
def acceleration_manager_after {α : Type} (enabled : Bool) (calls : List (Call α)) : Bool :=
  calls.foldl
    (fun b c =>
      match c with
      | Call.plan_set_acceleration_manager_enabled e => e
      | _ => b)
    enabled

/-- The body of the loop of `mc_arc` run `n` times (source lines 79 to 83), from the angle
`theta` and the vector `target`: the `plan_buffer_line` calls it makes. -/
def arc_segments {α : Type} [LinearOrderedField α] (libc : Libc α)
    (theta_per_segment linear_per_segment center_x center_y radius : α)
    (axis_1 axis_2 axis_linear : ℤ) (feed_rate : α) (invert_feed_rate : Bool) :
    ℕ → α → Vec3 α → List (Call α)
  | 0, _, _ => []
  | n + 1, theta, target =>
    let target := target.set axis_linear (target.get axis_linear + linear_per_segment)
    let theta := theta + theta_per_segment
    let target := target.set axis_1 (center_x + libc.sin theta * radius)
    let target := target.set axis_2 (center_y + libc.cos theta * radius)
    Call.plan_buffer_line target.x target.y target.z feed_rate invert_feed_rate
      :: arc_segments libc theta_per_segment linear_per_segment center_x center_y radius
          axis_1 axis_2 axis_linear feed_rate invert_feed_rate n theta target

/-- The number of segments of `mc_arc` (source line 61), a `uint16_t`. -/
def arc_segment_count {α : Type} [LinearOrderedField α] [FloorRing α]
    (millimeters_of_travel mm_per_arc_segment : α) : ℕ :=
  (⌈millimeters_of_travel / mm_per_arc_segment⌉ % 65536).toNat

/-- The travel of `mc_arc` (source line 59).  `labs` takes a `long`: the linear travel is
converted to an integer, rounding toward zero, before its absolute value is taken. -/
def arc_millimeters_of_travel {α : Type} [LinearOrderedField α] [FloorRing α] (libc : Libc α)
    (angular_travel radius linear_travel : α) : α :=
  libc.hypot (angular_travel * radius) ((|trunc linear_travel| : ℤ) : α)

/-- The function `mc_arc` of `motion_control.c`: the calls it makes.  `mm_per_arc_segment`
is the setting of that name and `acceleration_manager_was_enabled` what
`plan_is_acceleration_manager_enabled()` returns.  The loop `for (i=0; i<=segments; i++)`
runs `segments + 1` times.  The local `target` is not initialised by the source; it starts
here as the zero vector (the three axis arguments of every call in `gcode.c` are the three
axes, so each entry is written before it is read). -/
def mc_arc {α : Type} [LinearOrderedField α] [FloorRing α] (libc : Libc α)
    (mm_per_arc_segment : α) (acceleration_manager_was_enabled : Bool)
    (theta angular_travel radius linear_travel : α) (axis_1 axis_2 axis_linear : ℤ)
    (feed_rate : α) (invert_feed_rate : Bool) (position : Vec3 α) : List (Call α) :=
  let disable : List (Call α) :=
    if acceleration_manager_was_enabled then [Call.plan_set_acceleration_manager_enabled false]
    else []
  let millimeters_of_travel := arc_millimeters_of_travel libc angular_travel radius linear_travel
  if millimeters_of_travel = 0 then disable
  else
    let segments : ℕ := arc_segment_count millimeters_of_travel mm_per_arc_segment
    let feed_rate := if invert_feed_rate then feed_rate * (segments : α) else feed_rate
    let theta_per_segment := angular_travel / (segments : α)
    let linear_per_segment := linear_travel / (segments : α)
    let center_x := position.get axis_1 - libc.sin theta * radius
    let center_y := position.get axis_2 - libc.cos theta * radius
    let target : Vec3 α := clear_vector
    let target := target.set axis_linear (position.get axis_linear)
    disable
      ++ arc_segments libc theta_per_segment linear_per_segment center_x center_y radius
          axis_1 axis_2 axis_linear feed_rate invert_feed_rate (segments + 1) theta target
      ++ (if acceleration_manager_was_enabled then
            [Call.plan_set_acceleration_manager_enabled true]
          else [])

/-- The line with index `i` in the description of `mc_arc`: the linear axis at
`linear_start + i * linear_per_segment`, the plane axes at the angle
`theta + i * theta_per_segment` around the centre. -/
def arc_line {α : Type} [LinearOrderedField α] (libc : Libc α)
    (theta theta_per_segment linear_per_segment center_x center_y radius : α)
    (axis_1 axis_2 axis_linear : ℤ) (linear_start feed_rate : α) (invert_feed_rate : Bool)
    (i : ℕ) : Call α :=
  let target : Vec3 α := clear_vector
  let target := target.set axis_linear (linear_start + (i : α) * linear_per_segment)
  let target := target.set axis_1 (center_x + libc.sin (theta + (i : α) * theta_per_segment) * radius)
  let target := target.set axis_2 (center_y + libc.cos (theta + (i : α) * theta_per_segment) * radius)
  Call.plan_buffer_line target.x target.y target.z feed_rate invert_feed_rate

/-- The two planner calls of one homing move (source lines 115 to 125). -/
def homing_move {α : Type} [LinearOrderedField α] (axis : ℤ) (feedRate moveVal : α)
    (position : Vec3 α) : List (Call α) :=
  if axis = 0 then
    [Call.plan_redefine_current_position 0 position.y position.z,
     Call.plan_buffer_line moveVal position.y position.z feedRate false]
  else if axis = 1 then
    [Call.plan_redefine_current_position position.x 0 position.z,
     Call.plan_buffer_line position.x moveVal position.z feedRate false]
  else if axis = 2 then
    [Call.plan_redefine_current_position position.x position.y 0,
     Call.plan_buffer_line position.x position.y moveVal feedRate false]
  else []

/-- The planner call after the homing loop (source lines 139 to 146). -/
def homing_redefine {α : Type} [LinearOrderedField α] (axis : ℤ) (position : Vec3 α) :
    List (Call α) :=
  if axis = 0 then [Call.plan_redefine_current_position 0 position.y position.z]
  else if axis = 1 then [Call.plan_redefine_current_position position.x 0 position.z]
  else if axis = 2 then [Call.plan_redefine_current_position position.x position.y 0]
  else []

/-- What a homing routine leaves behind: the final `numTimesMoved`, the position vector and
the calls made. -/
structure Homing (α : Type) where
  numTimesMoved : ℕ
  position : Vec3 α
  calls : List (Call α)

/-- The loop of `mc_do_homing_with_params` (source lines 110 to 132).  `sensor i` is the
outcome of the call number `i` of `cc_axisAverageCapValue` in this homing (the baseline
read is number 0): `none` when it returns -1, `some v` when it returns 0 and leaves
`capAverage = v`.  `last` is the outcome of the latest read, so `isTimedOut` is
`last = none` and `cc_getAverageVal()` is the value in `last`.  The first argument is
`maxNumTimesToMove - numTimesMoved`, the number of iterations the counter still allows. -/
def homing_loop {α : Type} [LinearOrderedField α] (sensor : ℕ → Option α) (axis : ℤ)
    (feedRate moveVal thresholdToStop : α) : ℕ → ℕ → Option α → Vec3 α → Homing α
  | 0, numTimesMoved, _, position =>
    { numTimesMoved := numTimesMoved, position := position, calls := [] }
  | left + 1, numTimesMoved, last, position =>
    match last with
    | none => { numTimesMoved := numTimesMoved, position := position, calls := [] }
    | some capAverage =>
      if capAverage < thresholdToStop then
        let position := position.set axis 0
        let rest := homing_loop sensor axis feedRate moveVal thresholdToStop left
          (numTimesMoved + 1) (sensor (numTimesMoved + 1)) position
        { rest with calls := [Call.st_synchronize]
            ++ homing_move axis feedRate moveVal position
            ++ [Call.st_synchronize, Call.cc_axisAverageCapValue axis (10 * 5)]
            ++ rest.calls }
      else { numTimesMoved := numTimesMoved, position := position, calls := [] }

/-- The function `mc_do_homing_with_params` of `motion_control.c`, with the capacitance
reads given by `sensor` (see `homing_loop`) and `acceleration_manager_was_enabled` what
`plan_is_acceleration_manager_enabled()` returns. -/
def mc_do_homing_with_params {α : Type} [LinearOrderedField α] (sensor : ℕ → Option α)
    (acceleration_manager_was_enabled : Bool) (axis : ℤ)
    (feedRate moveVal thresholdToStop : α) (maxNumTimesToMove : ℕ) (position : Vec3 α) :
    Homing α :=
  let loop := homing_loop sensor axis feedRate moveVal thresholdToStop maxNumTimesToMove 0
    (sensor 0) position
  let position := loop.position.set axis 0
  { numTimesMoved := loop.numTimesMoved
    position := position
    calls := [Call.plan_set_acceleration_manager_enabled false, Call.st_synchronize,
        Call.cc_axisAverageCapValue axis (10 * 5)]
      ++ loop.calls
      ++ [Call.printString "TimesMoved = ", Call.printInteger loop.numTimesMoved,
          Call.print_newline]
      ++ homing_redefine axis position
      ++ [Call.plan_set_acceleration_manager_enabled acceleration_manager_was_enabled] }

/-! ## Dispatch -/

/-- The spindle update (source lines 317 to 328). -/
def update_spindle {α : Type} (fr : Frame α) : Frame α :=
  if fr.loc.spindle_changed then
    if fr.gc.spindle_direction ≠ 0 then
      { fr with calls := fr.calls ++
          [Call.mc_dwell 0, Call.spindle_run fr.gc.spindle_direction fr.gc.spindle_speed] }
    else
      { fr with calls := fr.calls ++ [Call.mc_dwell 0, Call.spindle_stop] }
  else fr

/-- The test `isnan(h_x2_div_d)` for `h_x2_div_d = -sqrt(4*r*r - x*x - y*y)/hypot(x,y)`: the
quotient is NaN when the square root is taken of a negative number, and when numerator and
denominator are both zero. -/
def isnan_h_x2_div_d {α : Type} [LinearOrderedField α] (r x y : α) : Bool :=
  decide (4 * r * r - x * x - y * y < 0)
    || (decide (4 * r * r - x * x - y * y = 0) && decide (x = 0) && decide (y = 0))

/-- The centre offset of a radius-mode arc (source lines 436 to 463), for the travel `x`,
`y` in the selected plane. -/
def radius_mode_offset {α : Type} [LinearOrderedField α] (libc : Libc α) (fr : Frame α)
    (x y : α) : Vec3 α :=
  let h_x2_div_d := -libc.sqrt (4 * fr.loc.r * fr.loc.r - x * x - y * y) / libc.hypot x y
  let h_x2_div_d := if fr.gc.motion_mode = MotionMode.CCW_ARC then -h_x2_div_d else h_x2_div_d
  let h_x2_div_d := if fr.loc.r < 0 then -h_x2_div_d else h_x2_div_d
  let offset : Vec3 α := clear_vector
  let offset := offset.set (fr.gc.plane_axis_0 : ℤ) ((x - (y * h_x2_div_d)) / 2)
  offset.set (fr.gc.plane_axis_1 : ℤ) ((y + (x * h_x2_div_d)) / 2)

/-- The calls that trace an arc around the centre `fr.loc.offset` (source lines 481 to
503): `mc_arc` and the closing `plan_buffer_line`.  The two angles are `none` when they are
NaN: the comparison `theta_end < theta_start` is false when one of them is, and a
difference or sum with a NaN is one. -/
def trace_arc {α : Type} [LinearOrderedField α] (libc : Libc α) (fr : Frame α) :
    List (Call α) :=
  let a0 : ℤ := (fr.gc.plane_axis_0 : ℤ)
  let a1 : ℤ := (fr.gc.plane_axis_1 : ℤ)
  let a2 : ℤ := (fr.gc.plane_axis_2 : ℤ)
  let theta_start := theta libc (-fr.loc.offset.get a0) (-fr.loc.offset.get a1)
  let theta_end := theta libc
    (fr.loc.target.get a0 - fr.loc.offset.get a0 - fr.gc.position.get a0)
    (fr.loc.target.get a1 - fr.loc.offset.get a1 - fr.gc.position.get a1)
  let theta_end :=
    match theta_end, theta_start with
    | some e, some s => if e < s then some (e + 2 * libc.M_PI) else some e
    | e, _ => e
  let angular_travel :=
    match theta_end, theta_start with
    | some e, some s => some (e - s)
    | _, _ => none
  let angular_travel :=
    if fr.gc.motion_mode = MotionMode.CCW_ARC then
      angular_travel.map (fun a => a - 2 * libc.M_PI)
    else angular_travel
  let radius := libc.hypot (fr.loc.offset.get a0) (fr.loc.offset.get a1)
  let depth := fr.loc.target.get a2 - fr.gc.position.get a2
  let rate := if fr.gc.inverse_feed_rate_mode then fr.loc.inverse_feed_rate else fr.gc.feed_rate
  [Call.mc_arc theta_start angular_travel radius depth fr.gc.plane_axis_0
     fr.gc.plane_axis_1 fr.gc.plane_axis_2 rate fr.gc.inverse_feed_rate_mode fr.gc.position,
   Call.plan_buffer_line fr.loc.target.x fr.loc.target.y fr.loc.target.z rate
     fr.gc.inverse_feed_rate_mode]

/-- The arc dispatch (source lines 375 to 504).  The second component tells whether the
function returned from inside (the `FAIL` of line 435). -/
def dispatch_arc {α : Type} [LinearOrderedField α] (libc : Libc α) (fr : Frame α) :
    Frame α × Bool :=
  if fr.loc.radius_mode then
    let x := fr.loc.target.get (fr.gc.plane_axis_0 : ℤ) - fr.gc.position.get (fr.gc.plane_axis_0 : ℤ)
    let y := fr.loc.target.get (fr.gc.plane_axis_1 : ℤ) - fr.gc.position.get (fr.gc.plane_axis_1 : ℤ)
    let fr : Frame α := { fr with loc := { fr.loc with offset := clear_vector } }
    if isnan_h_x2_div_d fr.loc.r x y then (FAIL fr Status.FLOATING_POINT_ERROR, true)
    else
      let fr : Frame α := { fr with loc := { fr.loc with offset := radius_mode_offset libc fr x y } }
      ({ fr with calls := fr.calls ++ trace_arc libc fr }, false)
  else ({ fr with calls := fr.calls ++ trace_arc libc fr }, false)

/-- The `switch (next_action)` (source lines 334 to 507).  The second component tells
whether the function returned from inside the switch.  The homing routines write 0 to
`position[axis]` on every path (`motion_control.c` lines 138 and 182).  The argument
`trunc(p*1000)` of `mc_dwell` is converted to the `uint32_t` of its parameter, which is
taken modulo 2^32. -/
def perform_action {α : Type} [LinearOrderedField α] [FloorRing α] (libc : Libc α)
    (fr : Frame α) : Frame α × Bool :=
  match fr.loc.next_action with
  | NextAction.GO_HOME =>
    ({ fr with
        calls := fr.calls ++ [Call.mc_do_homing_with_params (trunc fr.loc.p)
          fr.loc.homing_feed_rate fr.loc.homing_dist_to_move fr.loc.homing_threshold
          fr.loc.homing_max_number_of_times fr.gc.position],
        gc := { fr.gc with position := fr.gc.position.set (trunc fr.loc.p) 0 },
        loc := { fr.loc with target := fr.loc.target.set (trunc fr.loc.p) 0 } }, false)
  | NextAction.MILL_GO_HOME =>
    ({ fr with
        calls := fr.calls ++ [Call.mc_dwell 0, Call.mc_do_mill_homing_with_params
          fr.loc.homing_feed_rate fr.loc.homing_dist_to_move fr.loc.homing_threshold
          fr.loc.homing_max_number_of_times fr.gc.position],
        gc := { fr.gc with position := fr.gc.position.set 2 0 },
        loc := { fr.loc with target := fr.loc.target.set 2 0 } }, false)
  | NextAction.CUR_POS_IS_ORIGIN =>
    let fr : Frame α :=
      { fr with
          calls := fr.calls ++ [Call.mc_cur_pos_is_origin (trunc fr.loc.p) fr.gc.position],
          gc := { fr.gc with
            position := (mc_cur_pos_is_origin libc (trunc fr.loc.p) fr.gc.position).1 } }
    if trunc fr.loc.p = -1 then
      ({ fr with loc := { fr.loc with
          target := ((fr.loc.target.set 0 0).set 1 0).set 2 0 } }, false)
    else if trunc fr.loc.p ≥ 0 ∧ trunc fr.loc.p ≤ 2 then
      ({ fr with loc := { fr.loc with target := fr.loc.target.set (trunc fr.loc.p) 0 } }, false)
    else (fr, false)
  | NextAction.TURN_OFF_ACCEL =>
    ({ fr with calls := fr.calls ++ [Call.plan_set_acceleration_manager_enabled false] }, false)
  | NextAction.TURN_ON_ACCEL =>
    ({ fr with calls := fr.calls ++ [Call.plan_set_acceleration_manager_enabled true] }, false)
  | NextAction.DWELL =>
    ({ fr with calls := fr.calls ++
        [Call.mc_dwell (trunc (fr.loc.p * 1000) % 4294967296)] }, false)
  | NextAction.MEASURE_CAP =>
    ({ fr with calls := fr.calls ++ [Call.cc_measure_cap (trunc fr.loc.p)] }, false)
  | NextAction.DEFAULT =>
    match fr.gc.motion_mode with
    | MotionMode.CANCEL => (fr, false)
    | MotionMode.SEEK =>
      ({ fr with calls := fr.calls ++
          [Call.plan_buffer_line fr.loc.target.x fr.loc.target.y fr.loc.target.z
            fr.gc.seek_rate false] }, false)
    | MotionMode.LINEAR =>
      ({ fr with calls := fr.calls ++
          [Call.plan_buffer_line fr.loc.target.x fr.loc.target.y fr.loc.target.z
            (if fr.gc.inverse_feed_rate_mode then fr.loc.inverse_feed_rate else fr.gc.feed_rate)
            fr.gc.inverse_feed_rate_mode] }, false)
    | MotionMode.CW_ARC => dispatch_arc libc fr
    | MotionMode.CCW_ARC => dispatch_arc libc fr

/-- The return of `gc_execute_line` with value `ret` from the frame `fr`. -/
def Frame.returns {α : Type} (fr : Frame α) (ret : Status) : Outcome α :=
  { ret := ret, gc := fr.gc, loc := fr.loc, calls := fr.calls }

/-- The configuration branch of `gc_execute_line` (source lines 161 to 172), for a line that
starts with the dollar sign. -/
def execute_settings_line {α : Type} (libc : Libc α) (line : List Char) (fr : Frame α) :
    Outcome α :=
  let char_counter := 1
  if charAt line char_counter = '$' then
    { fr with calls := fr.calls ++ [Call.sp_millInfo] }.returns Status.OK
  else if charAt line char_counter = Char.ofNat 0 then
    { fr with calls := fr.calls ++ [Call.settings_dump] }.returns Status.OK
  else
    let r := read_double libc line char_counter fr.gc.status_code
    let fr : Frame α :=
      { fr with gc := { fr.gc with status_code := r.status_code },
                loc := { fr.loc with p := r.value } }
    let char_counter := r.char_counter
    if charAt line char_counter ≠ '=' then fr.returns Status.UNSUPPORTED_STATEMENT
    else
      let char_counter := char_counter + 1
      let r := read_double libc line char_counter fr.gc.status_code
      let fr := FAIL fr r.status_code
      let value := r.value
      let char_counter := r.char_counter
      if charAt line char_counter ≠ Char.ofNat 0 then fr.returns Status.UNSUPPORTED_STATEMENT
      else
        { fr with calls := fr.calls ++
            [Call.settings_store_setting fr.loc.p value] }.returns fr.gc.status_code

/-- The frame with which `gc_execute_line` starts on the global state `gc` (source lines
131 to 154). -/
def initial_frame {α : Type} [LinearOrderedField α] (gc : parser_state_t α) : Frame α :=
  { gc := { gc with status_code := Status.OK }, loc := initial_locals, calls := [] }

/-- The assignments between the two passes (source lines 260 to 263). -/
def pass2_frame {α : Type} [LinearOrderedField α] (fr : Frame α) : Frame α :=
  { fr with loc := { fr.loc with offset := clear_vector, target := fr.gc.position,
                                 homing_feed_rate := fr.gc.feed_rate } }

/-- The part of `gc_execute_line` after the pass-2 loop (source lines 313 to 513): the
test of the status code, the spindle update, the action and the copy of `target` to
`gc.position`. -/
def finish_line {α : Type} [LinearOrderedField α] [FloorRing α] (libc : Libc α)
    (fr : Frame α) : Outcome α :=
  if fr.gc.status_code ≠ Status.OK then fr.returns fr.gc.status_code
  else
    let act := perform_action libc (update_spindle fr)
    if act.2 then act.1.returns act.1.gc.status_code
    else
      { act.1 with gc := { act.1.gc with position := act.1.loc.target } }.returns
        act.1.gc.status_code

/-- The function `gc_execute_line`, run on the global state `gc`. -/
def gc_execute_line {α : Type} [LinearOrderedField α] [FloorRing α] (libc : Libc α)
    (gc : parser_state_t α) (line : List Char) : Outcome α :=
  let fr := initial_frame gc
  if charAt line 0 = '(' then fr.returns fr.gc.status_code
  else
    let char_counter := if charAt line 0 = '/' then 1 else 0
    if charAt line 0 = '$' then execute_settings_line libc line fr
    else
      let fr := pass1 libc line (line.length + 1) char_counter fr
      if fr.gc.status_code ≠ Status.OK then fr.returns fr.gc.status_code
      else
        let char_counter := 0
        finish_line libc (pass2 libc line (line.length + 1) char_counter (pass2_frame fr))

/-! ## A C library over the rationals, for evaluation -/

/-- A C library over `ℚ` for running the interpreter on concrete lines: `strtod_decimal`,
the rational square root of Mathlib (exact on squares), and low-order rational
approximations of the circular functions.  The macro `clear_vector` is the one of Grbl, from
which the firmware derives, `memset(a, 0, sizeof(a))`: with a pointer for `a` it zeroes
`sizeof(double *)` bytes, here the first entry (a pointer of the size of a `double`), and
never reaches the other two entries. -/
def libcQ : Libc ℚ :=
  { strtod := strtod_decimal
    sqrt := Rat.sqrt
    hypot := fun x y => Rat.sqrt (x * x + y * y)
    atan := fun x => x / (1 + (9 / 32) * x * x)
    sin := fun x => x - x ^ 3 / 6 + x ^ 5 / 120
    cos := fun x => 1 - x ^ 2 / 2 + x ^ 4 / 24
    M_PI := 355 / 113
    clear_vector_pointer := fun v => ⟨0, v.y, v.z⟩ }

/-! ## The statements of a line -/

/-- What the statement loop of a pass reads from a line: the letter and number of every
statement for which `next_statement` returns 1, the counter at which it returns 0, and the
value of `gc.status_code` it leaves there (`OK` at the end of the line). -/
structure Scan (α : Type) where
  stmts : List (Char × α)
  stop : ℕ
  status_code : Status

/-- The statements read by calling `next_statement` again and again from `char_counter`,
with `gc.status_code` equal to `OK` at the start. -/
def statements {α : Type} [Zero α] (libc : Libc α) (line : List Char) : ℕ → ℕ → Scan α
  | 0, char_counter => { stmts := [], stop := char_counter, status_code := Status.OK }
  | fuel + 1, char_counter =>
    let s := next_statement libc line char_counter Status.OK
    if s.ret then
      let rest := statements libc line fuel s.char_counter
      { rest with stmts := (s.letter, s.value) :: rest.stmts }
    else { stmts := [], stop := char_counter, status_code := s.status_code }

/-- The counter with which pass 1 starts: 1 after a leading slash, else 0. -/
def first_counter (line : List Char) : ℕ :=
  if charAt line 0 = '/' then 1 else 0

/-- The statements of a line as pass 1 reads them. -/
def pass1_scan {α : Type} [Zero α] (libc : Libc α) (line : List Char) : Scan α :=
  statements libc line (line.length + 1) (first_counter line)

/-- The statements of a line as pass 2 reads them, from the first character. -/
def pass2_scan {α : Type} [Zero α] (libc : Libc α) (line : List Char) : Scan α :=
  statements libc line (line.length + 1) 0

/-- Pass 1 over a list of statements: the loop body for each statement until one leaves a
status code other than `OK`; `status` is what the reader leaves when the list is used up. -/
def pass1_statements {α : Type} [LinearOrderedField α] [FloorRing α] :
    List (Char × α) → Status → Frame α → Frame α
  | [], status, fr => FAIL fr status
  | s :: rest, status, fr =>
    let fr := pass1_statement fr s.1 s.2
    if fr.gc.status_code ≠ Status.OK then fr else pass1_statements rest status fr

/-- Pass 2 over a list of statements. -/
def pass2_statements {α : Type} [LinearOrderedField α] [FloorRing α] :
    List (Char × α) → Status → Frame α → Frame α
  | [], status, fr => FAIL fr status
  | s :: rest, status, fr => pass2_statements rest status (pass2_statement fr s.1 s.2)

/-- The G codes that pass 1 accepts. -/
def supported_G : List ℤ :=
  [0, 1, 2, 3, 4, 17, 18, 19, 20, 21, 28, 30, 31, 34, 35, 36, 53, 80, 90, 91, 93, 94]

/-- The M codes that pass 1 accepts. -/
def supported_M : List ℤ := [0, 1, 2, 3, 5, 30, 60]

/-- A statement that pass 1 does not reject: a G or M word with an accepted code, or a word
with any other letter. -/
def supported {α : Type} [LinearOrderedField α] [FloorRing α] (s : Char × α) : Prop :=
  (s.1 = 'G' → trunc s.2 ∈ supported_G) ∧ (s.1 = 'M' → trunc s.2 ∈ supported_M)

/-- The physical actions: spindle, dwell, motion, homing, origin redefinition and
capacitance measurement. -/
def Call.isPhysical {α : Type} : Call α → Bool
  | Call.mc_dwell _ => true
  | Call.spindle_run _ _ => true
  | Call.spindle_stop => true
  | Call.mc_do_homing_with_params _ _ _ _ _ _ => true
  | Call.mc_do_mill_homing_with_params _ _ _ _ _ => true
  | Call.mc_cur_pos_is_origin _ _ => true
  | Call.cc_measure_cap _ => true
  | Call.plan_buffer_line _ _ _ _ _ => true
  | Call.plan_redefine_current_position _ _ _ => true
  | Call.mc_arc _ _ _ _ _ _ _ _ _ _ => true
  | _ => false

/-- The G-code part of `gc_execute_line` as a function of the statements the two passes
read. -/
def execute_statements {α : Type} [LinearOrderedField α] [FloorRing α] (libc : Libc α)
    (gc : parser_state_t α) (s1 s2 : Scan α) : Outcome α :=
  let fr := pass1_statements s1.stmts s1.status_code (initial_frame gc)
  if fr.gc.status_code ≠ Status.OK then fr.returns fr.gc.status_code
  else finish_line libc (pass2_statements s2.stmts s2.status_code (pass2_frame fr))

/-- The frame after pass 1 of `gc_execute_line` (source line 256). -/
def pass1_frame {α : Type} [LinearOrderedField α] [FloorRing α] (libc : Libc α)
    (gc : parser_state_t α) (line : List Char) : Frame α :=
  pass1 libc line (line.length + 1) (if charAt line 0 = '/' then 1 else 0) (initial_frame gc)

/-- The frame after pass 2 of `gc_execute_line` (source line 313). -/
def parsed_frame {α : Type} [LinearOrderedField α] [FloorRing α] (libc : Libc α)
    (gc : parser_state_t α) (line : List Char) : Frame α :=
  pass2 libc line (line.length + 1) 0 (pass2_frame (pass1_frame libc gc line))

/-! ## The capacitance sensor (`cap_control.c`) -/

/-- A `float[6]` array: one of the delay lines `xv`, `yv` of the low-pass filter. -/
structure Vec6 (α : Type) where
  v0 : α
  v1 : α
  v2 : α
  v3 : α
  v4 : α
  v5 : α
  deriving DecidableEq, Repr

/-- The macro `NZEROS`. -/
def NZEROS : ℕ := 5

/-- The macro `GAIN`, 1.894427191e+01. -/
def GAIN {α : Type} [LinearOrderedField α] : α := 18.94427191

/-- The globals of `cap_control.c` that the measurement uses.  `polls` is not a variable of
the source: it counts the reads of `CAP_PIN` made so far, so that the next read returns the
reading number `polls` of the receive pin. -/
structure cap_state (α : Type) where
  xv : Vec6 α
  yv : Vec6 α
  capAverage : α
  capTotal : ℕ
  capTimeout : ℕ
  polls : ℕ
  deriving DecidableEq, Repr

/-- The function `cc_getAverageVal`. -/
def cc_getAverageVal {α : Type} (s : cap_state α) : α := s.capAverage

/-- The function `initLowPass`. -/
def initLowPass {α : Type} [LinearOrderedField α] (s : cap_state α) : cap_state α :=
  { s with xv := ⟨0, 0, 0, 0, 0, 0⟩, yv := ⟨0, 0, 0, 0, 0, 0⟩ }

/-- The function `lowPassFilter`: both delay lines move down by one place, the new input is
`capTotal / GAIN` and the new output the weighted sum of the source. -/
def lowPassFilter {α : Type} [LinearOrderedField α] (s : cap_state α) : cap_state α :=
  let xv : Vec6 α :=
    ⟨s.xv.v1, s.xv.v2, s.xv.v3, s.xv.v4, s.xv.v5, (s.capTotal : α) / GAIN⟩
  let yv : Vec6 α := ⟨s.yv.v1, s.yv.v2, s.yv.v3, s.yv.v4, s.yv.v5, s.yv.v5⟩
  { s with
    xv := xv
    yv := { yv with
      v5 := (xv.v0 + xv.v5) + 5 * (xv.v1 + xv.v4) + 10 * (xv.v2 + xv.v3)
        + (0.0000000000 * yv.v0) + (-0.0557280900 * yv.v1)
        + (-0.0000000000 * yv.v2) + (-0.6334368540 * yv.v3)
        + (-0.0000000000 * yv.v4) } }

/-- One of the two loops of `getCapacitanceValue`,
`while ((CAP_PIN & recvBit) is at level && (capTotal < capTimeout)) { capTotal++; }`,
as a function of the readings `pin` of the receive pin (`true` is high).  The first argument
is `capTimeout - capTotal`, the number of increments the second test still allows; the pin
is read at every test, also at the one that ends the loop.  The result is the final
`capTotal` and the number of reads made so far. -/
def count_while (pin : ℕ → Bool) (level : Bool) : ℕ → ℕ → ℕ → ℕ × ℕ
  | 0, polls, capTotal => (capTotal, polls + 1)
  | left + 1, polls, capTotal =>
    if pin polls = level then count_while pin level left (polls + 1) (capTotal + 1)
    else (capTotal, polls + 1)

/-- The function `getCapacitanceValue`, for the readings `pin` of the receive pin selected
by `recvBit`: the return value and the globals afterwards.  The writes to the port
registers are not modelled. -/
def getCapacitanceValue {α : Type} [LinearOrderedField α] (pin : ℕ → Bool)
    (s : cap_state α) : ℤ × cap_state α :=
  let s : cap_state α := { s with capTotal := 0 }
  let r := count_while pin false (s.capTimeout - s.capTotal) s.polls s.capTotal
  let s : cap_state α := { s with capTotal := r.1, polls := r.2 }
  if s.capTotal > s.capTimeout then (-1, s)
  else
    let r := count_while pin true (s.capTimeout - s.capTotal) s.polls s.capTotal
    let s : cap_state α := { s with capTotal := r.1, polls := r.2 }
    if s.capTotal ≥ s.capTimeout then (-1, s)
    else (0, lowPassFilter s)

/-- The first loop of `cc_axisAverageCapValue` (source lines 177 to 182) with `n`
iterations to go.  The first component is -1 when the function returned from inside the
loop. -/
def warm_up_loop {α : Type} [LinearOrderedField α] (pin : ℕ → Bool) :
    ℕ → cap_state α → ℤ × cap_state α
  | 0, s => (0, s)
  | n + 1, s =>
    let r := getCapacitanceValue pin s
    if r.1 < 0 then (-1, r.2) else warm_up_loop pin n r.2

/-- The second loop of `cc_axisAverageCapValue` (source lines 184 to 190) with `n`
iterations to go.  The first component is -1 when the function returned from inside the
loop. -/
def average_loop {α : Type} [LinearOrderedField α] (pin : ℕ → Bool) :
    ℕ → cap_state α → ℤ × cap_state α
  | 0, s => (0, s)
  | n + 1, s =>
    let r := getCapacitanceValue pin s
    if r.1 < 0 then (-1, r.2)
    else average_loop pin n { r.2 with capAverage := r.2.capAverage + r.2.yv.v5 }

/-- The function `cc_axisAverageCapValue`: the return value and the globals afterwards.
`pins axis` are the readings of the receive pin `senseRecvPins[axis]`; `numSamples` is a
`uint8_t`. -/
def cc_axisAverageCapValue {α : Type} [LinearOrderedField α] (pins : ℤ → ℕ → Bool)
    (axis : ℤ) (numSamples : ℕ) (s : cap_state α) : ℤ × cap_state α :=
  let s := initLowPass s
  let r := warm_up_loop (pins axis) (NZEROS + 1) s
  if r.1 < 0 then (-1, r.2)
  else
    let s : cap_state α := { r.2 with capAverage := 0 }
    let r := average_loop (pins axis) numSamples s
    if r.1 < 0 then (-1, r.2)
    else (0, { r.2 with capAverage := r.2.capAverage / (numSamples : α) })

/-- The globals after `n` consecutive calls of `getCapacitanceValue`, whatever they
return. -/
def run_cycles {α : Type} [LinearOrderedField α] (pin : ℕ → Bool) :
    ℕ → cap_state α → cap_state α
  | 0, s => s
  | n + 1, s => run_cycles pin n (getCapacitanceValue pin s).2

/-- The return value of the call number `k` (from 0) of a run of consecutive calls of
`getCapacitanceValue` that starts in `s`. -/
def cycle_ret {α : Type} [LinearOrderedField α] (pin : ℕ → Bool) (s : cap_state α)
    (k : ℕ) : ℤ :=
  (getCapacitanceValue pin (run_cycles pin k s)).1

/-- The sum of the filter output `yv[5]` after each of the calls number `m` to `m + n - 1`
of a run of consecutive calls of `getCapacitanceValue` that starts in `s`. -/
def sum_outputs {α : Type} [LinearOrderedField α] (pin : ℕ → Bool) (s : cap_state α)
    (m : ℕ) : ℕ → α
  | 0 => 0
  | n + 1 => sum_outputs pin s m n + (run_cycles pin (m + n + 1) s).yv.v5

/-- The C library over the reals as mathematics has it: the square root, the Euclidean
norm, the arc tangent, sine, cosine and the number pi. -/
def Libc.is_real (libc : Libc ℝ) : Prop :=
  libc.sqrt = Real.sqrt ∧ libc.hypot = (fun x y => Real.sqrt (x * x + y * y))
    ∧ libc.atan = Real.arctan ∧ libc.sin = Real.sin ∧ libc.cos = Real.cos
    ∧ libc.M_PI = Real.pi

/-- The calls of one iteration of the homing loop as its description has them: the planner
is told that the homed axis is at 0, then a line is enqueued that takes the homed axis to
`moveVal` and leaves the other two axes at the caller's values, at the rate `feedRate`. -/
def homing_iteration {α : Type} [LinearOrderedField α] (axis : ℤ) (feedRate moveVal : α)
    (position : Vec3 α) : List (Call α) :=
  [Call.st_synchronize,
   Call.plan_redefine_current_position (position.set axis 0).x (position.set axis 0).y
     (position.set axis 0).z,
   Call.plan_buffer_line (position.set axis moveVal).x (position.set axis moveVal).y
     (position.set axis moveVal).z feedRate false,
   Call.st_synchronize, Call.cc_axisAverageCapValue axis 50]

/-! ## The target of a line, as its description builds it -/

/-- The effect of one word on the target, in the words of the description: an X, Y or Z word
sets entry 0, 1 or 2 of the target to the value of the word, converted to millimetres, when
coordinates are absolute, and adds it to that entry when they are relative; every other word
leaves the target as it is. -/
def axis_word_target {α : Type} [LinearOrderedField α] (absolute inches : Bool)
    (target : Vec3 α) (word : Char × α) : Vec3 α :=
  let value := if inches then word.2 * MM_PER_INCH else word.2
  if word.1 = 'X' then target.set 0 (if absolute then value else target.get 0 + value)
  else if word.1 = 'Y' then target.set 1 (if absolute then value else target.get 1 + value)
  else if word.1 = 'Z' then target.set 2 (if absolute then value else target.get 2 + value)
  else target

/-- The target built from the words of a line, in the words of the description, starting
from the vector `old`. -/
def axis_words_target {α : Type} [LinearOrderedField α] (absolute inches : Bool)
    (words : List (Char × α)) (old : Vec3 α) : Vec3 α :=
  words.foldl (axis_word_target absolute inches) old

/-! ## Lemmas on the tokenizer, the two passes and the dispatch

The loops of the two passes are shown to be folds over the statements of the line
(`pass1_eq_statements`, `pass2_eq_statements`, `gc_execute_line_eq`), and the fuel
`line.length + 1` they are run with is shown never to run out (`statements_fuel_add`,
`pass1_fuel_add`, `pass2_fuel_add`).  The claims follow. -/

section Claims

set_option linter.unusedSectionVars false

variable {α : Type} [LinearOrderedField α] [FloorRing α]

theorem P_ite {β : Type} (P : β → Prop) (c : Prop) [Decidable c] (a b : β) (ha : P a)
    (hb : P b) : P (if c then a else b) := by
  split_ifs <;> assumption

theorem next_statement_ret_status (libc : Libc α) (line : List Char) (cc : ℕ) (st : Status)
    (h : (next_statement libc line cc st).ret = true) :
    (next_statement libc line cc st).status_code = st := by
  simp only [next_statement, read_double] at h ⊢
  split_ifs at h ⊢
  simp_all

theorem charAt_of_length_le (line : List Char) (i : ℕ) (h : line.length ≤ i) :
    charAt line i = Char.ofNat 0 := by
  simp [charAt, List.getD, List.getElem?_eq_none h]

theorem next_statement_ret_iff (libc : Libc α) (line : List Char) (cc : ℕ) (st : Status) :
    (next_statement libc line cc st).ret = true
      ↔ ('A' ≤ charAt line cc ∧ charAt line cc ≤ 'Z'
          ∧ (libc.strtod (line.drop (cc + 1))).2 ≠ 0) := by
  simp only [next_statement, read_double]
  split_ifs with h1 h2 h3
  · simp [h1]
  · rcases h2 with h2 | h2
    · simp; intro h; exact absurd h (not_le.mpr h2)
    · simp; intro _ h; exact absurd h (not_le.mpr h2)
  · simp [h3]
  · push_neg at h2
    simp [h3, h2.1, h2.2]

theorem next_statement_counter (libc : Libc α) (line : List Char) (cc : ℕ) (st : Status)
    (h : (next_statement libc line cc st).ret = true) :
    (next_statement libc line cc st).char_counter
      = cc + 1 + (libc.strtod (line.drop (cc + 1))).2 := by
  simp only [next_statement, read_double] at h ⊢
  split_ifs at h ⊢
  simp_all

theorem next_statement_ret_lt (libc : Libc α) (line : List Char) (cc : ℕ) (st : Status)
    (h : (next_statement libc line cc st).ret = true) :
    cc < line.length ∧ cc + 2 ≤ (next_statement libc line cc st).char_counter := by
  have hc := next_statement_counter libc line cc st h
  rw [next_statement_ret_iff] at h
  constructor
  · by_contra hlt
    have := charAt_of_length_le line cc (not_lt.mp hlt)
    rw [this] at h
    exact absurd h.1 (by decide)
  · have := h.2.2
    omega

theorem statements_fuel (libc : Libc α) (line : List Char) (fuel cc : ℕ)
    (h : line.length < cc + fuel) :
    statements libc line (fuel + 1) cc = statements libc line fuel cc := by
  induction fuel generalizing cc with
  | zero =>
    have hc := charAt_of_length_le line cc (by omega)
    simp [statements, next_statement, hc]
  | succ n ih =>
    rw [statements]
    conv_rhs => rw [statements]
    by_cases hr : (next_statement libc line cc Status.OK).ret = true
    · have hl := next_statement_ret_lt libc line cc Status.OK hr
      simp only [hr, if_true]
      rw [ih _ (by omega)]
    · simp [hr]

theorem statements_fuel_add (libc : Libc α) (line : List Char) (fuel cc k : ℕ)
    (h : line.length < cc + fuel) :
    statements libc line (fuel + k) cc = statements libc line fuel cc := by
  induction k with
  | zero => rfl
  | succ k ih => rw [← Nat.add_assoc, statements_fuel libc line (fuel + k) cc (by omega), ih]

theorem statements_stop (libc : Libc α) (line : List Char) (fuel cc : ℕ)
    (h : line.length < cc + fuel) :
    (next_statement libc line (statements libc line fuel cc).stop Status.OK).ret = false
      ∧ (next_statement libc line (statements libc line fuel cc).stop Status.OK).status_code
          = (statements libc line fuel cc).status_code := by
  induction fuel generalizing cc with
  | zero =>
    have hc := charAt_of_length_le line cc (by omega)
    simp [statements, next_statement, hc]
  | succ n ih =>
    rw [statements]
    by_cases hr : (next_statement libc line cc Status.OK).ret = true
    · have hl := next_statement_ret_lt libc line cc Status.OK hr
      simp only [hr, if_true]
      exact ih _ (by omega)
    · simp only [hr]
      simp [hr]

theorem statements_head (libc : Libc α) (line : List Char) (fuel cc : ℕ) (s : Char × α)
    (rest : List (Char × α)) (h : (statements libc line fuel cc).stmts = s :: rest) :
    charAt line cc = s.1 := by
  cases fuel with
  | zero => simp [statements] at h
  | succ n =>
    rw [statements] at h
    by_cases hr : (next_statement libc line cc Status.OK).ret = true
    · simp only [hr, if_true, List.cons.injEq] at h
      rw [← h.1]
      simp only [next_statement]
      split_ifs <;> simp_all
    · simp [hr] at h

theorem pass1_eq_statements (libc : Libc α) (line : List Char) (fuel cc : ℕ) (fr : Frame α)
    (h : fr.gc.status_code = Status.OK) :
    pass1 libc line fuel cc fr
      = pass1_statements (statements libc line fuel cc).stmts
          (statements libc line fuel cc).status_code fr := by
  induction fuel generalizing cc fr with
  | zero =>
    simp only [pass1, statements, pass1_statements]
    rw [← h]; rfl
  | succ n ih =>
    have hf : FAIL fr Status.OK = fr := by rw [← h]; rfl
    simp only [pass1, statements]
    rw [h]
    by_cases hr : (next_statement libc line cc Status.OK).ret = true
    · have hs := next_statement_ret_status libc line cc Status.OK hr
      simp only [hr, if_true, pass1_statements, hs, hf]
      by_cases hk : (pass1_statement fr (next_statement libc line cc Status.OK).letter
          (next_statement libc line cc Status.OK).value).gc.status_code = Status.OK
      · simp only [hk, ne_eq, not_true_eq_false, if_false]
        exact ih _ _ hk
      · simp only [hk, ne_eq, not_false_eq_true, if_true]
    · simp only [hr, pass1_statements]
      simp

theorem pass2_statement_status (fr : Frame α) (l : Char) (v : α) :
    (pass2_statement fr l v).gc.status_code = fr.gc.status_code := by
  unfold pass2_statement
  dsimp only
  repeat' (first
    | rfl
    | refine P_ite (fun f : Frame α => f.gc.status_code = fr.gc.status_code) _ _ _ ?_ ?_)

theorem pass2_eq_statements (libc : Libc α) (line : List Char) (fuel cc : ℕ) (fr : Frame α)
    (h : fr.gc.status_code = Status.OK) :
    pass2 libc line fuel cc fr
      = pass2_statements (statements libc line fuel cc).stmts
          (statements libc line fuel cc).status_code fr := by
  induction fuel generalizing cc fr with
  | zero =>
    simp only [pass2, statements, pass2_statements]
    rw [← h]; rfl
  | succ n ih =>
    have hf : FAIL fr Status.OK = fr := by rw [← h]; rfl
    simp only [pass2, statements]
    rw [h]
    by_cases hr : (next_statement libc line cc Status.OK).ret = true
    · have hs := next_statement_ret_status libc line cc Status.OK hr
      simp only [hr, if_true, pass2_statements, hs, hf]
      exact ih _ _ (by rw [pass2_statement_status]; exact h)
    · simp only [hr, pass2_statements]
      simp

theorem pass1_fuel_add (libc : Libc α) (line : List Char) (fuel cc k : ℕ) (fr : Frame α)
    (h : fr.gc.status_code = Status.OK) (hl : line.length < cc + fuel) :
    pass1 libc line (fuel + k) cc fr = pass1 libc line fuel cc fr := by
  rw [pass1_eq_statements libc line _ _ _ h, pass1_eq_statements libc line _ _ _ h,
    statements_fuel_add libc line fuel cc k hl]

theorem pass2_fuel_add (libc : Libc α) (line : List Char) (fuel cc k : ℕ) (fr : Frame α)
    (h : fr.gc.status_code = Status.OK) (hl : line.length < cc + fuel) :
    pass2 libc line (fuel + k) cc fr = pass2 libc line fuel cc fr := by
  rw [pass2_eq_statements libc line _ _ _ h, pass2_eq_statements libc line _ _ _ h,
    statements_fuel_add libc line fuel cc k hl]

theorem pass2_frame_status (fr : Frame α) :
    (pass2_frame fr).gc.status_code = fr.gc.status_code := rfl

/-- On a line that is neither a comment nor a configuration command `gc_execute_line` is
the two passes over the statements of the line followed by the dispatch. -/
theorem gc_execute_line_eq (libc : Libc α) (gc : parser_state_t α) (line : List Char)
    (h1 : charAt line 0 ≠ '(') (h2 : charAt line 0 ≠ '$') :
    gc_execute_line libc gc line
      = execute_statements libc gc (pass1_scan libc line) (pass2_scan libc line) := by
  unfold gc_execute_line execute_statements pass1_scan pass2_scan first_counter
  simp only [h1, h2, if_false]
  rw [pass1_eq_statements libc line _ _ _ rfl]
  generalize (if charAt line 0 = '/' then 1 else 0) = c
  by_cases hk : (pass1_statements (statements libc line (line.length + 1) c).stmts
      (statements libc line (line.length + 1) c).status_code
      (initial_frame gc)).gc.status_code = Status.OK
  · simp only [hk, ne_eq, not_true_eq_false, if_false]
    rw [pass2_eq_statements libc line _ _ _ (by rw [pass2_frame_status]; exact hk)]
  · simp only [hk, ne_eq, not_false_eq_true, if_true]

theorem pass2_scan_slash (libc : Libc α) (L : List Char) :
    (pass2_scan libc ('/' :: L)).stmts = []
      ∧ (pass2_scan libc ('/' :: L)).status_code = Status.EXPECTED_COMMAND_LETTER := by
  simp [pass2_scan, statements, next_statement, charAt]

theorem trunc_intCast (n : ℤ) : trunc (n : α) = n := by
  unfold trunc
  split_ifs <;> simp

theorem trunc_natCast (n : ℕ) : trunc (n : α) = n := by
  have := trunc_intCast (α := α) (n : ℤ)
  simpa using this

@[simp] theorem trunc_ofNat (n : ℕ) [n.AtLeastTwo] :
    trunc (no_index (OfNat.ofNat n : α)) = OfNat.ofNat n := by
  have := trunc_natCast (α := α) n
  simpa using this

@[simp] theorem trunc_zero : trunc (0 : α) = 0 := by
  have := trunc_natCast (α := α) 0
  simpa using this

@[simp] theorem trunc_one : trunc (1 : α) = 1 := by
  have := trunc_natCast (α := α) 1
  simpa using this

theorem pass1_scan_eq_pass2_scan (libc : Libc α) (line : List Char)
    (h : charAt line 0 ≠ '/') : pass1_scan libc line = pass2_scan libc line := by
  simp [pass1_scan, pass2_scan, first_counter, h]

theorem dispatch_arc_returned (libc : Libc α) (fr : Frame α)
    (h : (dispatch_arc libc fr).2 = true) :
    (dispatch_arc libc fr).1.gc.status_code = Status.FLOATING_POINT_ERROR
      ∧ (dispatch_arc libc fr).1.calls = fr.calls
      ∧ (dispatch_arc libc fr).1.gc.position = fr.gc.position := by
  simp only [dispatch_arc] at h ⊢
  split_ifs at h ⊢ <;> simp_all [FAIL]

theorem dispatch_arc_not_returned (libc : Libc α) (fr : Frame α)
    (h : (dispatch_arc libc fr).2 = false) :
    (dispatch_arc libc fr).1.gc = fr.gc := by
  simp only [dispatch_arc] at h ⊢
  split_ifs at h ⊢ <;> simp_all

theorem perform_action_returned (libc : Libc α) (fr : Frame α)
    (h : (perform_action libc fr).2 = true) :
    (perform_action libc fr).1.gc.status_code = Status.FLOATING_POINT_ERROR
      ∧ (perform_action libc fr).1.calls = fr.calls
      ∧ (perform_action libc fr).1.gc.position = fr.gc.position := by
  cases hn : fr.loc.next_action <;> simp only [perform_action, hn] at h ⊢ <;>
    try (simp at h)
  · cases hm : fr.gc.motion_mode <;> simp only [hm] at h ⊢ <;> try (simp at h)
    · exact dispatch_arc_returned libc fr h
    · exact dispatch_arc_returned libc fr h
  · split_ifs at h <;> simp at h

theorem perform_action_status (libc : Libc α) (fr : Frame α)
    (h : (perform_action libc fr).2 = false) :
    (perform_action libc fr).1.gc.status_code = fr.gc.status_code := by
  cases hn : fr.loc.next_action <;> simp only [perform_action, hn] at h ⊢
  · cases hm : fr.gc.motion_mode <;> simp only [hm] at h ⊢
    · rw [dispatch_arc_not_returned libc fr h]
    · rw [dispatch_arc_not_returned libc fr h]
  · split_ifs <;> rfl

theorem update_spindle_gc (fr : Frame α) : (update_spindle fr).gc = fr.gc := by
  unfold update_spindle
  split_ifs <;> rfl

theorem finish_line_OK (libc : Libc α) (fr : Frame α)
    (h : (finish_line libc fr).ret = Status.OK) :
    (finish_line libc fr).gc.position = (finish_line libc fr).loc.target := by
  unfold finish_line at h ⊢
  by_cases h1 : fr.gc.status_code = Status.OK
  · simp only [h1, ne_eq, not_true_eq_false, if_false] at h ⊢
    by_cases h2 : (perform_action libc (update_spindle fr)).2 = true
    · have := (perform_action_returned libc _ h2).1
      simp only [h2, if_true, Frame.returns] at h
      rw [this] at h
      exact absurd h (by decide)
    · simp only [h2]
      rfl
  · simp only [h1, ne_eq, not_false_eq_true, if_true, Frame.returns] at h

theorem pass1_G_calls (fr : Frame α) (n : ℤ) : (pass1_G fr n).calls = fr.calls := by
  unfold pass1_G
  repeat (first | rfl | refine P_ite (fun f : Frame α => f.calls = fr.calls) _ _ _ rfl ?_)

theorem pass1_M_calls (fr : Frame α) (n : ℤ) : (pass1_M fr n).calls = fr.calls := by
  unfold pass1_M
  repeat (first | rfl | refine P_ite (fun f : Frame α => f.calls = fr.calls) _ _ _ rfl ?_)

theorem pass1_statement_calls (fr : Frame α) (l : Char) (v : α) :
    (pass1_statement fr l v).calls = fr.calls := by
  simp only [pass1_statement]
  split_ifs
  · exact pass1_G_calls _ _
  · exact pass1_M_calls _ _
  · rfl
  · rfl

theorem pass1_G_position (fr : Frame α) (n : ℤ) :
    (pass1_G fr n).gc.position = fr.gc.position := by
  unfold pass1_G
  repeat (first
    | rfl
    | refine P_ite (fun f : Frame α => f.gc.position = fr.gc.position) _ _ _ rfl ?_)

theorem pass1_M_position (fr : Frame α) (n : ℤ) :
    (pass1_M fr n).gc.position = fr.gc.position := by
  unfold pass1_M
  repeat (first
    | rfl
    | refine P_ite (fun f : Frame α => f.gc.position = fr.gc.position) _ _ _ rfl ?_)

theorem pass1_statement_position (fr : Frame α) (l : Char) (v : α) :
    (pass1_statement fr l v).gc.position = fr.gc.position := by
  simp only [pass1_statement]
  split_ifs
  · exact pass1_G_position _ _
  · exact pass1_M_position _ _
  · rfl
  · rfl

theorem pass1_G_status (fr : Frame α) (n : ℤ) :
    (pass1_G fr n).gc.status_code = fr.gc.status_code
      ∨ (pass1_G fr n).gc.status_code = Status.UNSUPPORTED_STATEMENT := by
  unfold pass1_G
  repeat (first
    | exact Or.inr rfl
    | refine P_ite (fun f : Frame α => f.gc.status_code = fr.gc.status_code
        ∨ f.gc.status_code = Status.UNSUPPORTED_STATEMENT) _ _ _ (Or.inl rfl) ?_)

theorem pass1_M_status (fr : Frame α) (n : ℤ) :
    (pass1_M fr n).gc.status_code = fr.gc.status_code
      ∨ (pass1_M fr n).gc.status_code = Status.UNSUPPORTED_STATEMENT := by
  unfold pass1_M
  repeat (first
    | exact Or.inr rfl
    | refine P_ite (fun f : Frame α => f.gc.status_code = fr.gc.status_code
        ∨ f.gc.status_code = Status.UNSUPPORTED_STATEMENT) _ _ _ (Or.inl rfl) ?_)

theorem pass1_statement_status (fr : Frame α) (l : Char) (v : α) :
    (pass1_statement fr l v).gc.status_code = fr.gc.status_code
      ∨ (pass1_statement fr l v).gc.status_code = Status.UNSUPPORTED_STATEMENT := by
  simp only [pass1_statement]
  split_ifs
  · exact pass1_G_status _ _
  · exact pass1_M_status _ _
  · exact Or.inl rfl
  · exact Or.inl rfl

theorem pass1_statements_calls (stmts : List (Char × α)) (st : Status) (fr : Frame α) :
    (pass1_statements stmts st fr).calls = fr.calls := by
  induction stmts generalizing fr with
  | nil => rfl
  | cons s rest ih =>
    simp only [pass1_statements]
    split_ifs
    · exact pass1_statement_calls fr s.1 s.2
    · rw [ih, pass1_statement_calls]

theorem pass1_statements_position (stmts : List (Char × α)) (st : Status) (fr : Frame α) :
    (pass1_statements stmts st fr).gc.position = fr.gc.position := by
  induction stmts generalizing fr with
  | nil => rfl
  | cons s rest ih =>
    simp only [pass1_statements]
    split_ifs
    · exact pass1_statement_position fr s.1 s.2
    · rw [ih, pass1_statement_position]

theorem pass2_statement_calls (fr : Frame α) (l : Char) (v : α) :
    (pass2_statement fr l v).calls = fr.calls := by
  unfold pass2_statement
  dsimp only
  repeat' (first | rfl | refine P_ite (fun f : Frame α => f.calls = fr.calls) _ _ _ ?_ ?_)

theorem pass2_statement_position (fr : Frame α) (l : Char) (v : α) :
    (pass2_statement fr l v).gc.position = fr.gc.position := by
  unfold pass2_statement
  dsimp only
  repeat' (first
    | rfl
    | refine P_ite (fun f : Frame α => f.gc.position = fr.gc.position) _ _ _ ?_ ?_)

theorem pass2_statements_calls (stmts : List (Char × α)) (st : Status) (fr : Frame α) :
    (pass2_statements stmts st fr).calls = fr.calls := by
  induction stmts generalizing fr with
  | nil => rfl
  | cons s rest ih => simp only [pass2_statements]; rw [ih, pass2_statement_calls]

theorem pass2_statements_position (stmts : List (Char × α)) (st : Status) (fr : Frame α) :
    (pass2_statements stmts st fr).gc.position = fr.gc.position := by
  induction stmts generalizing fr with
  | nil => rfl
  | cons s rest ih => simp only [pass2_statements]; rw [ih, pass2_statement_position]

theorem pass2_statements_status (stmts : List (Char × α)) (st : Status) (fr : Frame α) :
    (pass2_statements stmts st fr).gc.status_code = st := by
  induction stmts generalizing fr with
  | nil => rfl
  | cons s rest ih => simp only [pass2_statements]; rw [ih]

theorem block_delete_never_OK (libc : Libc α) (gc : parser_state_t α) (L : List Char) :
    (gc_execute_line libc gc ('/' :: L)).ret ≠ Status.OK
      ∧ (gc_execute_line libc gc ('/' :: L)).calls = [] := by
  have h1 : charAt ('/' :: L) 0 ≠ '(' := by simp [charAt]
  have h2 : charAt ('/' :: L) 0 ≠ '$' := by simp [charAt]
  rw [gc_execute_line_eq libc gc _ h1 h2]
  unfold execute_statements
  generalize pass1_scan libc ('/' :: L) = s1
  by_cases hk : (pass1_statements s1.stmts s1.status_code (initial_frame gc)).gc.status_code
      = Status.OK
  · simp only [hk, ne_eq, not_true_eq_false, if_false]
    have hst : (pass2_statements (pass2_scan libc ('/' :: L)).stmts
        (pass2_scan libc ('/' :: L)).status_code
        (pass2_frame (pass1_statements s1.stmts s1.status_code (initial_frame gc)))).gc.status_code
        = Status.EXPECTED_COMMAND_LETTER := by
      rw [pass2_statements_status, (pass2_scan_slash libc L).2]
    unfold finish_line
    simp only [hst, ne_eq, if_true, Frame.returns, reduceCtorEq, not_false_eq_true]
    refine ⟨trivial, ?_⟩
    rw [pass2_statements_calls]
    exact pass1_statements_calls _ _ _
  · simp only [hk, ne_eq, not_false_eq_true, if_true, Frame.returns]
    exact ⟨trivial, pass1_statements_calls _ _ _⟩

theorem OK_position_eq_target (libc : Libc α) (gc : parser_state_t α) (l : List Char)
    (h1 : charAt l 0 ≠ '(') (h2 : charAt l 0 ≠ '$')
    (h : (gc_execute_line libc gc l).ret = Status.OK) :
    (gc_execute_line libc gc l).gc.position = (gc_execute_line libc gc l).loc.target := by
  unfold gc_execute_line at h ⊢
  simp only [h1, h2, if_false] at h ⊢
  generalize (if charAt l 0 = '/' then 1 else 0) = c at h ⊢
  by_cases h3 : (pass1 libc l (l.length + 1) c (initial_frame gc)).gc.status_code = Status.OK
  · simp only [h3, ne_eq, not_true_eq_false, if_false] at h ⊢
    exact finish_line_OK libc _ h
  · simp only [h3, ne_eq, not_false_eq_true, if_true, Frame.returns] at h

/-- Claim C1 (block delete), evaluated on the code.  The claim fails on the code.  A line that starts with a slash never
returns OK and never makes a call, whatever follows the slash: pass 1 skips the slash, but
pass 2 starts again at the first character.  At the line `/G0X1` from the power-on state
`gc_execute_line` returns ExpectedCommandLetter with no call, while `G0X1` returns OK and
queues the line to (1, 0, 0). -/
theorem C1_block_delete_is_rejected :
    (∀ (gc : parser_state_t ℚ) (L : List Char),
        (gc_execute_line libcQ gc ('/' :: L)).ret ≠ Status.OK
          ∧ (gc_execute_line libcQ gc ('/' :: L)).calls = [])
    ∧ (gc_execute_line libcQ (gc_init 381 381) "/G0X1".toList).ret
        = Status.EXPECTED_COMMAND_LETTER
    ∧ (gc_execute_line libcQ (gc_init 381 381) "/G0X1".toList).calls = []
    ∧ (gc_execute_line libcQ (gc_init 381 381) "/G0X1".toList).gc.position = ⟨0, 0, 0⟩
    ∧ (gc_execute_line libcQ (gc_init 381 381) "G0X1".toList).ret = Status.OK
    ∧ (gc_execute_line libcQ (gc_init 381 381) "G0X1".toList).calls
        = [Call.plan_buffer_line 1 0 0 (381 / 60) false]
    ∧ (gc_execute_line libcQ (gc_init 381 381) "G0X1".toList).gc.position = ⟨1, 0, 0⟩ := by
  refine ⟨fun gc L => block_delete_never_OK libcQ gc L, ?_, ?_, ?_, ?_, ?_, ?_⟩
  all_goals
    rw [gc_execute_line_eq _ _ _ (by simp [charAt]) (by simp [charAt])]
    simp [pass1_scan, pass2_scan, first_counter, statements, next_statement, read_double, libcQ, strtod_decimal, scanNumeral, takeDigits, takeSign, charAt, Numeral.value, gc_init, clear_vector,
      execute_statements, pass1_statements, pass2_statements, pass1_statement,
    pass2_statement, pass1_G, pass1_M, finish_line, perform_action, update_spindle,
    initial_frame, pass2_frame, initial_locals, FAIL, Frame.returns, to_millimeters, Vec3.set,
    Vec3.get, select_plane, Frame.set_motion_mode, Frame.set_next_action, Frame.set_plane,
    Frame.set_inches_mode, Frame.set_absolute_override, Frame.set_absolute_mode,
    Frame.set_inverse_feed_rate_mode, Frame.set_program_flow, Frame.set_spindle_direction,
    Frame.set_tool, Frame.set_inverse_feed_rate, Frame.set_homing_feed_rate,
    Frame.set_seek_rate, Frame.set_feed_rate, Frame.set_offset, Frame.set_p, Frame.set_r,
    Frame.set_spindle_speed, Frame.set_target, Frame.set_homing_dist_to_move,
    Frame.set_homing_threshold, Frame.set_homing_max_number_of_times]

/-- Claim C2 (linear move).  From the state after `gc_init` with any position, a line whose
statements are G21 G90 G1 Xx Yy Zz Ff returns OK, makes the single call
`plan_buffer_line(x, y, z, f/60, FALSE)` and leaves `gc.position = (x, y, z)`; and after
every OK return of a G-code line `gc.position` equals the local `target`. -/
theorem C2_linear_move (libc : Libc α) (line : List Char)
    (default_feed_rate default_seek_rate : α) (pos : Vec3 α) (x y z f : α)
    (hs : (pass2_scan libc line).stmts
      = [('G', 21), ('G', 90), ('G', 1), ('X', x), ('Y', y), ('Z', z), ('F', f)])
    (hst : (pass2_scan libc line).status_code = Status.OK) :
    ((gc_execute_line libc
        { gc_init default_feed_rate default_seek_rate with position := pos } line).ret
      = Status.OK
    ∧ (gc_execute_line libc
        { gc_init default_feed_rate default_seek_rate with position := pos } line).calls
      = [Call.plan_buffer_line x y z (f / 60) false]
    ∧ (gc_execute_line libc
        { gc_init default_feed_rate default_seek_rate with position := pos } line).gc.position
      = ⟨x, y, z⟩)
    ∧ (∀ (gc : parser_state_t α) (l : List Char), charAt l 0 ≠ '(' → charAt l 0 ≠ '$' →
        (gc_execute_line libc gc l).ret = Status.OK →
        (gc_execute_line libc gc l).gc.position = (gc_execute_line libc gc l).loc.target) := by
  have h0 : charAt line 0 = 'G' := statements_head libc line _ 0 _ _ hs
  have h1 : charAt line 0 ≠ '(' := by rw [h0]; decide
  have h2 : charAt line 0 ≠ '$' := by rw [h0]; decide
  have h3 : charAt line 0 ≠ '/' := by rw [h0]; decide
  refine ⟨?_, fun gc l hl1 hl2 hl => OK_position_eq_target libc gc l hl1 hl2 hl⟩
  rw [gc_execute_line_eq libc _ line h1 h2, pass1_scan_eq_pass2_scan libc line h3]
  simp [hs, hst, gc_init, execute_statements, pass1_statements, pass2_statements, pass1_statement,
    pass2_statement, pass1_G, pass1_M, finish_line, perform_action, update_spindle,
    initial_frame, pass2_frame, initial_locals, FAIL, Frame.returns, to_millimeters, Vec3.set,
    Vec3.get, select_plane, Frame.set_motion_mode, Frame.set_next_action, Frame.set_plane,
    Frame.set_inches_mode, Frame.set_absolute_override, Frame.set_absolute_mode,
    Frame.set_inverse_feed_rate_mode, Frame.set_program_flow, Frame.set_spindle_direction,
    Frame.set_tool, Frame.set_inverse_feed_rate, Frame.set_homing_feed_rate,
    Frame.set_seek_rate, Frame.set_feed_rate, Frame.set_offset, Frame.set_p, Frame.set_r,
    Frame.set_spindle_speed, Frame.set_target, Frame.set_homing_dist_to_move,
    Frame.set_homing_threshold, Frame.set_homing_max_number_of_times]

theorem C2_linear_move_witness :
    (gc_execute_line libcQ { gc_init 381 381 with position := ⟨1, 2, 3⟩ }
        "G21G90G1X10Y0Z0F600".toList).ret = Status.OK
    ∧ (gc_execute_line libcQ { gc_init 381 381 with position := ⟨1, 2, 3⟩ }
        "G21G90G1X10Y0Z0F600".toList).calls = [Call.plan_buffer_line 10 0 0 10 false]
    ∧ (gc_execute_line libcQ { gc_init 381 381 with position := ⟨1, 2, 3⟩ }
        "G21G90G1X10Y0Z0F600".toList).gc.position = ⟨10, 0, 0⟩ := by
  have h := (C2_linear_move libcQ "G21G90G1X10Y0Z0F600".toList 381 381 ⟨1, 2, 3⟩ 10 0 0 600
    (by simp [pass1_scan, pass2_scan, first_counter, statements, next_statement, read_double, libcQ, strtod_decimal, scanNumeral, takeDigits, takeSign, charAt, Numeral.value]) (by simp [pass1_scan, pass2_scan, first_counter, statements, next_statement, read_double, libcQ, strtod_decimal, scanNumeral, takeDigits, takeSign, charAt, Numeral.value])).1
  norm_num at h
  exact h

theorem trunc_ten : trunc (10 : α) = 10 := trunc_ofNat 10

/-- Claim C3 (absolute-override scope), amended to millimetre mode.  From every state with
`absolute_mode` false, a line with the statements G53 X10 returns OK and sets `position[0]`
to `to_millimeters(10)` whatever it was, leaving `absolute_mode` false; a following line
with the statement X10 returns OK and adds `to_millimeters(10)` to `position[0]`: the
override of the first line does not reach the second.  In millimetre mode the two values
are 10 and 20. -/
theorem C3_absolute_override_scope (libc : Libc α) (gc : parser_state_t α) (l1 l2 : List Char)
    (habs : gc.absolute_mode = false)
    (h1s : (pass2_scan libc l1).stmts = [('G', 53), ('X', 10)])
    (h1t : (pass2_scan libc l1).status_code = Status.OK)
    (h2s : (pass2_scan libc l2).stmts = [('X', 10)])
    (h2t : (pass2_scan libc l2).status_code = Status.OK) :
    (gc_execute_line libc gc l1).ret = Status.OK
    ∧ (gc_execute_line libc gc l1).gc.position.get 0 = to_millimeters gc 10
    ∧ (gc_execute_line libc gc l1).gc.absolute_mode = false
    ∧ (gc_execute_line libc (gc_execute_line libc gc l1).gc l2).ret = Status.OK
    ∧ (gc_execute_line libc (gc_execute_line libc gc l1).gc l2).gc.position.get 0
        = to_millimeters gc 10 + to_millimeters gc 10
    ∧ (gc.inches_mode = false →
        (gc_execute_line libc gc l1).gc.position.get 0 = 10
        ∧ (gc_execute_line libc (gc_execute_line libc gc l1).gc l2).gc.position.get 0 = 20) := by
  have a0 : charAt l1 0 = 'G' := statements_head libc l1 _ 0 _ _ h1s
  have b0 : charAt l2 0 = 'X' := statements_head libc l2 _ 0 _ _ h2s
  have e1 : (gc_execute_line libc gc l1).ret = Status.OK
      ∧ (gc_execute_line libc gc l1).gc
        = { gc with status_code := Status.OK,
                    position := gc.position.set 0 (to_millimeters gc 10) } := by
    rw [gc_execute_line_eq libc _ l1 (by rw [a0]; decide) (by rw [a0]; decide),
      pass1_scan_eq_pass2_scan libc l1 (by rw [a0]; decide)]
    cases hm : gc.motion_mode <;>
      simp [h1s, h1t, hm, dispatch_arc, execute_statements, pass1_statements, pass2_statements, pass1_statement,
    pass2_statement, pass1_G, pass1_M, finish_line, perform_action, update_spindle,
    initial_frame, pass2_frame, initial_locals, FAIL, Frame.returns, to_millimeters, Vec3.set,
    Vec3.get, select_plane, Frame.set_motion_mode, Frame.set_next_action, Frame.set_plane,
    Frame.set_inches_mode, Frame.set_absolute_override, Frame.set_absolute_mode,
    Frame.set_inverse_feed_rate_mode, Frame.set_program_flow, Frame.set_spindle_direction,
    Frame.set_tool, Frame.set_inverse_feed_rate, Frame.set_homing_feed_rate,
    Frame.set_seek_rate, Frame.set_feed_rate, Frame.set_offset, Frame.set_p, Frame.set_r,
    Frame.set_spindle_speed, Frame.set_target, Frame.set_homing_dist_to_move,
    Frame.set_homing_threshold, Frame.set_homing_max_number_of_times]
  have e2 : ∀ g : parser_state_t α, g.absolute_mode = false →
      (gc_execute_line libc g l2).ret = Status.OK
      ∧ (gc_execute_line libc g l2).gc.position.get 0
        = g.position.get 0 + to_millimeters g 10 := by
    intro g hg
    rw [gc_execute_line_eq libc _ l2 (by rw [b0]; decide) (by rw [b0]; decide),
      pass1_scan_eq_pass2_scan libc l2 (by rw [b0]; decide)]
    cases hm : g.motion_mode <;>
      simp [h2s, h2t, hm, hg, dispatch_arc, execute_statements, pass1_statements, pass2_statements, pass1_statement,
    pass2_statement, pass1_G, pass1_M, finish_line, perform_action, update_spindle,
    initial_frame, pass2_frame, initial_locals, FAIL, Frame.returns, to_millimeters, Vec3.set,
    Vec3.get, select_plane, Frame.set_motion_mode, Frame.set_next_action, Frame.set_plane,
    Frame.set_inches_mode, Frame.set_absolute_override, Frame.set_absolute_mode,
    Frame.set_inverse_feed_rate_mode, Frame.set_program_flow, Frame.set_spindle_direction,
    Frame.set_tool, Frame.set_inverse_feed_rate, Frame.set_homing_feed_rate,
    Frame.set_seek_rate, Frame.set_feed_rate, Frame.set_offset, Frame.set_p, Frame.set_r,
    Frame.set_spindle_speed, Frame.set_target, Frame.set_homing_dist_to_move,
    Frame.set_homing_threshold, Frame.set_homing_max_number_of_times]
  have e3 := e2 (gc_execute_line libc gc l1).gc (by rw [e1.2]; exact habs)
  have p1 : (gc_execute_line libc gc l1).gc.position.get 0 = to_millimeters gc 10 := by
    rw [e1.2]; simp [Vec3.get, Vec3.set]
  have t1 : to_millimeters (gc_execute_line libc gc l1).gc (10 : α) = to_millimeters gc 10 := by
    rw [e1.2]; rfl
  refine ⟨e1.1, p1, by rw [e1.2]; exact habs, e3.1, ?_, ?_⟩
  · rw [e3.2, p1, t1]
  · intro hi
    rw [e3.2, p1, t1]
    simp only [to_millimeters, hi]
    norm_num

theorem C3_absolute_override_scope_witness :
    (gc_execute_line libcQ { gc_init 381 381 with absolute_mode := false, position := ⟨5, 6, 7⟩ }
        "G53X10".toList).gc.position.get 0 = 10
    ∧ (gc_execute_line libcQ
        (gc_execute_line libcQ
          { gc_init 381 381 with absolute_mode := false, position := ⟨5, 6, 7⟩ }
          "G53X10".toList).gc "X10".toList).gc.position.get 0 = 20 :=
  (C3_absolute_override_scope libcQ
    { gc_init 381 381 with absolute_mode := false, position := ⟨5, 6, 7⟩ }
    "G53X10".toList "X10".toList rfl (by simp [pass1_scan, pass2_scan, first_counter, statements, next_statement, read_double, libcQ, strtod_decimal, scanNumeral, takeDigits, takeSign, charAt, Numeral.value]) (by simp [pass1_scan, pass2_scan, first_counter, statements, next_statement, read_double, libcQ, strtod_decimal, scanNumeral, takeDigits, takeSign, charAt, Numeral.value]) (by simp [pass1_scan, pass2_scan, first_counter, statements, next_statement, read_double, libcQ, strtod_decimal, scanNumeral, takeDigits, takeSign, charAt, Numeral.value])
    (by simp [pass1_scan, pass2_scan, first_counter, statements, next_statement, read_double, libcQ, strtod_decimal, scanNumeral, takeDigits, takeSign, charAt, Numeral.value])).2.2.2.2.2 rfl

/-- Claim C3, as stated, fails in inches mode: with `absolute_mode` false and `inches_mode` true
the line `G53X10` leaves `position[0] = 254`, not 10. -/
theorem C3_counterexample :
    ({ gc_init 381 381 with absolute_mode := false, inches_mode := true } :
        parser_state_t ℚ).absolute_mode = false
    ∧ (gc_execute_line libcQ { gc_init 381 381 with absolute_mode := false, inches_mode := true }
        "G53X10".toList).gc.position.get 0 = 254
    ∧ (gc_execute_line libcQ { gc_init 381 381 with absolute_mode := false, inches_mode := true }
        "G53X10".toList).gc.position.get 0 ≠ 10 := by
  refine ⟨rfl, ?_, ?_⟩
  all_goals
    rw [gc_execute_line_eq _ _ _ (by simp [charAt]) (by simp [charAt])]
    simp [pass1_scan, pass2_scan, first_counter, statements, next_statement, read_double, libcQ, strtod_decimal, scanNumeral, takeDigits, takeSign, charAt, Numeral.value, gc_init, clear_vector, MM_PER_INCH,
      execute_statements, pass1_statements, pass2_statements, pass1_statement,
    pass2_statement, pass1_G, pass1_M, finish_line, perform_action, update_spindle,
    initial_frame, pass2_frame, initial_locals, FAIL, Frame.returns, to_millimeters, Vec3.set,
    Vec3.get, select_plane, Frame.set_motion_mode, Frame.set_next_action, Frame.set_plane,
    Frame.set_inches_mode, Frame.set_absolute_override, Frame.set_absolute_mode,
    Frame.set_inverse_feed_rate_mode, Frame.set_program_flow, Frame.set_spindle_direction,
    Frame.set_tool, Frame.set_inverse_feed_rate, Frame.set_homing_feed_rate,
    Frame.set_seek_rate, Frame.set_feed_rate, Frame.set_offset, Frame.set_p, Frame.set_r,
    Frame.set_spindle_speed, Frame.set_target, Frame.set_homing_dist_to_move,
    Frame.set_homing_threshold, Frame.set_homing_max_number_of_times]
    try norm_num

/-- Claim C4 (inches round-trip), amended for inverse feed rate mode.  From the same
starting state, lines with the statements G20 G1 X1 F60 and G21 G1 X25.4 F1524 both return
OK, make the same single `plan_buffer_line` call, and leave the same `target`, the same
`gc.feed_rate` and the same `gc.position`; `gc.feed_rate` is 25.4 when
`inverse_feed_rate_mode` is off (in inverse feed rate mode F does not touch it).  In
general pass 2 treats a word X, Y, Z, F, I, J, K, R or A of value `v` in inches mode as
the same word of value `25.4 * v` in millimetre mode. -/
theorem C4_inches_round_trip (libc : Libc α) (gc : parser_state_t α) (l1 l2 : List Char)
    (h1s : (pass2_scan libc l1).stmts = [('G', 20), ('G', 1), ('X', 1), ('F', 60)])
    (h1t : (pass2_scan libc l1).status_code = Status.OK)
    (h2s : (pass2_scan libc l2).stmts = [('G', 21), ('G', 1), ('X', 25.4), ('F', 1524)])
    (h2t : (pass2_scan libc l2).status_code = Status.OK) :
    (gc_execute_line libc gc l1).ret = Status.OK
    ∧ (gc_execute_line libc gc l2).ret = Status.OK
    ∧ (gc_execute_line libc gc l1).calls = (gc_execute_line libc gc l2).calls
    ∧ (∃ x y z rate inv,
        (gc_execute_line libc gc l1).calls = [Call.plan_buffer_line x y z rate inv])
    ∧ (gc_execute_line libc gc l1).loc.target = (gc_execute_line libc gc l2).loc.target
    ∧ (gc_execute_line libc gc l1).gc.feed_rate = (gc_execute_line libc gc l2).gc.feed_rate
    ∧ (gc_execute_line libc gc l1).gc.position = (gc_execute_line libc gc l2).gc.position
    ∧ (gc.inverse_feed_rate_mode = false → (gc_execute_line libc gc l1).gc.feed_rate = 25.4)
    ∧ (∀ (fr : Frame α) (l : Char) (v : α),
        l ∈ ['X', 'Y', 'Z', 'F', 'I', 'J', 'K', 'R', 'A'] → fr.gc.inches_mode = true →
        pass2_statement fr l v
          = (pass2_statement (fr.set_inches_mode false) l (25.4 * v)).set_inches_mode true) := by
  have a0 : charAt l1 0 = 'G' := statements_head libc l1 _ 0 _ _ h1s
  have b0 : charAt l2 0 = 'G' := statements_head libc l2 _ 0 _ _ h2s
  rw [gc_execute_line_eq libc _ l1 (by rw [a0]; decide) (by rw [a0]; decide),
    pass1_scan_eq_pass2_scan libc l1 (by rw [a0]; decide),
    gc_execute_line_eq libc _ l2 (by rw [b0]; decide) (by rw [b0]; decide),
    pass1_scan_eq_pass2_scan libc l2 (by rw [b0]; decide)]
  refine ⟨?_, ?_, ?_, ?_, ?_, ?_, ?_, ?_, ?_⟩
  case refine_9 =>
    intro fr l v hl hin
    simp only [List.mem_cons, List.mem_singleton, List.not_mem_nil, or_false] at hl
    rcases fr with ⟨g, loc, calls⟩
    cases g
    simp only at hin
    subst hin
    rcases hl with h | h | h | h | h | h | h | h | h <;> subst h <;>
      simp [pass2_statement, to_millimeters, MM_PER_INCH, mul_comm,
        Frame.set_inches_mode, Frame.set_inverse_feed_rate, Frame.set_homing_feed_rate,
        Frame.set_seek_rate, Frame.set_feed_rate, Frame.set_offset, Frame.set_r,
        Frame.set_target, Frame.set_homing_dist_to_move] <;>
      split_ifs <;> simp
  all_goals
    cases hi : gc.inverse_feed_rate_mode <;> cases ha : gc.absolute_mode <;>
      simp [h1s, h1t, h2s, h2t, hi, ha, MM_PER_INCH, execute_statements, pass1_statements, pass2_statements, pass1_statement,
    pass2_statement, pass1_G, pass1_M, finish_line, perform_action, update_spindle,
    initial_frame, pass2_frame, initial_locals, FAIL, Frame.returns, to_millimeters, Vec3.set,
    Vec3.get, select_plane, Frame.set_motion_mode, Frame.set_next_action, Frame.set_plane,
    Frame.set_inches_mode, Frame.set_absolute_override, Frame.set_absolute_mode,
    Frame.set_inverse_feed_rate_mode, Frame.set_program_flow, Frame.set_spindle_direction,
    Frame.set_tool, Frame.set_inverse_feed_rate, Frame.set_homing_feed_rate,
    Frame.set_seek_rate, Frame.set_feed_rate, Frame.set_offset, Frame.set_p, Frame.set_r,
    Frame.set_spindle_speed, Frame.set_target, Frame.set_homing_dist_to_move,
    Frame.set_homing_threshold, Frame.set_homing_max_number_of_times] <;>
      norm_num

theorem C4_inches_round_trip_witness :
    (gc_execute_line libcQ (gc_init 381 381) "G20G1X1F60".toList).gc.feed_rate = 25.4
    ∧ (gc_execute_line libcQ (gc_init 381 381) "G20G1X1F60".toList).calls
        = (gc_execute_line libcQ (gc_init 381 381) "G21G1X25.4F1524".toList).calls
    ∧ (gc_execute_line libcQ (gc_init 381 381) "G20G1X1F60".toList).gc.position
        = (gc_execute_line libcQ (gc_init 381 381) "G21G1X25.4F1524".toList).gc.position :=
  have h := C4_inches_round_trip libcQ (gc_init 381 381) "G20G1X1F60".toList
    "G21G1X25.4F1524".toList (by simp [pass1_scan, pass2_scan, first_counter, statements, next_statement, read_double, libcQ, strtod_decimal, scanNumeral, takeDigits, takeSign, charAt, Numeral.value]) (by simp [pass1_scan, pass2_scan, first_counter, statements, next_statement, read_double, libcQ, strtod_decimal, scanNumeral, takeDigits, takeSign, charAt, Numeral.value])
    (by simp [pass1_scan, pass2_scan, first_counter, statements, next_statement, read_double, libcQ, strtod_decimal, scanNumeral, takeDigits, takeSign, charAt, Numeral.value]; norm_num) (by simp [pass1_scan, pass2_scan, first_counter, statements, next_statement, read_double, libcQ, strtod_decimal, scanNumeral, takeDigits, takeSign, charAt, Numeral.value])
  ⟨h.2.2.2.2.2.2.2.1 rfl, h.2.2.1, h.2.2.2.2.2.2.1⟩

/-- Claim C4, as stated, fails in inverse feed rate mode: there `G20G1X1F60` leaves `gc.feed_rate`
at its old value (6.35 mm/s after power-on), not at 25.4 mm/s. -/
theorem C4_counterexample :
    (gc_execute_line libcQ { gc_init 381 381 with inverse_feed_rate_mode := true }
        "G20G1X1F60".toList).ret = Status.OK
    ∧ (gc_execute_line libcQ { gc_init 381 381 with inverse_feed_rate_mode := true }
        "G20G1X1F60".toList).gc.feed_rate = 381 / 60
    ∧ (gc_execute_line libcQ { gc_init 381 381 with inverse_feed_rate_mode := true }
        "G20G1X1F60".toList).gc.feed_rate ≠ 25.4 := by
  refine ⟨?_, ?_, ?_⟩
  all_goals
    rw [gc_execute_line_eq _ _ _ (by simp [charAt]) (by simp [charAt])]
    simp [pass1_scan, pass2_scan, first_counter, statements, next_statement, read_double, libcQ, strtod_decimal, scanNumeral, takeDigits, takeSign, charAt, Numeral.value, gc_init, clear_vector, MM_PER_INCH,
      execute_statements, pass1_statements, pass2_statements, pass1_statement,
    pass2_statement, pass1_G, pass1_M, finish_line, perform_action, update_spindle,
    initial_frame, pass2_frame, initial_locals, FAIL, Frame.returns, to_millimeters, Vec3.set,
    Vec3.get, select_plane, Frame.set_motion_mode, Frame.set_next_action, Frame.set_plane,
    Frame.set_inches_mode, Frame.set_absolute_override, Frame.set_absolute_mode,
    Frame.set_inverse_feed_rate_mode, Frame.set_program_flow, Frame.set_spindle_direction,
    Frame.set_tool, Frame.set_inverse_feed_rate, Frame.set_homing_feed_rate,
    Frame.set_seek_rate, Frame.set_feed_rate, Frame.set_offset, Frame.set_p, Frame.set_r,
    Frame.set_spindle_speed, Frame.set_target, Frame.set_homing_dist_to_move,
    Frame.set_homing_threshold, Frame.set_homing_max_number_of_times]
    try norm_num

theorem FAIL_status (fr : Frame α) (st : Status) : (FAIL fr st).gc.status_code = st := rfl

theorem dispatch_arc_gc (libc : Libc α) (fr : Frame α) :
    (dispatch_arc libc fr).1.gc
      = { fr.gc with status_code := (dispatch_arc libc fr).1.gc.status_code,
                     position := (dispatch_arc libc fr).1.gc.position } := by
  simp only [dispatch_arc]
  split_ifs <;> rfl

theorem perform_action_gc (libc : Libc α) (fr : Frame α) :
    (perform_action libc fr).1.gc
      = { fr.gc with status_code := (perform_action libc fr).1.gc.status_code,
                     position := (perform_action libc fr).1.gc.position } := by
  suffices h : ∀ g, g = fr.gc → (perform_action libc fr).1.gc
      = { g with status_code := (perform_action libc fr).1.gc.status_code,
                 position := (perform_action libc fr).1.gc.position } from h _ rfl
  intro g hg
  cases hn : fr.loc.next_action <;> simp only [perform_action, hn]
  case DEFAULT =>
    cases hm : fr.gc.motion_mode <;> simp only [hm] <;> subst hg <;>
      first
      | rfl
      | exact dispatch_arc_gc libc fr
  all_goals
    subst hg
    first
    | rfl
    | (split_ifs <;> rfl)

theorem finish_line_gc (libc : Libc α) (fr : Frame α) :
    (finish_line libc fr).gc
      = { fr.gc with status_code := (finish_line libc fr).gc.status_code,
                     position := (finish_line libc fr).gc.position } := by
  have h := perform_action_gc libc (update_spindle fr)
  rw [update_spindle_gc] at h
  unfold finish_line
  by_cases h1 : fr.gc.status_code = Status.OK
  · simp only [h1, ne_eq, not_true_eq_false, if_false]
    by_cases h2 : (perform_action libc (update_spindle fr)).2 = true
    · simp only [h2, if_true, Frame.returns]
      exact h
    · simp only [h2, Bool.false_eq_true, if_false, Frame.returns]
      conv_lhs => rw [h]
  · simp only [h1, ne_eq, not_false_eq_true, if_true]
    rfl

theorem pass2_statement_G (fr : Frame α) (v : α) : pass2_statement fr 'G' v = fr := by
  simp [pass2_statement]

theorem pass1_G_supported (fr : Frame α) (n : ℤ) (h : n ∈ supported_G) :
    (pass1_G fr n).gc.status_code = fr.gc.status_code := by
  simp only [supported_G, List.mem_cons, List.mem_singleton, List.not_mem_nil, or_false] at h
  rcases h with h | h | h | h | h | h | h | h | h | h | h | h | h | h | h | h | h | h | h | h
    | h | h <;> subst h <;> simp [pass1_G] <;> rfl

/-- Claim C5 (modal persistence).  Let Gn be one of G0, G1, G17, G18, G19, G20, G21, G80,
G90, G91, G93, G94 and execute a line that consists of Gn.  Then a following line `L` (not
a comment, configuration or block-delete line) and the line that consists of Gn followed
by the statements of `L` have the same outcome: return value, interpreter state and
calls.  No condition on the G codes inside `L` is needed. -/
theorem C5_modal_persistence (libc : Libc α) (gc : parser_state_t α)
    (lineG L L' : List Char) (n : ℤ) (v : α)
    (hn : n ∈ ([0, 1, 17, 18, 19, 20, 21, 80, 90, 91, 93, 94] : List ℤ))
    (hv : trunc v = n)
    (hG : (pass2_scan libc lineG).stmts = [('G', v)])
    (hGt : (pass2_scan libc lineG).status_code = Status.OK)
    (hL1 : charAt L 0 ≠ '(') (hL2 : charAt L 0 ≠ '$') (hL3 : charAt L 0 ≠ '/')
    (hL' : (pass2_scan libc L').stmts = ('G', v) :: (pass2_scan libc L).stmts)
    (hLt : (pass2_scan libc L').status_code = (pass2_scan libc L).status_code) :
    gc_execute_line libc (gc_execute_line libc gc lineG).gc L'
      = gc_execute_line libc (gc_execute_line libc gc lineG).gc L := by
  have hG0 : charAt lineG 0 = 'G' := statements_head libc lineG _ 0 _ _ hG
  have hL0 : charAt L' 0 = 'G' := statements_head libc L' _ 0 _ _ hL'
  have hsup : n ∈ supported_G := by
    simp only [List.mem_cons, List.mem_singleton, List.not_mem_nil, or_false] at hn
    rcases hn with h | h | h | h | h | h | h | h | h | h | h | h <;> subst h <;>
      simp [supported_G]
  have hp1 : ∀ fr : Frame α, pass1_statement fr 'G' v = pass1_G fr n := by
    intro fr; simp [pass1_statement, hv]
  obtain ⟨st, pos, hg1⟩ : ∃ st pos, (gc_execute_line libc gc lineG).gc
      = { (pass1_G (initial_frame gc) n).gc with status_code := st, position := pos } := by
    rw [gc_execute_line_eq libc _ lineG (by rw [hG0]; decide) (by rw [hG0]; decide),
      pass1_scan_eq_pass2_scan libc lineG (by rw [hG0]; decide)]
    unfold execute_statements
    simp only [hG, hGt, pass1_statements, pass2_statements, hp1, pass2_statement_G]
    have hs : (pass1_G (initial_frame gc) n).gc.status_code = Status.OK := by
      rw [pass1_G_supported _ _ hsup]; rfl
    simp only [hs, ne_eq, not_true_eq_false, if_false, FAIL_status]
    exact ⟨_, _, finish_line_gc libc
      (FAIL (pass2_frame (FAIL (pass1_G (initial_frame gc) n) Status.OK)) Status.OK)⟩
  have key : pass1_G (initial_frame (gc_execute_line libc gc lineG).gc) n
      = initial_frame (gc_execute_line libc gc lineG).gc := by
    rw [hg1]
    simp only [List.mem_cons, List.mem_singleton, List.not_mem_nil, or_false] at hn
    rcases hn with h | h | h | h | h | h | h | h | h | h | h | h <;> subst h <;>
      simp [pass1_G, initial_frame, select_plane, FAIL, Frame.set_motion_mode, Frame.set_next_action, Frame.set_plane,
    Frame.set_inches_mode, Frame.set_absolute_override, Frame.set_absolute_mode,
    Frame.set_inverse_feed_rate_mode, Frame.set_program_flow, Frame.set_spindle_direction,
    Frame.set_tool]
  rw [gc_execute_line_eq libc _ L' (by rw [hL0]; decide) (by rw [hL0]; decide),
    pass1_scan_eq_pass2_scan libc L' (by rw [hL0]; decide),
    gc_execute_line_eq libc _ L hL1 hL2, pass1_scan_eq_pass2_scan libc L hL3]
  unfold execute_statements
  simp only [hL', hLt, pass1_statements, pass2_statements, hp1, key, pass2_statement_G]
  have hs0 : (initial_frame (gc_execute_line libc gc lineG).gc).gc.status_code = Status.OK := rfl
  simp only [hs0, ne_eq, not_true_eq_false, if_false]

theorem update_spindle_calls (fr : Frame α) (h : fr.calls = []) :
    (update_spindle fr).calls = []
      ∨ (∃ d s, (update_spindle fr).calls = [Call.mc_dwell 0, Call.spindle_run d s])
      ∨ (update_spindle fr).calls = [Call.mc_dwell 0, Call.spindle_stop] := by
  unfold update_spindle
  split_ifs
  · exact Or.inr (Or.inl ⟨fr.gc.spindle_direction, fr.gc.spindle_speed, by simp [h]⟩)
  · exact Or.inr (Or.inr (by simp [h]))
  · exact Or.inl h

theorem execute_statements_rejected (libc : Libc α) (gc : parser_state_t α) (s1 s2 : Scan α)
    (h : (execute_statements libc gc s1 s2).ret ≠ Status.OK) :
    (execute_statements libc gc s1 s2).gc.position = gc.position
      ∧ ((execute_statements libc gc s1 s2).ret ≠ Status.FLOATING_POINT_ERROR →
          (execute_statements libc gc s1 s2).calls = [])
      ∧ ((execute_statements libc gc s1 s2).calls = []
          ∨ (∃ d s, (execute_statements libc gc s1 s2).calls
              = [Call.mc_dwell 0, Call.spindle_run d s])
          ∨ (execute_statements libc gc s1 s2).calls
              = [Call.mc_dwell 0, Call.spindle_stop]) := by
  unfold execute_statements at h ⊢
  have hp1 := pass1_statements_position s1.stmts s1.status_code (initial_frame gc)
  have hc1 := pass1_statements_calls s1.stmts s1.status_code (initial_frame gc)
  generalize pass1_statements s1.stmts s1.status_code (initial_frame gc) = fr1 at h hp1 hc1 ⊢
  by_cases hk : fr1.gc.status_code = Status.OK
  · simp only [hk, ne_eq, not_true_eq_false, if_false] at h ⊢
    have hp2 := pass2_statements_position s2.stmts s2.status_code (pass2_frame fr1)
    have hc2 := pass2_statements_calls s2.stmts s2.status_code (pass2_frame fr1)
    generalize pass2_statements s2.stmts s2.status_code (pass2_frame fr1) = fr2 at h hp2 hc2 ⊢
    have hp2 : fr2.gc.position = gc.position := by rw [hp2]; exact hp1
    have hc2 : fr2.calls = [] := by rw [hc2]; exact hc1
    unfold finish_line at h ⊢
    by_cases h1 : fr2.gc.status_code = Status.OK
    · simp only [h1, ne_eq, not_true_eq_false, if_false] at h ⊢
      cases h2 : (perform_action libc (update_spindle fr2)).2
      · exfalso
        simp only [h2, Bool.false_eq_true, if_false, Frame.returns] at h
        rw [perform_action_status libc _ h2, update_spindle_gc] at h
        exact h h1
      · simp only [h2, if_true, Frame.returns]
        obtain ⟨_, hc, hp⟩ := perform_action_returned libc _ h2
        rw [hc, hp, update_spindle_gc]
        have hu := update_spindle_calls fr2 hc2
        refine ⟨hp2, ?_, hu⟩
        intro hne
        exact absurd (perform_action_returned libc _ h2).1 hne
    · simp only [h1, ne_eq, not_false_eq_true, if_true, Frame.returns]
      exact ⟨hp2, fun _ => hc2, Or.inl hc2⟩
  · simp only [hk, ne_eq, not_false_eq_true, if_true, Frame.returns]
    exact ⟨hp1, fun _ => hc1, Or.inl hc1⟩

theorem read_double_status_cases (libc : Libc α) (line : List Char) (cc : ℕ) (st : Status) :
    (read_double libc line cc st).status_code = Status.BAD_NUMBER_FORMAT
      ∨ (read_double libc line cc st).status_code = st := by
  unfold read_double
  dsimp only
  split_ifs
  · exact Or.inl rfl
  · exact Or.inr rfl

theorem execute_settings_line_rejected (libc : Libc α) (line : List Char)
    (gc : parser_state_t α) :
    (execute_settings_line libc line (initial_frame gc)).gc.position = gc.position
      ∧ (execute_settings_line libc line (initial_frame gc)).ret ≠ Status.FLOATING_POINT_ERROR
      ∧ ∀ c ∈ (execute_settings_line libc line (initial_frame gc)).calls,
          c.isPhysical = false := by
  have hs : ∀ cc,
      (read_double libc line cc (read_double libc line 1 Status.OK).status_code).status_code
        ≠ Status.FLOATING_POINT_ERROR := by
    intro cc
    rcases read_double_status_cases libc line cc
      (read_double libc line 1 Status.OK).status_code with h | h
    · rw [h]; decide
    · rw [h]
      rcases read_double_status_cases libc line 1 Status.OK with h | h <;> rw [h] <;> decide
  unfold execute_settings_line
  dsimp only
  refine P_ite (fun o : Outcome α => o.gc.position = gc.position
    ∧ o.ret ≠ Status.FLOATING_POINT_ERROR ∧ ∀ c ∈ o.calls, c.isPhysical = false) _ _ _ ?_ ?_
  · exact ⟨rfl, (fun h => Status.noConfusion h),
      by simp [Frame.returns, initial_frame, Call.isPhysical]⟩
  refine P_ite (fun o : Outcome α => o.gc.position = gc.position
    ∧ o.ret ≠ Status.FLOATING_POINT_ERROR ∧ ∀ c ∈ o.calls, c.isPhysical = false) _ _ _ ?_ ?_
  · exact ⟨rfl, (fun h => Status.noConfusion h),
      by simp [Frame.returns, initial_frame, Call.isPhysical]⟩
  refine P_ite (fun o : Outcome α => o.gc.position = gc.position
    ∧ o.ret ≠ Status.FLOATING_POINT_ERROR ∧ ∀ c ∈ o.calls, c.isPhysical = false) _ _ _ ?_ ?_
  · exact ⟨rfl, (fun h => Status.noConfusion h), by simp [Frame.returns, initial_frame]⟩
  refine P_ite (fun o : Outcome α => o.gc.position = gc.position
    ∧ o.ret ≠ Status.FLOATING_POINT_ERROR ∧ ∀ c ∈ o.calls, c.isPhysical = false) _ _ _ ?_ ?_
  · exact ⟨rfl, (fun h => Status.noConfusion h), by simp [Frame.returns, initial_frame, FAIL]⟩
  · exact ⟨rfl, hs _, by simp [Frame.returns, initial_frame, FAIL, Call.isPhysical]⟩

/-- Claim C6 (position is untouched by a rejected line).  For every state and every line,
if `gc_execute_line` returns a status other than OK then `gc.position` is what it was
before the call. -/
theorem C6_position_untouched_on_error (libc : Libc α) (gc : parser_state_t α)
    (line : List Char) (h : (gc_execute_line libc gc line).ret ≠ Status.OK) :
    (gc_execute_line libc gc line).gc.position = gc.position := by
  by_cases h1 : charAt line 0 = '('
  · simp only [gc_execute_line, h1, if_true, Frame.returns, initial_frame]
  · by_cases h2 : charAt line 0 = '$'
    · simp only [gc_execute_line, h1, h2, if_true, if_false]
      exact (execute_settings_line_rejected libc line gc).1
    · rw [gc_execute_line_eq libc gc line h1 h2] at h ⊢
      exact (execute_statements_rejected libc gc _ _ h).1

/-- Claim C7 (fail-fast without side effects), amended for FloatingPointError.  When
`gc_execute_line` returns BadNumberFormat, ExpectedCommandLetter or UnsupportedStatement,
none of its calls is a physical action.  When it returns FloatingPointError the calls are
at most the spindle update of that line, `mc_dwell(0)` followed by `spindle_run` or
`spindle_stop`, which is dispatched before the arc geometry is checked; no motion, homing,
dwell of G4 or measurement is dispatched. -/
theorem C7_no_action_on_error (libc : Libc α) (gc : parser_state_t α)
    (line : List Char) (h : (gc_execute_line libc gc line).ret ≠ Status.OK) :
    ((gc_execute_line libc gc line).ret ≠ Status.FLOATING_POINT_ERROR →
        ∀ c ∈ (gc_execute_line libc gc line).calls, c.isPhysical = false)
    ∧ ((gc_execute_line libc gc line).ret = Status.FLOATING_POINT_ERROR →
        (gc_execute_line libc gc line).calls = []
        ∨ (∃ d s, (gc_execute_line libc gc line).calls
            = [Call.mc_dwell 0, Call.spindle_run d s])
        ∨ (gc_execute_line libc gc line).calls = [Call.mc_dwell 0, Call.spindle_stop]) := by
  by_cases h1 : charAt line 0 = '('
  · exfalso
    apply h
    simp only [gc_execute_line, h1, if_true, Frame.returns, initial_frame]
  · by_cases h2 : charAt line 0 = '$'
    · have hs := execute_settings_line_rejected libc line gc
      simp only [gc_execute_line, h1, h2, if_true, if_false]
      exact ⟨fun _ => hs.2.2, fun hf => absurd hf hs.2.1⟩
    · rw [gc_execute_line_eq libc gc line h1 h2] at h ⊢
      have hr := execute_statements_rejected libc gc _ _ h
      refine ⟨fun hne c hc => ?_, fun _ => hr.2.2⟩
      rw [hr.2.1 hne] at hc
      simp at hc

theorem pass1_M_supported (fr : Frame α) (n : ℤ) (h : n ∈ supported_M) :
    (pass1_M fr n).gc.status_code = fr.gc.status_code := by
  simp only [supported_M, List.mem_cons, List.mem_singleton, List.not_mem_nil, or_false] at h
  rcases h with h | h | h | h | h | h | h <;> subst h <;> simp [pass1_M] <;> rfl

theorem pass1_statement_supported (fr : Frame α) (s : Char × α) (h : supported s) :
    (pass1_statement fr s.1 s.2).gc.status_code = fr.gc.status_code := by
  simp only [pass1_statement]
  split_ifs with hG hM hT
  · exact pass1_G_supported _ _ (h.1 hG)
  · exact pass1_M_supported _ _ (h.2 hM)
  · rfl
  · rfl

theorem pass1_statements_supported (stmts : List (Char × α)) (st : Status) (fr : Frame α)
    (h : ∀ s ∈ stmts, supported s) (hfr : fr.gc.status_code = Status.OK) :
    (pass1_statements stmts st fr).gc.status_code = st := by
  induction stmts generalizing fr with
  | nil => rfl
  | cons s rest ih =>
    have hs := pass1_statement_supported fr s (h s (List.mem_cons_self _ _))
    rw [hfr] at hs
    simp only [pass1_statements, hs, ne_eq, not_true_eq_false, if_false]
    exact ih _ (fun t ht => h t (List.mem_cons_of_mem _ ht)) hs

theorem pass1_G_unsupported (fr : Frame α) (n : ℤ) (h : n ∉ supported_G) :
    (pass1_G fr n).gc.status_code = Status.UNSUPPORTED_STATEMENT := by
  simp only [supported_G, List.mem_cons, List.mem_singleton, List.not_mem_nil, or_false,
    not_or] at h
  simp [pass1_G, h, FAIL]

theorem pass1_M_unsupported (fr : Frame α) (n : ℤ) (h : n ∉ supported_M) :
    (pass1_M fr n).gc.status_code = Status.UNSUPPORTED_STATEMENT := by
  simp only [supported_M, List.mem_cons, List.mem_singleton, List.not_mem_nil, or_false,
    not_or] at h
  simp [pass1_M, h, FAIL]

theorem pass1_statement_unsupported (fr : Frame α) (s : Char × α)
    (h : (s.1 = 'G' ∧ trunc s.2 ∉ supported_G) ∨ (s.1 = 'M' ∧ trunc s.2 ∉ supported_M)) :
    (pass1_statement fr s.1 s.2).gc.status_code = Status.UNSUPPORTED_STATEMENT := by
  rcases h with ⟨hl, hn⟩ | ⟨hl, hn⟩
  · simp only [pass1_statement, hl, if_true]
    exact pass1_G_unsupported _ _ hn
  · have : ¬ ('M' = 'G') := by decide
    simp only [pass1_statement, hl, this, if_true, if_false]
    exact pass1_M_unsupported _ _ hn

theorem pass1_statements_unsupported (stmts : List (Char × α)) (st : Status) (fr : Frame α)
    (hfr : fr.gc.status_code = Status.OK) (s : Char × α) (hs : s ∈ stmts)
    (h : (s.1 = 'G' ∧ trunc s.2 ∉ supported_G) ∨ (s.1 = 'M' ∧ trunc s.2 ∉ supported_M)) :
    (pass1_statements stmts st fr).gc.status_code = Status.UNSUPPORTED_STATEMENT := by
  induction stmts generalizing fr with
  | nil => simp at hs
  | cons s0 rest ih =>
    simp only [pass1_statements]
    by_cases hk : (pass1_statement fr s0.1 s0.2).gc.status_code = Status.OK
    · simp only [hk, ne_eq, not_true_eq_false, if_false]
      rcases List.mem_cons.mp hs with he | hm
      · subst he
        rw [pass1_statement_unsupported fr s h] at hk
        exact absurd hk (by decide)
      · exact ih _ hk hm
    · simp only [hk, ne_eq, not_false_eq_true, if_true]
      rcases pass1_statement_status fr s0.1 s0.2 with h1 | h1
      · rw [h1] at hk; exact absurd hfr hk
      · exact h1

theorem pass1_G_spindle (fr : Frame α) (n : ℤ) :
    (pass1_G fr n).gc.spindle_direction = fr.gc.spindle_direction := by
  unfold pass1_G
  repeat (first
    | rfl
    | refine P_ite (fun f : Frame α => f.gc.spindle_direction = fr.gc.spindle_direction)
        _ _ _ rfl ?_)

theorem pass1_statement_spindle (fr : Frame α) (s : Char × α)
    (h : ¬ (s.1 = 'M' ∧ (trunc s.2 = 3 ∨ trunc s.2 = 5))) :
    (pass1_statement fr s.1 s.2).gc.spindle_direction = fr.gc.spindle_direction := by
  simp only [pass1_statement]
  split_ifs with hG hM hT
  · exact pass1_G_spindle _ _
  · simp only [hM, true_and, not_or] at h
    simp only [pass1_M, h.1, h.2, if_false]
    split_ifs <;> rfl
  · rfl
  · rfl

theorem pass1_statements_M4 (pre post : List (Char × α)) (v : α) (st : Status) (fr : Frame α)
    (hv : trunc v = 4)
    (hpre : ∀ s ∈ pre, ¬ (s.1 = 'M' ∧ (trunc s.2 = 3 ∨ trunc s.2 = 5))) :
    (pass1_statements (pre ++ ('M', v) :: post) st fr).gc.spindle_direction
      = fr.gc.spindle_direction := by
  induction pre generalizing fr with
  | nil =>
    have h4 : (pass1_statement fr 'M' v).gc.status_code = Status.UNSUPPORTED_STATEMENT :=
      pass1_statement_unsupported fr ('M', v) (Or.inr ⟨rfl, by rw [hv]; decide⟩)
    simp only [List.nil_append, pass1_statements, h4, ne_eq, reduceCtorEq, not_false_eq_true,
      if_true]
    exact pass1_statement_spindle fr ('M', v) (by simp [hv])
  | cons s0 rest ih =>
    have h0 := pass1_statement_spindle fr s0 (hpre s0 (List.mem_cons_self _ _))
    simp only [List.cons_append, pass1_statements]
    split_ifs
    · exact h0
    · exact (ih _ (fun t ht => hpre t (List.mem_cons_of_mem _ ht))).trans h0

/-- Claim C8 (tokenisation errors), amended to statements that pass 1 accepts.  Take a
G-code line (no comment, configuration or block-delete line) whose statements before the
position where the tokenizer stops are all supported.  If the character at that position
is not NUL and not an uppercase letter, `gc_execute_line` returns ExpectedCommandLetter; if
it is an uppercase letter and `strtod` converts nothing after it, `gc_execute_line`
returns BadNumberFormat.  `next_statement` returns 1 exactly when the counter is on an
uppercase letter followed by a number that `strtod` converts, and then it leaves the
counter behind the number. -/
theorem C8_tokenisation_errors (libc : Libc α) (gc : parser_state_t α) (line : List Char)
    (h1 : charAt line 0 ≠ '(') (h2 : charAt line 0 ≠ '$') (h3 : charAt line 0 ≠ '/')
    (hsup : ∀ s ∈ (pass2_scan libc line).stmts, supported s) :
    (charAt line (pass2_scan libc line).stop ≠ Char.ofNat 0 →
      (charAt line (pass2_scan libc line).stop < 'A'
        ∨ charAt line (pass2_scan libc line).stop > 'Z') →
      (gc_execute_line libc gc line).ret = Status.EXPECTED_COMMAND_LETTER)
    ∧ ('A' ≤ charAt line (pass2_scan libc line).stop →
      charAt line (pass2_scan libc line).stop ≤ 'Z' →
      (libc.strtod (line.drop ((pass2_scan libc line).stop + 1))).2 = 0 →
      (gc_execute_line libc gc line).ret = Status.BAD_NUMBER_FORMAT)
    ∧ (∀ (cc : ℕ) (st : Status),
        ((next_statement libc line cc st).ret = true
          ↔ ('A' ≤ charAt line cc ∧ charAt line cc ≤ 'Z'
              ∧ (libc.strtod (line.drop (cc + 1))).2 ≠ 0))
        ∧ ((next_statement libc line cc st).ret = true →
            (next_statement libc line cc st).char_counter
              = cc + 1 + (libc.strtod (line.drop (cc + 1))).2)) := by
  have hstop : (next_statement libc line (pass2_scan libc line).stop Status.OK).status_code
      = (pass2_scan libc line).status_code :=
    (statements_stop libc line (line.length + 1) 0 (by omega)).2
  have hret : (gc_execute_line libc gc line).ret = (pass2_scan libc line).status_code
      ∨ (pass2_scan libc line).status_code = Status.OK := by
    by_cases hk : (pass2_scan libc line).status_code = Status.OK
    · exact Or.inr hk
    · left
      rw [gc_execute_line_eq libc gc line h1 h2, pass1_scan_eq_pass2_scan libc line h3]
      unfold execute_statements
      have hs := pass1_statements_supported (pass2_scan libc line).stmts
        (pass2_scan libc line).status_code (initial_frame gc) hsup rfl
      simp only [hs, ne_eq, hk, not_false_eq_true, if_true, Frame.returns]
  refine ⟨fun hnul hnl => ?_, fun hA hZ hnum => ?_,
    fun cc st => ⟨next_statement_ret_iff libc line cc st, next_statement_counter libc line cc st⟩⟩
  · have he : (pass2_scan libc line).status_code = Status.EXPECTED_COMMAND_LETTER := by
      rw [← hstop]
      simp only [next_statement]
      rw [if_neg hnul, if_pos hnl]
    rcases hret with h | h
    · rw [h, he]
    · rw [he] at h; exact absurd h (by decide)
  · have hne : charAt line (pass2_scan libc line).stop ≠ Char.ofNat 0 := by
      intro h0
      rw [h0] at hA
      exact absurd hA (by decide)
    have he : (pass2_scan libc line).status_code = Status.BAD_NUMBER_FORMAT := by
      rw [← hstop]
      simp only [next_statement, read_double]
      rw [if_neg hne, if_neg (by push_neg; exact ⟨hA, hZ⟩), if_pos hnum]
    rcases hret with h | h
    · rw [h, he]
    · rw [he] at h; exact absurd h (by decide)

/-- Claim C9 (unsupported codes are rejected).  On a G-code line (neither a comment nor a
configuration line), if pass 1 reads a G statement whose code is outside
{0, 1, 2, 3, 4, 17, 18, 19, 20, 21, 28, 30, 31, 34, 35, 36, 53, 80, 90, 91, 93, 94} or an
M statement whose code is outside {0, 1, 2, 3, 5, 30, 60}, `gc_execute_line` returns
UnsupportedStatement.  In particular a line with an M4 statement returns
UnsupportedStatement, and when no M3 or M5 statement stands before the M4 it leaves
`gc.spindle_direction` unchanged. -/
theorem C9_unsupported_codes (libc : Libc α) (gc : parser_state_t α) (line : List Char)
    (h1 : charAt line 0 ≠ '(') (h2 : charAt line 0 ≠ '$') :
    (∀ s ∈ (pass1_scan libc line).stmts,
        (s.1 = 'G' ∧ trunc s.2 ∉ supported_G) ∨ (s.1 = 'M' ∧ trunc s.2 ∉ supported_M) →
        (gc_execute_line libc gc line).ret = Status.UNSUPPORTED_STATEMENT)
    ∧ (∀ (pre post : List (Char × α)) (v : α),
        (pass1_scan libc line).stmts = pre ++ ('M', v) :: post → trunc v = 4 →
        (∀ s ∈ pre, ¬ (s.1 = 'M' ∧ (trunc s.2 = 3 ∨ trunc s.2 = 5))) →
        (gc_execute_line libc gc line).ret = Status.UNSUPPORTED_STATEMENT
        ∧ (gc_execute_line libc gc line).gc.spindle_direction = gc.spindle_direction) := by
  have key : ∀ s ∈ (pass1_scan libc line).stmts,
      (s.1 = 'G' ∧ trunc s.2 ∉ supported_G) ∨ (s.1 = 'M' ∧ trunc s.2 ∉ supported_M) →
      gc_execute_line libc gc line
        = (pass1_statements (pass1_scan libc line).stmts (pass1_scan libc line).status_code
            (initial_frame gc)).returns Status.UNSUPPORTED_STATEMENT := by
    intro s hs hu
    have hst := pass1_statements_unsupported (pass1_scan libc line).stmts
      (pass1_scan libc line).status_code (initial_frame gc) rfl s hs hu
    rw [gc_execute_line_eq libc gc line h1 h2]
    unfold execute_statements
    simp only [hst, ne_eq, reduceCtorEq, not_false_eq_true, if_true]
  refine ⟨fun s hs hu => by rw [key s hs hu]; rfl, fun pre post v hpre hv hno => ?_⟩
  have hmem : (('M', v) : Char × α) ∈ (pass1_scan libc line).stmts := by
    rw [hpre]; simp
  have hu : ((('M', v) : Char × α).1 = 'G' ∧ trunc (('M', v) : Char × α).2 ∉ supported_G)
      ∨ ((('M', v) : Char × α).1 = 'M' ∧ trunc (('M', v) : Char × α).2 ∉ supported_M) :=
    Or.inr ⟨rfl, by simp only [hv]; decide⟩
  rw [key _ hmem hu]
  refine ⟨rfl, ?_⟩
  simp only [Frame.returns]
  rw [hpre, pass1_statements_M4 pre post v _ _ hv hno]
  rfl

theorem pass1_G_p (fr : Frame α) (n : ℤ) : (pass1_G fr n).loc.p = fr.loc.p := by
  unfold pass1_G
  repeat (first
    | rfl
    | refine P_ite (fun f : Frame α => f.loc.p = fr.loc.p) _ _ _ rfl ?_)

theorem pass1_M_p (fr : Frame α) (n : ℤ) : (pass1_M fr n).loc.p = fr.loc.p := by
  unfold pass1_M
  repeat (first
    | rfl
    | refine P_ite (fun f : Frame α => f.loc.p = fr.loc.p) _ _ _ rfl ?_)

theorem pass1_statement_p (fr : Frame α) (l : Char) (v : α) :
    (pass1_statement fr l v).loc.p = fr.loc.p := by
  simp only [pass1_statement]
  split_ifs
  · exact pass1_G_p _ _
  · exact pass1_M_p _ _
  · rfl
  · rfl

theorem pass1_statements_p (stmts : List (Char × α)) (st : Status) (fr : Frame α) :
    (pass1_statements stmts st fr).loc.p = fr.loc.p := by
  induction stmts generalizing fr with
  | nil => rfl
  | cons s rest ih =>
    simp only [pass1_statements]
    split_ifs
    · exact pass1_statement_p fr s.1 s.2
    · rw [ih, pass1_statement_p]

theorem pass1_G_keeps_GO_HOME (fr : Frame α) (n : ℤ)
    (h : n ∉ ([4, 30, 31, 34, 35, 36] : List ℤ))
    (hfr : fr.loc.next_action = NextAction.GO_HOME) :
    (pass1_G fr n).loc.next_action = NextAction.GO_HOME := by
  simp only [List.mem_cons, List.mem_singleton, List.not_mem_nil, or_false, not_or] at h
  unfold pass1_G
  simp only [h.1, h.2.1, h.2.2.1, h.2.2.2.1, h.2.2.2.2.1, h.2.2.2.2.2, if_false]
  repeat (first
    | exact hfr
    | rfl
    | refine P_ite (fun f : Frame α => f.loc.next_action = NextAction.GO_HOME) _ _ _ ?_ ?_)

theorem pass1_M_next_action (fr : Frame α) (n : ℤ) :
    (pass1_M fr n).loc.next_action = fr.loc.next_action := by
  unfold pass1_M
  repeat (first
    | rfl
    | refine P_ite (fun f : Frame α => f.loc.next_action = fr.loc.next_action) _ _ _ rfl ?_)

theorem pass1_statement_keeps_GO_HOME (fr : Frame α) (s : Char × α)
    (h : s.1 = 'G' → trunc s.2 ∉ ([4, 30, 31, 34, 35, 36] : List ℤ))
    (hfr : fr.loc.next_action = NextAction.GO_HOME) :
    (pass1_statement fr s.1 s.2).loc.next_action = NextAction.GO_HOME := by
  simp only [pass1_statement]
  split_ifs with hG
  · exact pass1_G_keeps_GO_HOME _ _ (h hG) hfr
  · rw [pass1_M_next_action]; exact hfr
  · exact hfr
  · exact hfr

theorem pass1_statements_keeps_GO_HOME (stmts : List (Char × α)) (st : Status) (fr : Frame α)
    (h : ∀ s ∈ stmts, s.1 = 'G' → trunc s.2 ∉ ([4, 30, 31, 34, 35, 36] : List ℤ))
    (hfr : fr.loc.next_action = NextAction.GO_HOME) :
    (pass1_statements stmts st fr).loc.next_action = NextAction.GO_HOME := by
  induction stmts generalizing fr with
  | nil => exact hfr
  | cons s rest ih =>
    have h0 := pass1_statement_keeps_GO_HOME fr s (h s (List.mem_cons_self _ _)) hfr
    simp only [pass1_statements]
    split_ifs
    · exact h0
    · exact ih _ (fun t ht => h t (List.mem_cons_of_mem _ ht)) h0

theorem pass1_statements_G28 (pre post : List (Char × α)) (v : α) (st : Status) (fr : Frame α)
    (hv : trunc v = 28) (hfr : fr.gc.status_code = Status.OK)
    (hsup : ∀ s ∈ pre, supported s)
    (hpost : ∀ s ∈ post, s.1 = 'G' → trunc s.2 ∉ ([4, 30, 31, 34, 35, 36] : List ℤ)) :
    (pass1_statements (pre ++ ('G', v) :: post) st fr).loc.next_action
      = NextAction.GO_HOME := by
  induction pre generalizing fr with
  | nil =>
    have h28 : pass1_statement fr 'G' v = fr.set_next_action NextAction.GO_HOME := by
      simp [pass1_statement, pass1_G, hv]
    simp only [List.nil_append, pass1_statements, h28]
    split_ifs
    · rfl
    · exact pass1_statements_keeps_GO_HOME post st _ hpost rfl
  | cons s0 rest ih =>
    have h0 := pass1_statement_supported fr s0 (hsup s0 (List.mem_cons_self _ _))
    rw [hfr] at h0
    simp only [List.cons_append, pass1_statements, h0, ne_eq, not_true_eq_false, if_false]
    exact ih _ h0 (fun t ht => hsup t (List.mem_cons_of_mem _ ht))

theorem pass2_statement_next_action (fr : Frame α) (l : Char) (v : α) :
    (pass2_statement fr l v).loc.next_action = fr.loc.next_action := by
  unfold pass2_statement
  dsimp only
  repeat' (first
    | rfl
    | refine P_ite (fun f : Frame α => f.loc.next_action = fr.loc.next_action) _ _ _ ?_ ?_)

theorem pass2_statement_p (fr : Frame α) (l : Char) (v : α) (h : l ≠ 'P') :
    (pass2_statement fr l v).loc.p = fr.loc.p := by
  unfold pass2_statement
  dsimp only
  rw [if_neg h]
  repeat' (first | rfl | refine P_ite (fun f : Frame α => f.loc.p = fr.loc.p) _ _ _ ?_ ?_)

theorem pass2_statements_next_action (stmts : List (Char × α)) (st : Status) (fr : Frame α) :
    (pass2_statements stmts st fr).loc.next_action = fr.loc.next_action := by
  induction stmts generalizing fr with
  | nil => rfl
  | cons s rest ih => simp only [pass2_statements]; rw [ih, pass2_statement_next_action]

theorem pass2_statements_p (stmts : List (Char × α)) (st : Status) (fr : Frame α)
    (h : ∀ s ∈ stmts, s.1 ≠ 'P') :
    (pass2_statements stmts st fr).loc.p = fr.loc.p := by
  induction stmts generalizing fr with
  | nil => rfl
  | cons s rest ih =>
    simp only [pass2_statements]
    rw [ih _ (fun t ht => h t (List.mem_cons_of_mem _ ht)),
      pass2_statement_p _ _ _ (h s (List.mem_cons_self _ _))]

theorem update_spindle_loc (fr : Frame α) : (update_spindle fr).loc = fr.loc := by
  unfold update_spindle
  split_ifs <;> rfl

/-- Claim C10 (G28 and the P word), amended to what the code does.  Take a G-code line of
supported statements, read to the end of the line, that contains G28, no later G4, G30,
G31, G34, G35 or G36, and no P word.  The line is accepted: `gc_execute_line` returns OK
and, after the spindle update if there is one, calls `mc_do_homing_with_params` once, for
axis 0 (the value `p` keeps from its initialisation) and with `gc.position`. -/
theorem C10_G28_without_P (libc : Libc α) (gc : parser_state_t α) (line : List Char)
    (pre post : List (Char × α)) (v : α)
    (h1 : charAt line 0 ≠ '(') (h2 : charAt line 0 ≠ '$') (h3 : charAt line 0 ≠ '/')
    (hs : (pass2_scan libc line).stmts = pre ++ ('G', v) :: post)
    (hst : (pass2_scan libc line).status_code = Status.OK)
    (hv : trunc v = 28)
    (hsup : ∀ s ∈ pre ++ ('G', v) :: post, supported s)
    (hP : ∀ s ∈ pre ++ ('G', v) :: post, s.1 ≠ 'P')
    (hpost : ∀ s ∈ post, s.1 = 'G' → trunc s.2 ∉ ([4, 30, 31, 34, 35, 36] : List ℤ)) :
    (gc_execute_line libc gc line).ret = Status.OK
    ∧ ∃ cs f d t m,
        (gc_execute_line libc gc line).calls
          = cs ++ [Call.mc_do_homing_with_params 0 f d t m gc.position]
        ∧ (cs = [] ∨ (∃ dir rpm, cs = [Call.mc_dwell 0, Call.spindle_run dir rpm])
            ∨ cs = [Call.mc_dwell 0, Call.spindle_stop]) := by
  rw [gc_execute_line_eq libc gc line h1 h2, pass1_scan_eq_pass2_scan libc line h3]
  unfold execute_statements
  rw [hs, hst]
  have a1 := pass1_statements_supported (pre ++ ('G', v) :: post) Status.OK (initial_frame gc)
    hsup rfl
  have a2 := pass1_statements_G28 pre post v Status.OK (initial_frame gc) hv rfl
    (fun s h => hsup s (List.mem_append_left _ h)) hpost
  have a3 := pass1_statements_p (pre ++ ('G', v) :: post) Status.OK (initial_frame gc)
  have a4 := pass1_statements_calls (pre ++ ('G', v) :: post) Status.OK (initial_frame gc)
  have a5 := pass1_statements_position (pre ++ ('G', v) :: post) Status.OK (initial_frame gc)
  generalize pass1_statements (pre ++ ('G', v) :: post) Status.OK (initial_frame gc) = fr1
    at a1 a2 a3 a4 a5 ⊢
  simp only [a1, ne_eq, not_true_eq_false, if_false]
  have b1 := pass2_statements_status (pre ++ ('G', v) :: post) Status.OK (pass2_frame fr1)
  have b2 := pass2_statements_next_action (pre ++ ('G', v) :: post) Status.OK (pass2_frame fr1)
  have b3 := pass2_statements_p (pre ++ ('G', v) :: post) Status.OK (pass2_frame fr1) hP
  have b4 := pass2_statements_calls (pre ++ ('G', v) :: post) Status.OK (pass2_frame fr1)
  have b5 := pass2_statements_position (pre ++ ('G', v) :: post) Status.OK (pass2_frame fr1)
  generalize pass2_statements (pre ++ ('G', v) :: post) Status.OK (pass2_frame fr1) = fr2
    at b1 b2 b3 b4 b5 ⊢
  have c2 : fr2.loc.next_action = NextAction.GO_HOME := by rw [b2]; exact a2
  have c3 : fr2.loc.p = 0 := by rw [b3]; exact a3
  have c4 : fr2.calls = [] := by rw [b4]; exact a4
  have c5 : fr2.gc.position = gc.position := by rw [b5]; exact a5
  have d2 : (update_spindle fr2).loc.next_action = NextAction.GO_HOME := by
    rw [update_spindle_loc]; exact c2
  have d3 : (update_spindle fr2).loc.p = 0 := by rw [update_spindle_loc]; exact c3
  have d5 : (update_spindle fr2).gc.position = gc.position := by
    rw [update_spindle_gc]; exact c5
  have d1 : (update_spindle fr2).gc.status_code = Status.OK := by
    rw [update_spindle_gc]; exact b1
  have hu := update_spindle_calls fr2 c4
  unfold finish_line
  simp only [b1, ne_eq, not_true_eq_false, if_false]
  generalize update_spindle fr2 = fr3 at d1 d2 d3 d5 hu ⊢
  simp only [perform_action, d2, d3, trunc_zero, Bool.false_eq_true, if_false, Frame.returns,
    d1, d5, true_and]
  exact ⟨fr3.calls, _, _, _, _, rfl, hu⟩

theorem C5_modal_persistence_witness :
    gc_execute_line libcQ (gc_execute_line libcQ (gc_init 381 381) "G1".toList).gc
        "G1X5".toList
      = gc_execute_line libcQ (gc_execute_line libcQ (gc_init 381 381) "G1".toList).gc
        "X5".toList :=
  C5_modal_persistence libcQ (gc_init 381 381) "G1".toList "X5".toList "G1X5".toList 1 1
    (by decide) (by simp) (by simp [pass1_scan, pass2_scan, first_counter, statements, next_statement, read_double, libcQ, strtod_decimal, scanNumeral, takeDigits, takeSign, charAt, Numeral.value]) (by simp [pass1_scan, pass2_scan, first_counter, statements, next_statement, read_double, libcQ, strtod_decimal, scanNumeral, takeDigits, takeSign, charAt, Numeral.value])
    (by simp [charAt]) (by simp [charAt]) (by simp [charAt])
    (by simp [pass1_scan, pass2_scan, first_counter, statements, next_statement, read_double, libcQ, strtod_decimal, scanNumeral, takeDigits, takeSign, charAt, Numeral.value]) (by simp [pass1_scan, pass2_scan, first_counter, statements, next_statement, read_double, libcQ, strtod_decimal, scanNumeral, takeDigits, takeSign, charAt, Numeral.value])

theorem C6_position_untouched_on_error_witness :
    (gc_execute_line libcQ { gc_init 381 381 with position := ⟨1, 2, 3⟩ } "X9G1Y".toList).ret
      = Status.BAD_NUMBER_FORMAT
    ∧ (gc_execute_line libcQ { gc_init 381 381 with position := ⟨1, 2, 3⟩ }
        "X9G1Y".toList).gc.position = ⟨1, 2, 3⟩ := by
  have h : (gc_execute_line libcQ { gc_init 381 381 with position := ⟨1, 2, 3⟩ }
      "X9G1Y".toList).ret = Status.BAD_NUMBER_FORMAT := by
    rw [gc_execute_line_eq _ _ _ (by simp [charAt]) (by simp [charAt])]
    simp [pass1_scan, pass2_scan, first_counter, statements, next_statement, read_double, libcQ, strtod_decimal, scanNumeral, takeDigits, takeSign, charAt, Numeral.value, gc_init, clear_vector,
      execute_statements, pass1_statements, pass2_statements, pass1_statement,
    pass2_statement, pass1_G, pass1_M, finish_line, perform_action, update_spindle,
    initial_frame, pass2_frame, initial_locals, FAIL, Frame.returns, to_millimeters, Vec3.set,
    Vec3.get, select_plane, Frame.set_motion_mode, Frame.set_next_action, Frame.set_plane,
    Frame.set_inches_mode, Frame.set_absolute_override, Frame.set_absolute_mode,
    Frame.set_inverse_feed_rate_mode, Frame.set_program_flow, Frame.set_spindle_direction,
    Frame.set_tool, Frame.set_inverse_feed_rate, Frame.set_homing_feed_rate,
    Frame.set_seek_rate, Frame.set_feed_rate, Frame.set_offset, Frame.set_p, Frame.set_r,
    Frame.set_spindle_speed, Frame.set_target, Frame.set_homing_dist_to_move,
    Frame.set_homing_threshold, Frame.set_homing_max_number_of_times]
  exact ⟨h, C6_position_untouched_on_error libcQ _ _ (by rw [h]; decide)⟩

theorem M3G2X10R1_outcome :
    (gc_execute_line libcQ (gc_init 381 381) "M3G2X10R1".toList).ret
      = Status.FLOATING_POINT_ERROR
    ∧ (gc_execute_line libcQ (gc_init 381 381) "M3G2X10R1".toList).calls
      = [Call.mc_dwell 0, Call.spindle_run 1 0] := by
  rw [gc_execute_line_eq _ _ _ (by simp [charAt]) (by simp [charAt])]
  simp [pass1_scan, pass2_scan, first_counter, statements, next_statement, read_double, libcQ, strtod_decimal, scanNumeral, takeDigits, takeSign, charAt, Numeral.value, gc_init, clear_vector, dispatch_arc,
    isnan_h_x2_div_d, X_AXIS, Y_AXIS, Z_AXIS,
    execute_statements, pass1_statements, pass2_statements, pass1_statement,
    pass2_statement, pass1_G, pass1_M, finish_line, perform_action, update_spindle,
    initial_frame, pass2_frame, initial_locals, FAIL, Frame.returns, to_millimeters, Vec3.set,
    Vec3.get, select_plane, Frame.set_motion_mode, Frame.set_next_action, Frame.set_plane,
    Frame.set_inches_mode, Frame.set_absolute_override, Frame.set_absolute_mode,
    Frame.set_inverse_feed_rate_mode, Frame.set_program_flow, Frame.set_spindle_direction,
    Frame.set_tool, Frame.set_inverse_feed_rate, Frame.set_homing_feed_rate,
    Frame.set_seek_rate, Frame.set_feed_rate, Frame.set_offset, Frame.set_p, Frame.set_r,
    Frame.set_spindle_speed, Frame.set_target, Frame.set_homing_dist_to_move,
    Frame.set_homing_threshold, Frame.set_homing_max_number_of_times]
  norm_num

theorem C7_no_action_on_error_witness :
    (gc_execute_line libcQ (gc_init 381 381) "M3G2X10R1".toList).ret
      = Status.FLOATING_POINT_ERROR
    ∧ ((gc_execute_line libcQ (gc_init 381 381) "M3G2X10R1".toList).calls = []
      ∨ (∃ d s, (gc_execute_line libcQ (gc_init 381 381) "M3G2X10R1".toList).calls
          = [Call.mc_dwell 0, Call.spindle_run d s])
      ∨ (gc_execute_line libcQ (gc_init 381 381) "M3G2X10R1".toList).calls
          = [Call.mc_dwell 0, Call.spindle_stop]) :=
  ⟨M3G2X10R1_outcome.1,
    (C7_no_action_on_error libcQ (gc_init 381 381) "M3G2X10R1".toList
      (by rw [M3G2X10R1_outcome.1]; decide)).2 M3G2X10R1_outcome.1⟩

/-- Claim C7, as stated, fails: the line `M3G2X10R1` from the power-on state returns
FloatingPointError after `mc_dwell(0)` and `spindle_run(1, 0)` have been called. -/
theorem C7_counterexample :
    (gc_execute_line libcQ (gc_init 381 381) "M3G2X10R1".toList).ret ≠ Status.OK
    ∧ (gc_execute_line libcQ (gc_init 381 381) "M3G2X10R1".toList).calls
      = [Call.mc_dwell 0, Call.spindle_run 1 0]
    ∧ (Call.spindle_run 1 0 : Call ℚ).isPhysical = true := by
  refine ⟨by rw [M3G2X10R1_outcome.1]; decide, M3G2X10R1_outcome.2, rfl⟩

theorem C8_tokenisation_errors_witness :
    (gc_execute_line libcQ (gc_init 381 381) "G1?".toList).ret
      = Status.EXPECTED_COMMAND_LETTER
    ∧ (gc_execute_line libcQ (gc_init 381 381) "G1X".toList).ret
      = Status.BAD_NUMBER_FORMAT :=
  ⟨(C8_tokenisation_errors libcQ (gc_init 381 381) "G1?".toList
      (by simp [charAt]) (by simp [charAt]) (by simp [charAt])
      (by simp [pass1_scan, pass2_scan, first_counter, statements, next_statement, read_double, libcQ, strtod_decimal, scanNumeral, takeDigits, takeSign, charAt, Numeral.value, supported, supported_G])).1
      (by simp [pass1_scan, pass2_scan, first_counter, statements, next_statement, read_double, libcQ, strtod_decimal, scanNumeral, takeDigits, takeSign, charAt, Numeral.value]) (by simp [pass1_scan, pass2_scan, first_counter, statements, next_statement, read_double, libcQ, strtod_decimal, scanNumeral, takeDigits, takeSign, charAt, Numeral.value]),
   (C8_tokenisation_errors libcQ (gc_init 381 381) "G1X".toList
      (by simp [charAt]) (by simp [charAt]) (by simp [charAt])
      (by simp [pass1_scan, pass2_scan, first_counter, statements, next_statement, read_double, libcQ, strtod_decimal, scanNumeral, takeDigits, takeSign, charAt, Numeral.value, supported, supported_G])).2.1
      (by simp [pass1_scan, pass2_scan, first_counter, statements, next_statement, read_double, libcQ, strtod_decimal, scanNumeral, takeDigits, takeSign, charAt, Numeral.value]) (by simp [pass1_scan, pass2_scan, first_counter, statements, next_statement, read_double, libcQ, strtod_decimal, scanNumeral, takeDigits, takeSign, charAt, Numeral.value]) (by simp [pass1_scan, pass2_scan, first_counter, statements, next_statement, read_double, libcQ, strtod_decimal, scanNumeral, takeDigits, takeSign, charAt, Numeral.value])⟩

/-- Claim C8, as stated, fails: in `G99?` the token before position 3 is well formed and the
character at position 3 is not a letter, yet the line returns UnsupportedStatement. -/
theorem C8_counterexample :
    (pass2_scan libcQ "G99?".toList).stmts = [('G', 99)]
    ∧ (pass2_scan libcQ "G99?".toList).stop = 3
    ∧ charAt "G99?".toList 3 = '?'
    ∧ (gc_execute_line libcQ (gc_init 381 381) "G99?".toList).ret
      = Status.UNSUPPORTED_STATEMENT
    ∧ (gc_execute_line libcQ (gc_init 381 381) "G99?".toList).ret
      ≠ Status.EXPECTED_COMMAND_LETTER := by
  have h : (gc_execute_line libcQ (gc_init 381 381) "G99?".toList).ret
      = Status.UNSUPPORTED_STATEMENT := by
    rw [gc_execute_line_eq _ _ _ (by simp [charAt]) (by simp [charAt])]
    simp [pass1_scan, pass2_scan, first_counter, statements, next_statement, read_double, libcQ, strtod_decimal, scanNumeral, takeDigits, takeSign, charAt, Numeral.value, gc_init, clear_vector,
      execute_statements, pass1_statements, pass2_statements, pass1_statement,
    pass2_statement, pass1_G, pass1_M, finish_line, perform_action, update_spindle,
    initial_frame, pass2_frame, initial_locals, FAIL, Frame.returns, to_millimeters, Vec3.set,
    Vec3.get, select_plane, Frame.set_motion_mode, Frame.set_next_action, Frame.set_plane,
    Frame.set_inches_mode, Frame.set_absolute_override, Frame.set_absolute_mode,
    Frame.set_inverse_feed_rate_mode, Frame.set_program_flow, Frame.set_spindle_direction,
    Frame.set_tool, Frame.set_inverse_feed_rate, Frame.set_homing_feed_rate,
    Frame.set_seek_rate, Frame.set_feed_rate, Frame.set_offset, Frame.set_p, Frame.set_r,
    Frame.set_spindle_speed, Frame.set_target, Frame.set_homing_dist_to_move,
    Frame.set_homing_threshold, Frame.set_homing_max_number_of_times]
  refine ⟨by simp [pass1_scan, pass2_scan, first_counter, statements, next_statement, read_double, libcQ, strtod_decimal, scanNumeral, takeDigits, takeSign, charAt, Numeral.value], by simp [pass1_scan, pass2_scan, first_counter, statements, next_statement, read_double, libcQ, strtod_decimal, scanNumeral, takeDigits, takeSign, charAt, Numeral.value], by simp [charAt], h, by rw [h]; decide⟩

theorem C9_unsupported_codes_witness :
    (gc_execute_line libcQ (gc_init 381 381) "G1G99X5".toList).ret
      = Status.UNSUPPORTED_STATEMENT
    ∧ (gc_execute_line libcQ { gc_init 381 381 with spindle_direction := 1 }
        "G1M4".toList).ret = Status.UNSUPPORTED_STATEMENT
    ∧ (gc_execute_line libcQ { gc_init 381 381 with spindle_direction := 1 }
        "G1M4".toList).gc.spindle_direction = 1 :=
  ⟨(C9_unsupported_codes libcQ (gc_init 381 381) "G1G99X5".toList
      (by simp [charAt]) (by simp [charAt])).1 ('G', 99) (by simp [pass1_scan, pass2_scan, first_counter, statements, next_statement, read_double, libcQ, strtod_decimal, scanNumeral, takeDigits, takeSign, charAt, Numeral.value])
      (Or.inl ⟨rfl, by simp [supported_G]⟩),
   (C9_unsupported_codes libcQ { gc_init 381 381 with spindle_direction := 1 } "G1M4".toList
      (by simp [charAt]) (by simp [charAt])).2 [('G', 1)] [] 4 (by simp [pass1_scan, pass2_scan, first_counter, statements, next_statement, read_double, libcQ, strtod_decimal, scanNumeral, takeDigits, takeSign, charAt, Numeral.value])
      (by simp) (by simp)⟩

theorem C10_G28_without_P_witness :
    (gc_execute_line libcQ (gc_init 381 381) "M3G28A5F600".toList).ret = Status.OK
    ∧ ∃ cs f d t m,
        (gc_execute_line libcQ (gc_init 381 381) "M3G28A5F600".toList).calls
          = cs ++ [Call.mc_do_homing_with_params 0 f d t m (gc_init 381 381).position]
        ∧ (cs = [] ∨ (∃ dir rpm, cs = [Call.mc_dwell 0, Call.spindle_run dir rpm])
            ∨ cs = [Call.mc_dwell 0, Call.spindle_stop]) :=
  C10_G28_without_P libcQ (gc_init 381 381) "M3G28A5F600".toList
    [('M', 3)] [('A', 5), ('F', 600)] 28
    (by simp [charAt]) (by simp [charAt]) (by simp [charAt])
    (by simp [pass1_scan, pass2_scan, first_counter, statements, next_statement, read_double, libcQ, strtod_decimal, scanNumeral, takeDigits, takeSign, charAt, Numeral.value]) (by simp [pass1_scan, pass2_scan, first_counter, statements, next_statement, read_double, libcQ, strtod_decimal, scanNumeral, takeDigits, takeSign, charAt, Numeral.value]) (by simp)
    (by simp [supported, supported_G, supported_M])
    (by simp) (by simp)

/-- Claim C10, as stated, fails: the line `G28` has no P word, yet from the power-on state it
returns OK and calls `mc_do_homing_with_params` for axis 0. -/
theorem C10_counterexample :
    (pass2_scan libcQ "G28".toList).stmts = [('G', 28)]
    ∧ (gc_execute_line libcQ (gc_init 381 381) "G28".toList).ret = Status.OK
    ∧ (gc_execute_line libcQ (gc_init 381 381) "G28".toList).calls
      = [Call.mc_do_homing_with_params 0 (381 / 60) 0 0 0 ⟨0, 0, 0⟩] := by
  refine ⟨by simp [pass1_scan, pass2_scan, first_counter, statements, next_statement, read_double, libcQ, strtod_decimal, scanNumeral, takeDigits, takeSign, charAt, Numeral.value], ?_, ?_⟩
  all_goals
    rw [gc_execute_line_eq _ _ _ (by simp [charAt]) (by simp [charAt])]
    simp [pass1_scan, pass2_scan, first_counter, statements, next_statement, read_double, libcQ, strtod_decimal, scanNumeral, takeDigits, takeSign, charAt, Numeral.value, gc_init, clear_vector,
      execute_statements, pass1_statements, pass2_statements, pass1_statement,
    pass2_statement, pass1_G, pass1_M, finish_line, perform_action, update_spindle,
    initial_frame, pass2_frame, initial_locals, FAIL, Frame.returns, to_millimeters, Vec3.set,
    Vec3.get, select_plane, Frame.set_motion_mode, Frame.set_next_action, Frame.set_plane,
    Frame.set_inches_mode, Frame.set_absolute_override, Frame.set_absolute_mode,
    Frame.set_inverse_feed_rate_mode, Frame.set_program_flow, Frame.set_spindle_direction,
    Frame.set_tool, Frame.set_inverse_feed_rate, Frame.set_homing_feed_rate,
    Frame.set_seek_rate, Frame.set_feed_rate, Frame.set_offset, Frame.set_p, Frame.set_r,
    Frame.set_spindle_speed, Frame.set_target, Frame.set_homing_dist_to_move,
    Frame.set_homing_threshold, Frame.set_homing_max_number_of_times]

/-! ## Settings lines, dwell, homing dispatch and origin redefinition -/

/-- Claim C11 (settings line).  Take a line that starts with the dollar sign followed by a
number N that `strtod` parses.  If the character after N is the equals sign, a number V
follows that `strtod` parses, and the line ends after V, then `gc_execute_line` returns OK,
makes the single call `settings_store_setting(N, V)` (so no motion), and leaves every field
of `gc` but `status_code` as it was.  If a character follows V, or if the character after N
is not the equals sign, it returns UnsupportedStatement and makes no call. -/
theorem C11_settings_line (libc : Libc α) (gc : parser_state_t α) (line : List Char)
    (h0 : charAt line 0 = '$') (h1 : charAt line 1 ≠ '$') (h2 : charAt line 1 ≠ Char.ofNat 0)
    (hN : (libc.strtod (line.drop 1)).2 ≠ 0) :
    (charAt line (1 + (libc.strtod (line.drop 1)).2) = '=' →
      (libc.strtod (line.drop (1 + (libc.strtod (line.drop 1)).2 + 1))).2 ≠ 0 →
      charAt line (1 + (libc.strtod (line.drop 1)).2 + 1
        + (libc.strtod (line.drop (1 + (libc.strtod (line.drop 1)).2 + 1))).2) = Char.ofNat 0 →
      (gc_execute_line libc gc line).ret = Status.OK
      ∧ (gc_execute_line libc gc line).calls
        = [Call.settings_store_setting (libc.strtod (line.drop 1)).1
            (libc.strtod (line.drop (1 + (libc.strtod (line.drop 1)).2 + 1))).1]
      ∧ (gc_execute_line libc gc line).gc = { gc with status_code := Status.OK })
    ∧ (charAt line (1 + (libc.strtod (line.drop 1)).2) = '=' →
      (libc.strtod (line.drop (1 + (libc.strtod (line.drop 1)).2 + 1))).2 ≠ 0 →
      charAt line (1 + (libc.strtod (line.drop 1)).2 + 1
        + (libc.strtod (line.drop (1 + (libc.strtod (line.drop 1)).2 + 1))).2) ≠ Char.ofNat 0 →
      (gc_execute_line libc gc line).ret = Status.UNSUPPORTED_STATEMENT
      ∧ (gc_execute_line libc gc line).calls = [])
    ∧ (charAt line (1 + (libc.strtod (line.drop 1)).2) ≠ '=' →
      (gc_execute_line libc gc line).ret = Status.UNSUPPORTED_STATEMENT
      ∧ (gc_execute_line libc gc line).calls = []) := by
  have h3 : charAt line 0 ≠ '(' := by rw [h0]; decide
  have r1 : ∀ s, read_double libc line 1 s
      = { ret := true, value := (libc.strtod (line.drop 1)).1,
          char_counter := 1 + (libc.strtod (line.drop 1)).2, status_code := s } := by
    intro s
    unfold read_double
    rw [if_neg hN]
  have r2 : (libc.strtod (line.drop (1 + (libc.strtod (line.drop 1)).2 + 1))).2 ≠ 0 →
      ∀ s, read_double libc line (1 + (libc.strtod (line.drop 1)).2 + 1) s
      = { ret := true,
          value := (libc.strtod (line.drop (1 + (libc.strtod (line.drop 1)).2 + 1))).1,
          char_counter := 1 + (libc.strtod (line.drop 1)).2 + 1
            + (libc.strtod (line.drop (1 + (libc.strtod (line.drop 1)).2 + 1))).2,
          status_code := s } := by
    intro hV s
    unfold read_double
    rw [if_neg hV]
  unfold gc_execute_line execute_settings_line
  simp only [h3, h0, h1, h2, if_false, if_true, r1]
  refine ⟨fun e hV z => ?_, fun e hV z => ?_, fun e => ?_⟩
  · simp only [e, ne_eq, not_true_eq_false, if_false, r2 hV, z]
    simp [initial_frame, FAIL, Frame.returns]
  · simp only [e, ne_eq, not_true_eq_false, if_false, r2 hV, z, not_false_eq_true, if_true]
    simp [initial_frame, FAIL, Frame.returns]
  · simp only [e, ne_eq, not_false_eq_true, if_true]
    simp [initial_frame, FAIL, Frame.returns]

theorem C11_settings_line_witness :
    (gc_execute_line libcQ (gc_init 381 381) "$0=188.97".toList).ret = Status.OK
    ∧ (gc_execute_line libcQ (gc_init 381 381) "$0=188.97".toList).calls
      = [Call.settings_store_setting 0 (18897 / 100)]
    ∧ (gc_execute_line libcQ (gc_init 381 381) "$0=188.97".toList).gc
      = { gc_init 381 381 with status_code := Status.OK } := by
  have h := (C11_settings_line libcQ (gc_init 381 381) "$0=188.97".toList
    (by simp [charAt]) (by simp [charAt]) (by simp [charAt])
    (by simp [pass1_scan, pass2_scan, first_counter, statements, next_statement, read_double, libcQ, strtod_decimal, scanNumeral, takeDigits, takeSign, charAt, Numeral.value])).1
    (by simp [pass1_scan, pass2_scan, first_counter, statements, next_statement, read_double, libcQ, strtod_decimal, scanNumeral, takeDigits, takeSign, charAt, Numeral.value]) (by simp [pass1_scan, pass2_scan, first_counter, statements, next_statement, read_double, libcQ, strtod_decimal, scanNumeral, takeDigits, takeSign, charAt, Numeral.value]) (by simp [pass1_scan, pass2_scan, first_counter, statements, next_statement, read_double, libcQ, strtod_decimal, scanNumeral, takeDigits, takeSign, charAt, Numeral.value])
  simp [pass1_scan, pass2_scan, first_counter, statements, next_statement, read_double, libcQ, strtod_decimal, scanNumeral, takeDigits, takeSign, charAt, Numeral.value] at h
  norm_num at h
  exact h

theorem dwell_line (libc : Libc α) (gc : parser_state_t α) (line : List Char) (p : α)
    (hs : (pass2_scan libc line).stmts = [('G', 4), ('P', p)])
    (hst : (pass2_scan libc line).status_code = Status.OK) :
    (gc_execute_line libc gc line).ret = Status.OK
    ∧ (gc_execute_line libc gc line).calls
      = [Call.mc_dwell (trunc (1000 * p) % 4294967296)]
    ∧ (∀ c ∈ (gc_execute_line libc gc line).calls, c.is_plan_buffer_line = false)
    ∧ (gc_execute_line libc gc line).gc.position = gc.position := by
  have h0 : charAt line 0 = 'G' := statements_head libc line _ 0 _ _ hs
  have h1 : charAt line 0 ≠ '(' := by rw [h0]; decide
  have h2 : charAt line 0 ≠ '$' := by rw [h0]; decide
  have h3 : charAt line 0 ≠ '/' := by rw [h0]; decide
  rw [gc_execute_line_eq libc _ line h1 h2, pass1_scan_eq_pass2_scan libc line h3]
  simp [hs, hst, mul_comm, Call.is_plan_buffer_line, execute_statements, pass1_statements, pass2_statements, pass1_statement,
    pass2_statement, pass1_G, pass1_M, finish_line, perform_action, update_spindle,
    initial_frame, pass2_frame, initial_locals, FAIL, Frame.returns, to_millimeters, Vec3.set,
    Vec3.get, select_plane, Frame.set_motion_mode, Frame.set_next_action, Frame.set_plane,
    Frame.set_inches_mode, Frame.set_absolute_override, Frame.set_absolute_mode,
    Frame.set_inverse_feed_rate_mode, Frame.set_program_flow, Frame.set_spindle_direction,
    Frame.set_tool, Frame.set_inverse_feed_rate, Frame.set_homing_feed_rate,
    Frame.set_seek_rate, Frame.set_feed_rate, Frame.set_offset, Frame.set_p, Frame.set_r,
    Frame.set_spindle_speed, Frame.set_target, Frame.set_homing_dist_to_move,
    Frame.set_homing_threshold, Frame.set_homing_max_number_of_times]

/-- Claim C12 (dwell), amended for the width of the argument.  From every state and for
every `p ≥ 0` with `trunc(1000*p) < 2^32`, a line with the statements G4 Pp returns OK,
makes the single call `mc_dwell(trunc(1000*p))`, so no `plan_buffer_line` call, and leaves
`gc.position` as it was. -/
theorem C12_dwell (libc : Libc α) (gc : parser_state_t α) (line : List Char) (p : α)
    (hp : 0 ≤ p) (hlt : trunc (1000 * p) < 4294967296)
    (hs : (pass2_scan libc line).stmts = [('G', 4), ('P', p)])
    (hst : (pass2_scan libc line).status_code = Status.OK) :
    (gc_execute_line libc gc line).ret = Status.OK
    ∧ (gc_execute_line libc gc line).calls = [Call.mc_dwell (trunc (1000 * p))]
    ∧ 0 ≤ trunc (1000 * p)
    ∧ (∀ c ∈ (gc_execute_line libc gc line).calls, c.is_plan_buffer_line = false)
    ∧ (gc_execute_line libc gc line).gc.position = gc.position := by
  have h4 : 0 ≤ trunc (1000 * p) := by
    unfold trunc
    rw [if_pos (by positivity)]
    exact Int.floor_nonneg.mpr (by positivity)
  obtain ⟨a, b, c, d⟩ := dwell_line libc gc line p hs hst
  rw [Int.emod_eq_of_lt h4 hlt] at b
  exact ⟨a, b, h4, c, d⟩

theorem C12_dwell_witness :
    (gc_execute_line libcQ (gc_init 381 381) "G4P2.5".toList).ret = Status.OK
    ∧ (gc_execute_line libcQ (gc_init 381 381) "G4P2.5".toList).calls = [Call.mc_dwell 2500]
    ∧ (0 : ℤ) ≤ 2500
    ∧ (∀ c ∈ (gc_execute_line libcQ (gc_init 381 381) "G4P2.5".toList).calls,
        c.is_plan_buffer_line = false)
    ∧ (gc_execute_line libcQ (gc_init 381 381) "G4P2.5".toList).gc.position
      = (gc_init 381 381).position := by
  have e : trunc (1000 * (5 / 2) : ℚ) = 2500 := by
    have : (1000 * (5 / 2) : ℚ) = ((2500 : ℤ) : ℚ) := by norm_num
    rw [this, trunc_intCast]
  have h := C12_dwell libcQ (gc_init 381 381) "G4P2.5".toList (5 / 2) (by norm_num)
    (by rw [e]; decide)
    (by simp [pass1_scan, pass2_scan, first_counter, statements, next_statement, read_double, libcQ, strtod_decimal, scanNumeral, takeDigits, takeSign, charAt, Numeral.value]; norm_num) (by simp [pass1_scan, pass2_scan, first_counter, statements, next_statement, read_double, libcQ, strtod_decimal, scanNumeral, takeDigits, takeSign, charAt, Numeral.value])
  rw [e] at h
  exact h

/-- Claim C12, as stated, fails: the line `G4P5000000` has `trunc(1000*p) = 5000000000`,
which the `uint32_t` parameter of `mc_dwell` does not hold; the call made is
`mc_dwell(705032704)`. -/
theorem C12_counterexample :
    trunc (1000 * 5000000 : ℚ) = 5000000000
    ∧ (gc_execute_line libcQ (gc_init 381 381) "G4P5000000".toList).calls
      = [Call.mc_dwell 705032704]
    ∧ (gc_execute_line libcQ (gc_init 381 381) "G4P5000000".toList).calls
      ≠ [Call.mc_dwell (trunc (1000 * 5000000 : ℚ))] := by
  have e : trunc (1000 * 5000000 : ℚ) = 5000000000 := by
    have : (1000 * 5000000 : ℚ) = ((5000000000 : ℤ) : ℚ) := by norm_num
    rw [this, trunc_intCast]
  have h := (dwell_line libcQ (gc_init 381 381) "G4P5000000".toList 5000000
    (by simp [pass1_scan, pass2_scan, first_counter, statements, next_statement, read_double, libcQ, strtod_decimal, scanNumeral, takeDigits, takeSign, charAt, Numeral.value]) (by simp [pass1_scan, pass2_scan, first_counter, statements, next_statement, read_double, libcQ, strtod_decimal, scanNumeral, takeDigits, takeSign, charAt, Numeral.value])).2.1
  rw [e] at h
  have h2 : (5000000000 : ℤ) % 4294967296 = 705032704 := by decide
  rw [h2] at h
  refine ⟨e, h, ?_⟩
  rw [h, e]
  decide

/-- Claim C13 (homing dispatch).  In millimetre mode with inverse feed rate off, for every
axis `a` in {0, 1, 2}, all numbers `s`, `t`, `f` and every `c < 65536`, a line with the
statements G28 Pa As Bt Cc Ff returns OK, makes the single call
`mc_do_homing_with_params(a, f/60, s, t, c, gc.position)`, leaves `gc.feed_rate` and
`gc.seek_rate` as they were, and ends with `gc.position[a] = 0` and the other two
coordinates as they were. -/
theorem C13_homing_dispatch (libc : Libc α) (gc : parser_state_t α) (line : List Char)
    (a : ℤ) (s t f : α) (c : ℕ)
    (hmm : gc.inches_mode = false) (hinv : gc.inverse_feed_rate_mode = false)
    (ha : a = 0 ∨ a = 1 ∨ a = 2) (hc : c < 65536)
    (hs : (pass2_scan libc line).stmts
      = [('G', 28), ('P', (a : α)), ('A', s), ('B', t), ('C', (c : α)), ('F', f)])
    (hst : (pass2_scan libc line).status_code = Status.OK) :
    (gc_execute_line libc gc line).ret = Status.OK
    ∧ (gc_execute_line libc gc line).calls
      = [Call.mc_do_homing_with_params a (f / 60) s t c gc.position]
    ∧ (gc_execute_line libc gc line).gc.feed_rate = gc.feed_rate
    ∧ (gc_execute_line libc gc line).gc.seek_rate = gc.seek_rate
    ∧ (gc_execute_line libc gc line).gc.position = gc.position.set a 0
    ∧ (gc_execute_line libc gc line).gc.position.get a = 0
    ∧ (∀ i : ℤ, i ≠ a →
        (gc_execute_line libc gc line).gc.position.get i = gc.position.get i) := by
  have h0 : charAt line 0 = 'G' := statements_head libc line _ 0 _ _ hs
  have h1 : charAt line 0 ≠ '(' := by rw [h0]; decide
  have h2 : charAt line 0 ≠ '$' := by rw [h0]; decide
  have h3 : charAt line 0 ≠ '/' := by rw [h0]; decide
  have hc2 : ((c : ℤ) % 65536).toNat = c := by omega
  rw [gc_execute_line_eq libc _ line h1 h2, pass1_scan_eq_pass2_scan libc line h3]
  rcases ha with ha | ha | ha <;> subst ha <;>
    simp [hs, hst, hmm, hinv, hc2, trunc_intCast, trunc_natCast, execute_statements, pass1_statements, pass2_statements, pass1_statement,
    pass2_statement, pass1_G, pass1_M, finish_line, perform_action, update_spindle,
    initial_frame, pass2_frame, initial_locals, FAIL, Frame.returns, to_millimeters, Vec3.set,
    Vec3.get, select_plane, Frame.set_motion_mode, Frame.set_next_action, Frame.set_plane,
    Frame.set_inches_mode, Frame.set_absolute_override, Frame.set_absolute_mode,
    Frame.set_inverse_feed_rate_mode, Frame.set_program_flow, Frame.set_spindle_direction,
    Frame.set_tool, Frame.set_inverse_feed_rate, Frame.set_homing_feed_rate,
    Frame.set_seek_rate, Frame.set_feed_rate, Frame.set_offset, Frame.set_p, Frame.set_r,
    Frame.set_spindle_speed, Frame.set_target, Frame.set_homing_dist_to_move,
    Frame.set_homing_threshold, Frame.set_homing_max_number_of_times]
  all_goals
    intro i hi
    simp [hi]

theorem C13_homing_dispatch_witness :
    (gc_execute_line libcQ (gc_init 381 381) "G28P0A-200B250C50F600".toList).ret = Status.OK
    ∧ (gc_execute_line libcQ (gc_init 381 381) "G28P0A-200B250C50F600".toList).calls
      = [Call.mc_do_homing_with_params 0 10 (-200) 250 50 ⟨0, 0, 0⟩] := by
  have h := C13_homing_dispatch libcQ (gc_init 381 381) "G28P0A-200B250C50F600".toList
    0 (-200) 250 600 50 rfl rfl (Or.inl rfl) (by decide)
    (by simp [pass1_scan, pass2_scan, first_counter, statements, next_statement, read_double, libcQ, strtod_decimal, scanNumeral, takeDigits, takeSign, charAt, Numeral.value]) (by simp [pass1_scan, pass2_scan, first_counter, statements, next_statement, read_double, libcQ, strtod_decimal, scanNumeral, takeDigits, takeSign, charAt, Numeral.value])
  refine ⟨h.1, ?_⟩
  rw [h.2.1]
  norm_num [gc_init, clear_vector, select_plane]

/-- Claim C14 (G34 origin redefinition).  From every state and for every `n` in
{-1, 0, 1, 2}, a line with the statements G34 Pn returns OK, makes the single call
`mc_cur_pos_is_origin(n, gc.position)`, so enqueues no line, and leaves `gc.position` equal
to (0, 0, 0) for `n = -1` and else to the old position with entry `n` set to 0: the copy of
`target` to `gc.position` at the end of the line does not undo the redefinition. -/
theorem C14_origin_redefinition (libc : Libc α) (gc : parser_state_t α) (line : List Char)
    (n : ℤ) (hn : n = -1 ∨ n = 0 ∨ n = 1 ∨ n = 2)
    (hs : (pass2_scan libc line).stmts = [('G', 34), ('P', (n : α))])
    (hst : (pass2_scan libc line).status_code = Status.OK) :
    (gc_execute_line libc gc line).ret = Status.OK
    ∧ (gc_execute_line libc gc line).calls = [Call.mc_cur_pos_is_origin n gc.position]
    ∧ (∀ c ∈ (gc_execute_line libc gc line).calls, c.is_plan_buffer_line = false)
    ∧ (gc_execute_line libc gc line).gc.position
      = (if n = -1 then ⟨0, 0, 0⟩ else gc.position.set n 0)
    ∧ (∀ i : ℤ, (i = 0 ∨ i = 1 ∨ i = 2) → (n = -1 ∨ i = n) →
        (gc_execute_line libc gc line).gc.position.get i = 0)
    ∧ (∀ i : ℤ, n ≠ -1 → i ≠ n →
        (gc_execute_line libc gc line).gc.position.get i = gc.position.get i) := by
  have h0 : charAt line 0 = 'G' := statements_head libc line _ 0 _ _ hs
  have h1 : charAt line 0 ≠ '(' := by rw [h0]; decide
  have h2 : charAt line 0 ≠ '$' := by rw [h0]; decide
  have h3 : charAt line 0 ≠ '/' := by rw [h0]; decide
  rw [gc_execute_line_eq libc _ line h1 h2, pass1_scan_eq_pass2_scan libc line h3]
  have t1 : trunc (-1 : α) = -1 := by
    have := trunc_intCast (α := α) (-1)
    simpa using this
  rcases hn with hn | hn | hn | hn <;> subst hn <;>
    simp [hs, hst, t1, trunc_intCast, Call.is_plan_buffer_line, mc_cur_pos_is_origin,
      clear_vector, execute_statements, pass1_statements, pass2_statements, pass1_statement,
    pass2_statement, pass1_G, pass1_M, finish_line, perform_action, update_spindle,
    initial_frame, pass2_frame, initial_locals, FAIL, Frame.returns, to_millimeters, Vec3.set,
    Vec3.get, select_plane, Frame.set_motion_mode, Frame.set_next_action, Frame.set_plane,
    Frame.set_inches_mode, Frame.set_absolute_override, Frame.set_absolute_mode,
    Frame.set_inverse_feed_rate_mode, Frame.set_program_flow, Frame.set_spindle_direction,
    Frame.set_tool, Frame.set_inverse_feed_rate, Frame.set_homing_feed_rate,
    Frame.set_seek_rate, Frame.set_feed_rate, Frame.set_offset, Frame.set_p, Frame.set_r,
    Frame.set_spindle_speed, Frame.set_target, Frame.set_homing_dist_to_move,
    Frame.set_homing_threshold, Frame.set_homing_max_number_of_times]
  all_goals
    intro i hi
    simp [hi]

theorem C14_origin_redefinition_witness :
    (gc_execute_line libcQ { gc_init 381 381 with position := ⟨7, 3, -4⟩ }
        "G34P-1".toList).ret = Status.OK
    ∧ (gc_execute_line libcQ { gc_init 381 381 with position := ⟨7, 3, -4⟩ }
        "G34P-1".toList).calls = [Call.mc_cur_pos_is_origin (-1) ⟨7, 3, -4⟩]
    ∧ (gc_execute_line libcQ { gc_init 381 381 with position := ⟨7, 3, -4⟩ }
        "G34P-1".toList).gc.position = ⟨0, 0, 0⟩ := by
  have h := C14_origin_redefinition libcQ { gc_init 381 381 with position := ⟨7, 3, -4⟩ }
    "G34P-1".toList (-1) (Or.inl rfl) (by simp [pass1_scan, pass2_scan, first_counter, statements, next_statement, read_double, libcQ, strtod_decimal, scanNumeral, takeDigits, takeSign, charAt, Numeral.value]) (by simp [pass1_scan, pass2_scan, first_counter, statements, next_statement, read_double, libcQ, strtod_decimal, scanNumeral, takeDigits, takeSign, charAt, Numeral.value])
  exact ⟨h.1, h.2.1, by rw [h.2.2.2.1]; rfl⟩

theorem Vec3_set_set (v : Vec3 α) (i : ℤ) (a b : α) : (v.set i a).set i b = v.set i b := by
  unfold Vec3.set
  split_ifs <;> rfl

theorem Vec3_get_set (v : Vec3 α) (i : ℤ) (a : α) (h : i = 0 ∨ i = 1 ∨ i = 2) :
    (v.set i a).get i = a := by
  rcases h with h | h | h <;> subst h <;> simp [Vec3.set, Vec3.get]

theorem homing_loop_stops (sensor : ℕ → Option α) (axis : ℤ) (feedRate moveVal thr : α)
    (left n : ℕ) (v : α) (pos : Vec3 α) (h : ¬ v < thr) :
    homing_loop sensor axis feedRate moveVal thr left n (some v) pos
      = { numTimesMoved := n, position := pos, calls := [] } := by
  cases left <;> simp [homing_loop, h]

theorem homing_loop_timed_out (sensor : ℕ → Option α) (axis : ℤ) (feedRate moveVal thr : α)
    (left n : ℕ) (pos : Vec3 α) :
    homing_loop sensor axis feedRate moveVal thr left n none pos
      = { numTimesMoved := n, position := pos, calls := [] } := by
  cases left <;> simp [homing_loop]

theorem homing_move_countP (axis : ℤ) (feedRate moveVal : α) (pos : Vec3 α)
    (h : axis = 0 ∨ axis = 1 ∨ axis = 2) :
    (homing_move axis feedRate moveVal pos).countP Call.is_plan_buffer_line = 1 := by
  rcases h with h | h | h <;> subst h <;> simp [homing_move, Call.is_plan_buffer_line]

theorem homing_redefine_countP (axis : ℤ) (pos : Vec3 α) :
    (homing_redefine axis pos).countP Call.is_plan_buffer_line = 0 := by
  unfold homing_redefine
  split_ifs <;> simp [Call.is_plan_buffer_line]

/-- The homing loop entered with the read number `n` in hand, when the reads never time
out, the reads `n` to `n + j - 1` are below the threshold, the read `n + j` is not, and the
counter allows `j` more iterations: it makes `j` moves. -/
theorem homing_loop_moves (sensor : ℕ → Option α) (a : ℕ → α) (axis : ℤ)
    (feedRate moveVal thr : α) (haxis : axis = 0 ∨ axis = 1 ∨ axis = 2)
    (hsensor : ∀ i, sensor i = some (a i)) (j : ℕ) :
    ∀ (left n : ℕ) (pos : Vec3 α), (∀ i, n ≤ i → i < n + j → a i < thr) →
      ¬ a (n + j) < thr → j ≤ left →
      (homing_loop sensor axis feedRate moveVal thr left n (some (a n)) pos).numTimesMoved
        = n + j
      ∧ (homing_loop sensor axis feedRate moveVal thr left n (some (a n)) pos).calls.countP
          Call.is_plan_buffer_line = j
      ∧ (homing_loop sensor axis feedRate moveVal thr left n (some (a n)) pos).position
        = (if j = 0 then pos else pos.set axis 0) := by
  induction j with
  | zero =>
    intro left n pos _ hc _
    rw [homing_loop_stops sensor axis feedRate moveVal thr left n (a n) pos hc]
    simp
  | succ j ih =>
    intro left n pos hb hc hl
    obtain ⟨l, rfl⟩ : ∃ l, left = l + 1 := ⟨left - 1, by omega⟩
    have h0 : a n < thr := hb n (le_refl _) (by omega)
    have ih2 := ih l (n + 1) (pos.set axis 0) (fun i h1 h2 => hb i (by omega) (by omega))
      (by rw [show n + 1 + j = n + (j + 1) by omega]; exact hc) (by omega)
    rw [← hsensor (n + 1)] at ih2
    simp only [homing_loop, h0, if_true]
    refine ⟨by rw [ih2.1]; omega, ?_, ?_⟩
    · simp only [List.countP_append, ih2.2.1, homing_move_countP axis feedRate moveVal _ haxis]
      simp [Call.is_plan_buffer_line]
      omega
    · rw [ih2.2.2, Vec3_set_set]
      simp

/-- Claim C16 (homing stops at the threshold crossing), amended to what the code does.
The reads of the capacitance sensor are counted from the baseline read, which is the first
one: `a 0` is the baseline average and `a (k - 1)` the k-th value.  For every axis in
{0, 1, 2}, every `k ≥ 1` and every `maxNumTimesToMove ≥ k`, if the sensor never times out,
the values before the k-th are below the threshold and the k-th is not, then
`mc_do_homing_with_params` performs exactly `k - 1` move iterations (one before each read
but the baseline), prints `TimesMoved = ` followed by `k - 1`, and leaves
`position[axis] = 0`.  That the sequence increases is not needed. -/
theorem C16_homing_stops_at_crossing (sensor : ℕ → Option α) (a : ℕ → α)
    (acceleration_manager_was_enabled : Bool) (axis : ℤ) (feedRate moveVal thr : α)
    (maxNumTimesToMove k : ℕ) (pos : Vec3 α)
    (haxis : axis = 0 ∨ axis = 1 ∨ axis = 2) (hk : 1 ≤ k) (hmax : k ≤ maxNumTimesToMove)
    (hsensor : ∀ i, sensor i = some (a i))
    (hbelow : ∀ i, i + 1 < k → a i < thr) (hcross : thr ≤ a (k - 1)) :
    (mc_do_homing_with_params sensor acceleration_manager_was_enabled axis feedRate moveVal
        thr maxNumTimesToMove pos).numTimesMoved = k - 1
    ∧ (mc_do_homing_with_params sensor acceleration_manager_was_enabled axis feedRate moveVal
        thr maxNumTimesToMove pos).calls.countP Call.is_plan_buffer_line = k - 1
    ∧ (∃ before after,
        (mc_do_homing_with_params sensor acceleration_manager_was_enabled axis feedRate
          moveVal thr maxNumTimesToMove pos).calls
        = before ++ [Call.printString "TimesMoved = ", Call.printInteger ((k - 1 : ℕ) : ℤ),
            Call.print_newline] ++ after)
    ∧ (mc_do_homing_with_params sensor acceleration_manager_was_enabled axis feedRate moveVal
        thr maxNumTimesToMove pos).position.get axis = 0 := by
  have h := homing_loop_moves sensor a axis feedRate moveVal thr haxis hsensor (k - 1)
    maxNumTimesToMove 0 pos (fun i _ h2 => hbelow i (by omega))
    (by rw [Nat.zero_add]; exact not_lt.mpr hcross) (by omega)
  rw [← hsensor 0, Nat.zero_add] at h
  unfold mc_do_homing_with_params
  dsimp only
  generalize homing_loop sensor axis feedRate moveVal thr maxNumTimesToMove 0 (sensor 0) pos
    = loop at h ⊢
  obtain ⟨e1, e2, _⟩ := h
  refine ⟨e1, ?_, ⟨[Call.plan_set_acceleration_manager_enabled false, Call.st_synchronize,
      Call.cc_axisAverageCapValue axis (10 * 5)] ++ loop.calls,
    homing_redefine axis (loop.position.set axis 0)
      ++ [Call.plan_set_acceleration_manager_enabled acceleration_manager_was_enabled],
    by rw [e1]; simp⟩, Vec3_get_set _ _ _ haxis⟩
  simp only [List.countP_append, e2, homing_redefine_countP]
  simp [Call.is_plan_buffer_line]

theorem C16_homing_stops_at_crossing_witness :
    (mc_do_homing_with_params (fun i => some (1 + 10 * (i : ℚ))) true 0 10 (-200) 15 5
        ⟨7, 3, -4⟩).numTimesMoved = 2
    ∧ (mc_do_homing_with_params (fun i => some (1 + 10 * (i : ℚ))) true 0 10 (-200) 15 5
        ⟨7, 3, -4⟩).calls.countP Call.is_plan_buffer_line = 2
    ∧ (mc_do_homing_with_params (fun i => some (1 + 10 * (i : ℚ))) true 0 10 (-200) 15 5
        ⟨7, 3, -4⟩).position.get 0 = 0 := by
  have h := C16_homing_stops_at_crossing (fun i => some (1 + 10 * (i : ℚ)))
    (fun i => 1 + 10 * (i : ℚ)) true 0 10 (-200) 15 5 3 ⟨7, 3, -4⟩ (Or.inl rfl)
    (by decide) (by decide) (fun _ => rfl)
    (fun i hi => by
      have : (i : ℚ) ≤ 1 := by exact_mod_cast (by omega : i ≤ 1)
      show (1 : ℚ) + 10 * (i : ℚ) < 15
      linarith)
    (by norm_num)
  exact ⟨h.1, h.2.1, h.2.2.2⟩

/-- Claim C16, as stated, fails: the sensor returns 1, 11, 21, ... and never times out;
with the threshold 5 the second value is the first to cross, and 3 iterations are allowed.
`mc_do_homing_with_params` makes one move, not two, and prints 1. -/
theorem C16_counterexample :
    ((1 : ℚ) < 5 ∧ (5 : ℚ) ≤ 11)
    ∧ (mc_do_homing_with_params (fun i => some (1 + 10 * (i : ℚ))) true 0 10 (-200) 5 3
        ⟨7, 3, -4⟩).numTimesMoved = 1
    ∧ (mc_do_homing_with_params (fun i => some (1 + 10 * (i : ℚ))) true 0 10 (-200) 5 3
        ⟨7, 3, -4⟩).calls
      = [Call.plan_set_acceleration_manager_enabled false, Call.st_synchronize,
         Call.cc_axisAverageCapValue 0 50,
         Call.st_synchronize, Call.plan_redefine_current_position 0 3 (-4),
         Call.plan_buffer_line (-200) 3 (-4) 10 false, Call.st_synchronize,
         Call.cc_axisAverageCapValue 0 50,
         Call.printString "TimesMoved = ", Call.printInteger 1, Call.print_newline,
         Call.plan_redefine_current_position 0 3 (-4),
         Call.plan_set_acceleration_manager_enabled true] := by
  refine ⟨by norm_num, ?_, ?_⟩ <;>
    norm_num [mc_do_homing_with_params, homing_loop, homing_move, homing_redefine, Vec3.set]

/-- Claim C17 (homing with a failed baseline), amended to what the code does.  For every
axis, feed, step, threshold and iteration bound, if the baseline read times out then
`mc_do_homing_with_params` makes no `plan_buffer_line` call and reports `TimesMoved = 0`;
the assignments after the loop are still made: `position[axis]` is set to 0 and, for an axis
in {0, 1, 2}, `plan_redefine_current_position` is called once, with the resulting
position. -/
theorem C17_homing_failed_baseline (sensor : ℕ → Option α)
    (acceleration_manager_was_enabled : Bool) (axis : ℤ) (feedRate moveVal thr : α)
    (maxNumTimesToMove : ℕ) (pos : Vec3 α) (hbase : sensor 0 = none) :
    (mc_do_homing_with_params sensor acceleration_manager_was_enabled axis feedRate moveVal
        thr maxNumTimesToMove pos).numTimesMoved = 0
    ∧ (mc_do_homing_with_params sensor acceleration_manager_was_enabled axis feedRate moveVal
        thr maxNumTimesToMove pos).calls
      = [Call.plan_set_acceleration_manager_enabled false, Call.st_synchronize,
          Call.cc_axisAverageCapValue axis 50,
          Call.printString "TimesMoved = ", Call.printInteger 0, Call.print_newline]
        ++ homing_redefine axis (pos.set axis 0)
        ++ [Call.plan_set_acceleration_manager_enabled acceleration_manager_was_enabled]
    ∧ (∀ c ∈ (mc_do_homing_with_params sensor acceleration_manager_was_enabled axis feedRate
        moveVal thr maxNumTimesToMove pos).calls, c.is_plan_buffer_line = false)
    ∧ (mc_do_homing_with_params sensor acceleration_manager_was_enabled axis feedRate moveVal
        thr maxNumTimesToMove pos).position = pos.set axis 0
    ∧ (axis = 0 ∨ axis = 1 ∨ axis = 2 →
        (mc_do_homing_with_params sensor acceleration_manager_was_enabled axis feedRate
          moveVal thr maxNumTimesToMove pos).position.get axis = 0
        ∧ (mc_do_homing_with_params sensor acceleration_manager_was_enabled axis feedRate
          moveVal thr maxNumTimesToMove pos).calls.countP
            Call.is_plan_redefine_current_position = 1) := by
  unfold mc_do_homing_with_params
  dsimp only
  rw [hbase, homing_loop_timed_out]
  refine ⟨rfl, by simp, ?_, rfl, fun h => ⟨Vec3_get_set _ _ _ h, ?_⟩⟩
  · intro c hc
    have h0 : ([Call.plan_set_acceleration_manager_enabled false, Call.st_synchronize,
          Call.cc_axisAverageCapValue axis (10 * 5)] ++ []
        ++ [Call.printString "TimesMoved = ", Call.printInteger ((0 : ℕ) : ℤ),
          Call.print_newline]
        ++ homing_redefine axis (pos.set axis 0)
        ++ [Call.plan_set_acceleration_manager_enabled
          acceleration_manager_was_enabled]).countP Call.is_plan_buffer_line = 0 := by
      simp only [List.countP_append, homing_redefine_countP]
      simp [Call.is_plan_buffer_line]
    rw [List.countP_eq_zero] at h0
    exact Bool.eq_false_iff.mpr (h0 c hc)
  · rcases h with h | h | h <;> subst h <;>
      simp [homing_redefine, Call.is_plan_redefine_current_position]

theorem C17_homing_failed_baseline_witness :
    (mc_do_homing_with_params (fun _ => (none : Option ℚ)) true 0 10 (-200) 250 50
        ⟨7, 3, -4⟩).numTimesMoved = 0
    ∧ (mc_do_homing_with_params (fun _ => (none : Option ℚ)) true 0 10 (-200) 250 50
        ⟨7, 3, -4⟩).position = (⟨7, 3, -4⟩ : Vec3 ℚ).set 0 0 :=
  ⟨(C17_homing_failed_baseline (fun _ => (none : Option ℚ)) true 0 10 (-200) 250 50
      ⟨7, 3, -4⟩ rfl).1,
   (C17_homing_failed_baseline (fun _ => (none : Option ℚ)) true 0 10 (-200) 250 50
      ⟨7, 3, -4⟩ rfl).2.2.2.1⟩

/-- Claim C17, as stated, fails: with every read timed out, homing axis 0 from (7, 3, -4)
leaves the position (0, 3, -4) and calls `plan_redefine_current_position(0, 3, -4)`. -/
theorem C17_counterexample :
    (mc_do_homing_with_params (fun _ => (none : Option ℚ)) true 0 10 (-200) 250 50
        ⟨7, 3, -4⟩).position = ⟨0, 3, -4⟩
    ∧ (mc_do_homing_with_params (fun _ => (none : Option ℚ)) true 0 10 (-200) 250 50
        ⟨7, 3, -4⟩).position ≠ ⟨7, 3, -4⟩
    ∧ (mc_do_homing_with_params (fun _ => (none : Option ℚ)) true 0 10 (-200) 250 50
        ⟨7, 3, -4⟩).calls
      = [Call.plan_set_acceleration_manager_enabled false, Call.st_synchronize,
         Call.cc_axisAverageCapValue 0 50,
         Call.printString "TimesMoved = ", Call.printInteger 0, Call.print_newline,
         Call.plan_redefine_current_position 0 3 (-4),
         Call.plan_set_acceleration_manager_enabled true] := by
  refine ⟨?_, ?_, ?_⟩ <;>
    norm_num [mc_do_homing_with_params, homing_loop, homing_move, homing_redefine, Vec3.set]

/-! ## The arc routine -/

theorem arc_segments_countP (libc : Libc α) (tps lps cx cy r : α) (a1 a2 al : ℤ) (f : α)
    (inv : Bool) (n : ℕ) :
    ∀ (th : α) (t : Vec3 α),
      (arc_segments libc tps lps cx cy r a1 a2 al f inv n th t).countP
        Call.is_plan_buffer_line = n := by
  induction n with
  | zero => intro th t; simp [arc_segments]
  | succ n ih =>
    intro th t
    simp only [arc_segments, List.countP_cons, ih]
    simp [Call.is_plan_buffer_line]

theorem arc_segments_length (libc : Libc α) (tps lps cx cy r : α) (a1 a2 al : ℤ) (f : α)
    (inv : Bool) (n : ℕ) :
    ∀ (th : α) (t : Vec3 α),
      (arc_segments libc tps lps cx cy r a1 a2 al f inv n th t).length = n := by
  induction n with
  | zero => intro th t; simp [arc_segments]
  | succ n ih =>
    intro th t
    simp only [arc_segments, List.length_cons, ih]

theorem acceleration_manager_after_append (b : Bool) (l1 l2 : List (Call α)) :
    acceleration_manager_after b (l1 ++ l2)
      = acceleration_manager_after (acceleration_manager_after b l1) l2 := by
  unfold acceleration_manager_after
  rw [List.foldl_append]

theorem acceleration_manager_after_arc_segments (libc : Libc α) (tps lps cx cy r : α)
    (a1 a2 al : ℤ) (f : α) (inv : Bool) (b : Bool) (n : ℕ) :
    ∀ (th : α) (t : Vec3 α),
      acceleration_manager_after b (arc_segments libc tps lps cx cy r a1 a2 al f inv n th t)
        = b := by
  induction n with
  | zero => intro th t; simp [arc_segments, acceleration_manager_after]
  | succ n ih =>
    intro th t
    have h := ih (th + tps)
      (((t.set al (t.get al + lps)).set a1 (cx + libc.sin (th + tps) * r)).set a2
        (cy + libc.cos (th + tps) * r))
    unfold acceleration_manager_after at h ⊢
    simp only [arc_segments, List.foldl_cons]
    exact h

/-- Claim C18 (arc and the acceleration manager): what the code does.  After `mc_arc` the
acceleration-manager flag of the planner is its value before the call if the travel is not
zero; if the travel is zero the function returns right after it has disabled the manager,
and the flag is false whatever it was.  So for an enabled manager and the arguments
`theta = 0`, `angular_travel = 0`, `radius = 5`, `linear_travel = 0` the flag is true before
the call and false after it. -/
theorem C18_arc_acceleration_manager :
    (∀ (libc : Libc α) (mm_per_arc_segment : α) (enabled : Bool)
      (th angular_travel radius linear_travel : α) (axis_1 axis_2 axis_linear : ℤ)
      (feed_rate : α) (invert_feed_rate : Bool) (position : Vec3 α),
      acceleration_manager_after enabled
        (mc_arc libc mm_per_arc_segment enabled th angular_travel radius linear_travel
          axis_1 axis_2 axis_linear feed_rate invert_feed_rate position)
      = (enabled
          && !decide (arc_millimeters_of_travel libc angular_travel radius linear_travel = 0)))
    ∧ mc_arc libcQ 1 true 0 0 5 0 0 1 2 10 false ⟨0, 0, 0⟩
      = [Call.plan_set_acceleration_manager_enabled false]
    ∧ acceleration_manager_after true (mc_arc libcQ 1 true 0 0 5 0 0 1 2 10 false ⟨0, 0, 0⟩)
      = false := by
  have hz : arc_millimeters_of_travel libcQ 0 5 0 = 0 := by
    show Rat.sqrt ((0 * 5) * (0 * 5) + ((|trunc (0 : ℚ)| : ℤ) : ℚ) * ((|trunc (0 : ℚ)| : ℤ) : ℚ))
      = 0
    rw [trunc_zero]
    norm_num [Rat.sqrt]
  refine ⟨?_, ?_, ?_⟩
  · intro libc mmps enabled th ang r lt a1 a2 al f inv pos
    unfold mc_arc
    dsimp only
    by_cases hm : arc_millimeters_of_travel libc ang r lt = 0
    · rw [if_pos hm]
      cases enabled <;> simp [hm, acceleration_manager_after]
    · rw [if_neg hm, acceleration_manager_after_append, acceleration_manager_after_append,
        acceleration_manager_after_arc_segments]
      cases enabled <;> simp [hm, acceleration_manager_after]
  · unfold mc_arc
    dsimp only
    rw [if_pos hz]
    rfl
  · unfold mc_arc
    dsimp only
    rw [if_pos hz]
    rfl

/-- Claim C19 (arc segment count): what the code does.  When the travel is not zero,
`mc_arc` issues `segments + 1` `plan_buffer_line` calls, one more than the claim says: the
loop runs for `i = 0, ..., segments`.  For `theta = 0`, `angular_travel = 0`, `radius = 0`,
`linear_travel = 3` along axis 2 from the origin, with `mm_per_arc_segment = 1`, there are
3 segments and 4 lines, to z = 1, 2, 3 and 4: the last line lies one step beyond the end
of the travel. -/
theorem C19_arc_segment_count :
    (∀ (libc : Libc α) (mm_per_arc_segment : α) (enabled : Bool)
      (th angular_travel radius linear_travel : α) (axis_1 axis_2 axis_linear : ℤ)
      (feed_rate : α) (invert_feed_rate : Bool) (position : Vec3 α),
      (mc_arc libc mm_per_arc_segment enabled th angular_travel radius linear_travel
          axis_1 axis_2 axis_linear feed_rate invert_feed_rate position).countP
        Call.is_plan_buffer_line
      = if arc_millimeters_of_travel libc angular_travel radius linear_travel = 0 then 0
        else arc_segment_count
          (arc_millimeters_of_travel libc angular_travel radius linear_travel)
          mm_per_arc_segment + 1)
    ∧ arc_millimeters_of_travel libcQ 0 0 3 = 3
    ∧ arc_segment_count (3 : ℚ) 1 = 3
    ∧ mc_arc libcQ 1 false 0 0 0 3 0 1 2 10 false ⟨0, 0, 0⟩
      = [Call.plan_buffer_line 0 0 1 10 false, Call.plan_buffer_line 0 0 2 10 false,
         Call.plan_buffer_line 0 0 3 10 false, Call.plan_buffer_line 0 0 4 10 false] := by
  have ht : trunc (3 : ℚ) = 3 := trunc_ofNat 3
  have hz : arc_millimeters_of_travel libcQ 0 0 3 = 3 := by
    show Rat.sqrt ((0 * 0) * (0 * 0) + ((|trunc (3 : ℚ)| : ℤ) : ℚ) * ((|trunc (3 : ℚ)| : ℤ) : ℚ))
      = 3
    rw [ht]
    have : ((0 : ℚ) * 0) * (0 * 0) + (((|3| : ℤ) : ℚ)) * (((|3| : ℤ) : ℚ)) = 3 * 3 := by
      norm_num
    rw [this, Rat.sqrt_eq]
    norm_num
  have hs : arc_segment_count (3 : ℚ) 1 = 3 := by
    unfold arc_segment_count
    have : ⌈(3 : ℚ) / 1⌉ = 3 := by
      rw [div_one]
      exact_mod_cast Int.ceil_intCast (α := ℚ) 3
    rw [this]
    rfl
  refine ⟨?_, hz, hs, ?_⟩
  · intro libc mmps enabled th ang r lt a1 a2 al f inv pos
    unfold mc_arc
    dsimp only
    by_cases hm : arc_millimeters_of_travel libc ang r lt = 0
    · rw [if_pos hm, if_pos hm]
      cases enabled <;> simp [Call.is_plan_buffer_line]
    · rw [if_neg hm, if_neg hm]
      simp only [List.countP_append, arc_segments_countP]
      cases enabled <;> simp [Call.is_plan_buffer_line]
  · unfold mc_arc
    dsimp only
    rw [hz, hs]
    norm_num [arc_segments, libcQ, Vec3.set, Vec3.get, clear_vector]

theorem Vec3_set_three (t u : Vec3 α) (a1 a2 al : ℤ) (v x y : α)
    (h1 : a1 = 0 ∨ a1 = 1 ∨ a1 = 2) (h2 : a2 = 0 ∨ a2 = 1 ∨ a2 = 2)
    (hl : al = 0 ∨ al = 1 ∨ al = 2) (h12 : a1 ≠ a2) (h1l : a1 ≠ al) (h2l : a2 ≠ al) :
    ((t.set al v).set a1 x).set a2 y = ((u.set al v).set a1 x).set a2 y
    ∧ (((t.set al v).set a1 x).set a2 y).get al = v := by
  rcases h1 with h1 | h1 | h1 <;> rcases h2 with h2 | h2 | h2 <;>
    rcases hl with hl | hl | hl <;> subst h1 <;> subst h2 <;> subst hl <;>
    first
    | exact absurd rfl h12
    | exact absurd rfl h1l
    | exact absurd rfl h2l
    | simp [Vec3.set, Vec3.get]

/-- The loop of `mc_arc`, when the three axis arguments are the three axes in some order:
its `n` lines are the lines with the indices 1 to `n` of the description. -/
theorem arc_segments_eq_map (libc : Libc α) (tps lps cx cy r : α) (a1 a2 al : ℤ) (f : α)
    (inv : Bool) (h1 : a1 = 0 ∨ a1 = 1 ∨ a1 = 2) (h2 : a2 = 0 ∨ a2 = 1 ∨ a2 = 2)
    (hl : al = 0 ∨ al = 1 ∨ al = 2) (h12 : a1 ≠ a2) (h1l : a1 ≠ al) (h2l : a2 ≠ al) (n : ℕ) :
    ∀ (th : α) (t : Vec3 α),
      arc_segments libc tps lps cx cy r a1 a2 al f inv n th t
        = (List.range n).map
            (fun i => arc_line libc th tps lps cx cy r a1 a2 al (t.get al) f inv (i + 1)) := by
  induction n with
  | zero => intro th t; simp [arc_segments]
  | succ n ih =>
    intro th t
    have e := Vec3_set_three t clear_vector a1 a2 al (t.get al + lps)
      (cx + libc.sin (th + tps) * r) (cy + libc.cos (th + tps) * r) h1 h2 hl h12 h1l h2l
    rw [List.range_succ_eq_map, List.map_cons, List.map_map]
    simp only [arc_segments]
    rw [ih, e.2]
    congr 1
    · unfold arc_line
      simp only [Nat.zero_add, Nat.cast_one, one_mul]
      rw [e.1]
    · apply List.map_congr_left
      intro i _
      simp only [Function.comp, arc_line, Nat.cast_add, Nat.cast_one]
      have a : t.get al + lps + ((i : α) + 1) * lps = t.get al + ((i : α) + 1 + 1) * lps := by
        ring
      have b : th + tps + ((i : α) + 1) * tps = th + ((i : α) + 1 + 1) * tps := by ring
      rw [a, b, Nat.succ_eq_add_one, Nat.cast_add, Nat.cast_one]

/-- The calls of `mc_arc` when the travel is not zero and the three axis arguments are the
three axes in some order: between the two calls that switch the acceleration manager, the
lines with the indices 1 to `segments + 1` of the description. -/
theorem mc_arc_eq_lines (libc : Libc α) (mm_per_arc_segment : α) (enabled : Bool)
    (th angular_travel radius linear_travel : α) (a1 a2 al : ℤ) (f : α) (inv : Bool)
    (position : Vec3 α) (h1 : a1 = 0 ∨ a1 = 1 ∨ a1 = 2) (h2 : a2 = 0 ∨ a2 = 1 ∨ a2 = 2)
    (hl : al = 0 ∨ al = 1 ∨ al = 2) (h12 : a1 ≠ a2) (h1l : a1 ≠ al) (h2l : a2 ≠ al)
    (segments : ℕ)
    (hs : segments = arc_segment_count
      (arc_millimeters_of_travel libc angular_travel radius linear_travel) mm_per_arc_segment)
    (hm : arc_millimeters_of_travel libc angular_travel radius linear_travel ≠ 0) :
    mc_arc libc mm_per_arc_segment enabled th angular_travel radius linear_travel a1 a2 al
        f inv position
      = (if enabled then [Call.plan_set_acceleration_manager_enabled false] else [])
        ++ (List.range (segments + 1)).map
            (fun i => arc_line libc th (angular_travel / (segments : α))
              (linear_travel / (segments : α)) (position.get a1 - libc.sin th * radius)
              (position.get a2 - libc.cos th * radius) radius a1 a2 al (position.get al)
              (if inv then f * (segments : α) else f) inv (i + 1))
        ++ (if enabled then [Call.plan_set_acceleration_manager_enabled true] else []) := by
  unfold mc_arc
  dsimp only
  rw [if_neg hm, ← hs, arc_segments_eq_map libc _ _ _ _ _ a1 a2 al _ _ h1 h2 hl h12 h1l h2l,
    Vec3_get_set _ _ _ hl]

/-! ## Radius-mode arcs -/

theorem pass1_frame_eq (libc : Libc α) (gc : parser_state_t α) (line : List Char) :
    pass1_frame libc gc line
      = pass1_statements (pass1_scan libc line).stmts (pass1_scan libc line).status_code
          (initial_frame gc) := by
  unfold pass1_frame pass1_scan first_counter
  exact pass1_eq_statements libc line _ _ _ rfl

theorem parsed_frame_eq (libc : Libc α) (gc : parser_state_t α) (line : List Char)
    (h : (pass1_frame libc gc line).gc.status_code = Status.OK) :
    parsed_frame libc gc line
      = pass2_statements (pass2_scan libc line).stmts (pass2_scan libc line).status_code
          (pass2_frame (pass1_frame libc gc line)) := by
  unfold parsed_frame pass2_scan
  exact pass2_eq_statements libc line _ _ _ h

theorem gc_execute_line_eq_finish_line (libc : Libc α) (gc : parser_state_t α)
    (line : List Char) (h1 : charAt line 0 ≠ '(') (h2 : charAt line 0 ≠ '$')
    (h : (pass1_frame libc gc line).gc.status_code = Status.OK) :
    gc_execute_line libc gc line = finish_line libc (parsed_frame libc gc line) := by
  unfold gc_execute_line parsed_frame
  unfold pass1_frame at h ⊢
  simp only [h1, h2, if_false]
  rw [if_neg (by simp [h])]

theorem parsed_frame_calls (libc : Libc α) (gc : parser_state_t α) (line : List Char)
    (h : (pass1_frame libc gc line).gc.status_code = Status.OK) :
    (parsed_frame libc gc line).calls = [] := by
  rw [parsed_frame_eq libc gc line h, pass2_statements_calls]
  show (pass1_frame libc gc line).calls = []
  rw [pass1_frame_eq, pass1_statements_calls]
  rfl

theorem parsed_frame_position (libc : Libc α) (gc : parser_state_t α) (line : List Char)
    (h : (pass1_frame libc gc line).gc.status_code = Status.OK) :
    (parsed_frame libc gc line).gc.position = gc.position := by
  rw [parsed_frame_eq libc gc line h, pass2_statements_position]
  show (pass1_frame libc gc line).gc.position = gc.position
  rw [pass1_frame_eq, pass1_statements_position]
  rfl

/-- Claim C20 (unreachable radius arc).  Take a G-code line on which both passes end with
status OK, leaving the frame `fr`: the motion mode is CW_ARC or CCW_ARC, no other action is
pending and an R word was read.  Let `x` and `y` be the travel from the current position
`gc.position` to the target along the two axes of the selected plane.  If
`4*r*r - x*x - y*y < 0` then `gc_execute_line` returns FloatingPointError, calls neither
`mc_arc` nor `plan_buffer_line`, and leaves `gc.position` as it was.  If
`4*r*r - x*x - y*y ≥ 0` and `(x, y) ≠ (0, 0)` it does not return FloatingPointError. -/
theorem C20_unreachable_radius_arc (libc : Libc α) (gc : parser_state_t α) (line : List Char)
    (fr : Frame α) (x y : α)
    (h1 : charAt line 0 ≠ '(') (h2 : charAt line 0 ≠ '$')
    (hp1 : (pass1_frame libc gc line).gc.status_code = Status.OK)
    (hfr : fr = parsed_frame libc gc line)
    (hp2 : fr.gc.status_code = Status.OK)
    (hmode : fr.gc.motion_mode = MotionMode.CW_ARC ∨ fr.gc.motion_mode = MotionMode.CCW_ARC)
    (hna : fr.loc.next_action = NextAction.DEFAULT)
    (hR : fr.loc.radius_mode = true)
    (hx : x = fr.loc.target.get (fr.gc.plane_axis_0 : ℤ)
      - gc.position.get (fr.gc.plane_axis_0 : ℤ))
    (hy : y = fr.loc.target.get (fr.gc.plane_axis_1 : ℤ)
      - gc.position.get (fr.gc.plane_axis_1 : ℤ)) :
    (4 * fr.loc.r * fr.loc.r - x * x - y * y < 0 →
      (gc_execute_line libc gc line).ret = Status.FLOATING_POINT_ERROR
      ∧ (∀ c ∈ (gc_execute_line libc gc line).calls,
          c.is_mc_arc = false ∧ c.is_plan_buffer_line = false)
      ∧ (gc_execute_line libc gc line).gc.position = gc.position)
    ∧ (0 ≤ 4 * fr.loc.r * fr.loc.r - x * x - y * y → (x ≠ 0 ∨ y ≠ 0) →
      (gc_execute_line libc gc line).ret ≠ Status.FLOATING_POINT_ERROR) := by
  have hpos : fr.gc.position = gc.position := by
    rw [hfr]; exact parsed_frame_position libc gc line hp1
  have hcalls : fr.calls = [] := by rw [hfr]; exact parsed_frame_calls libc gc line hp1
  rw [gc_execute_line_eq_finish_line libc gc line h1 h2 hp1, ← hfr]
  rw [← hpos] at hx hy
  have hg := update_spindle_gc fr
  have hl := update_spindle_loc fr
  have hc := update_spindle_calls fr hcalls
  unfold finish_line
  rw [if_neg (by simp [hp2])]
  generalize update_spindle fr = fu at hg hl hc ⊢
  have hd : perform_action libc fu = dispatch_arc libc fu := by
    have a : fu.loc.next_action = NextAction.DEFAULT := by rw [hl]; exact hna
    have b : fu.gc.motion_mode = MotionMode.CW_ARC ∨ fu.gc.motion_mode = MotionMode.CCW_ARC := by
      rw [hg]; exact hmode
    rcases b with b | b <;> simp only [perform_action, a, b]
  have hR2 : fu.loc.radius_mode = true := by rw [hl]; exact hR
  have hx2 : fu.loc.target.get (fu.gc.plane_axis_0 : ℤ)
      - fu.gc.position.get (fu.gc.plane_axis_0 : ℤ) = x := by rw [hl, hg]; exact hx.symm
  have hy2 : fu.loc.target.get (fu.gc.plane_axis_1 : ℤ)
      - fu.gc.position.get (fu.gc.plane_axis_1 : ℤ) = y := by rw [hl, hg]; exact hy.symm
  have hr2 : fu.loc.r = fr.loc.r := by rw [hl]
  dsimp only
  rw [hd]
  refine ⟨fun hneg => ?_, fun hnn hxy => ?_⟩
  · have hnan : isnan_h_x2_div_d fr.loc.r x y = true := by simp [isnan_h_x2_div_d, hneg]
    simp only [dispatch_arc, hR2, if_true, hx2, hy2, hr2, hnan, FAIL, Frame.returns]
    refine ⟨trivial, ?_, by rw [hg]; exact hpos⟩
    rcases hc with hc | ⟨d, s, hc⟩ | hc <;> rw [hc] <;>
      simp [Call.is_mc_arc, Call.is_plan_buffer_line]
  · have hnan : isnan_h_x2_div_d fr.loc.r x y = false := by
      have a : ¬ (4 * fr.loc.r * fr.loc.r - x * x - y * y < 0) := not_lt.mpr hnn
      rcases hxy with hxy | hxy <;> simp [isnan_h_x2_div_d, a, hxy]
    simp only [dispatch_arc, hR2, if_true, hx2, hy2, hr2, hnan, Frame.returns]
    simp [hg, hp2]

theorem C20_unreachable_radius_arc_witness :
    (gc_execute_line libcQ (gc_init 381 381) "G2X10R1".toList).ret
      = Status.FLOATING_POINT_ERROR
    ∧ (∀ c ∈ (gc_execute_line libcQ (gc_init 381 381) "G2X10R1".toList).calls,
        c.is_mc_arc = false ∧ c.is_plan_buffer_line = false)
    ∧ (gc_execute_line libcQ (gc_init 381 381) "G2X10R1".toList).gc.position
      = (gc_init 381 381).position := by
  have hp1 : (pass1_frame libcQ (gc_init 381 381) "G2X10R1".toList).gc.status_code
      = Status.OK := by
    rw [pass1_frame_eq]
    simp [pass1_scan, pass2_scan, first_counter, statements, next_statement, read_double, libcQ, strtod_decimal, scanNumeral, takeDigits, takeSign, charAt, Numeral.value, gc_init, clear_vector, execute_statements, pass1_statements, pass2_statements, pass1_statement,
    pass2_statement, pass1_G, pass1_M, finish_line, perform_action, update_spindle,
    initial_frame, pass2_frame, initial_locals, FAIL, Frame.returns, to_millimeters, Vec3.set,
    Vec3.get, select_plane, Frame.set_motion_mode, Frame.set_next_action, Frame.set_plane,
    Frame.set_inches_mode, Frame.set_absolute_override, Frame.set_absolute_mode,
    Frame.set_inverse_feed_rate_mode, Frame.set_program_flow, Frame.set_spindle_direction,
    Frame.set_tool, Frame.set_inverse_feed_rate, Frame.set_homing_feed_rate,
    Frame.set_seek_rate, Frame.set_feed_rate, Frame.set_offset, Frame.set_p, Frame.set_r,
    Frame.set_spindle_speed, Frame.set_target, Frame.set_homing_dist_to_move,
    Frame.set_homing_threshold, Frame.set_homing_max_number_of_times]
  have hall : ∀ fr, fr = parsed_frame libcQ (gc_init 381 381) "G2X10R1".toList →
      fr.gc.status_code = Status.OK ∧ fr.gc.motion_mode = MotionMode.CW_ARC
      ∧ fr.loc.next_action = NextAction.DEFAULT ∧ fr.loc.radius_mode = true
      ∧ fr.loc.r = 1 ∧ fr.loc.target = ⟨10, 0, 0⟩
      ∧ fr.gc.plane_axis_0 = 0 ∧ fr.gc.plane_axis_1 = 1 := by
    intro fr h
    rw [parsed_frame_eq _ _ _ hp1, pass1_frame_eq] at h
    subst h
    simp [pass1_scan, pass2_scan, first_counter, statements, next_statement, read_double, libcQ, strtod_decimal, scanNumeral, takeDigits, takeSign, charAt, Numeral.value, gc_init, clear_vector, X_AXIS, Y_AXIS, Z_AXIS, execute_statements, pass1_statements, pass2_statements, pass1_statement,
    pass2_statement, pass1_G, pass1_M, finish_line, perform_action, update_spindle,
    initial_frame, pass2_frame, initial_locals, FAIL, Frame.returns, to_millimeters, Vec3.set,
    Vec3.get, select_plane, Frame.set_motion_mode, Frame.set_next_action, Frame.set_plane,
    Frame.set_inches_mode, Frame.set_absolute_override, Frame.set_absolute_mode,
    Frame.set_inverse_feed_rate_mode, Frame.set_program_flow, Frame.set_spindle_direction,
    Frame.set_tool, Frame.set_inverse_feed_rate, Frame.set_homing_feed_rate,
    Frame.set_seek_rate, Frame.set_feed_rate, Frame.set_offset, Frame.set_p, Frame.set_r,
    Frame.set_spindle_speed, Frame.set_target, Frame.set_homing_dist_to_move,
    Frame.set_homing_threshold, Frame.set_homing_max_number_of_times]
  obtain ⟨a1, a2, a3, a4, a5, a6, a7, a8⟩ := hall _ rfl
  exact (C20_unreachable_radius_arc libcQ (gc_init 381 381) "G2X10R1".toList
    (parsed_frame libcQ (gc_init 381 381) "G2X10R1".toList) 10 0
    (by simp [charAt]) (by simp [charAt]) hp1 rfl a1 (Or.inl a2) a3 a4
    (by rw [a6, a7]; norm_num [Vec3.get, gc_init, clear_vector, select_plane])
    (by rw [a6, a8]; norm_num [Vec3.get, gc_init, clear_vector, select_plane])).1
    (by rw [a5]; norm_num)

/-! ## The capacitance measurement -/

theorem lowPassFilter_capTotal (s : cap_state α) :
    (lowPassFilter s).capTotal = s.capTotal ∧ (lowPassFilter s).polls = s.polls
      ∧ (lowPassFilter s).capTimeout = s.capTimeout
      ∧ (lowPassFilter s).capAverage = s.capAverage :=
  ⟨rfl, rfl, rfl, rfl⟩

/-- Claim C25 (filter zero-input fixed point).  After `initLowPass` every entry of `xv` and
`yv` is 0, and after any number of applications of `lowPassFilter`, each with
`capTotal = 0`, every entry of `xv` and `yv` is still 0; in particular `yv[5] = 0` after
every application, and after 6 of them. -/
theorem C25_filter_zero_fixed_point (s : cap_state α) :
    (initLowPass s).xv = ⟨0, 0, 0, 0, 0, 0⟩ ∧ (initLowPass s).yv = ⟨0, 0, 0, 0, 0, 0⟩
    ∧ (∀ n : ℕ,
        ((fun t : cap_state α => lowPassFilter { t with capTotal := 0 })^[n]
            (initLowPass s)).xv = ⟨0, 0, 0, 0, 0, 0⟩
        ∧ ((fun t : cap_state α => lowPassFilter { t with capTotal := 0 })^[n]
            (initLowPass s)).yv = ⟨0, 0, 0, 0, 0, 0⟩
        ∧ ((fun t : cap_state α => lowPassFilter { t with capTotal := 0 })^[n]
            (initLowPass s)).yv.v5 = 0)
    ∧ ((fun t : cap_state α => lowPassFilter { t with capTotal := 0 })^[6]
        (initLowPass s)).yv.v5 = 0 := by
  have h : ∀ n : ℕ,
      ((fun t : cap_state α => lowPassFilter { t with capTotal := 0 })^[n]
          (initLowPass s)).xv = ⟨0, 0, 0, 0, 0, 0⟩
      ∧ ((fun t : cap_state α => lowPassFilter { t with capTotal := 0 })^[n]
          (initLowPass s)).yv = ⟨0, 0, 0, 0, 0, 0⟩ := by
    intro n
    induction n with
    | zero => exact ⟨rfl, rfl⟩
    | succ n ih =>
      rw [Function.iterate_succ_apply']
      generalize (fun t : cap_state α => lowPassFilter { t with capTotal := 0 })^[n]
        (initLowPass s) = t at ih
      obtain ⟨hx, hy⟩ := ih
      simp [lowPassFilter, hx, hy]
  exact ⟨rfl, rfl, fun n => ⟨(h n).1, (h n).2, by rw [(h n).2]⟩, by rw [(h 6).2]⟩

theorem getCapacitanceValue_ret (pin : ℕ → Bool) (s : cap_state α) :
    (getCapacitanceValue pin s).1 = 0 ∨ (getCapacitanceValue pin s).1 = -1 := by
  unfold getCapacitanceValue
  dsimp only
  split_ifs <;> simp

theorem getCapacitanceValue_capAverage (pin : ℕ → Bool) (s : cap_state α) (a : α) :
    getCapacitanceValue pin { s with capAverage := a }
      = ((getCapacitanceValue pin s).1,
         { (getCapacitanceValue pin s).2 with capAverage := a }) := by
  unfold getCapacitanceValue
  dsimp only
  split_ifs <;> rfl

theorem getCapacitanceValue_keeps_capAverage (pin : ℕ → Bool) (s : cap_state α) :
    (getCapacitanceValue pin s).2.capAverage = s.capAverage := by
  unfold getCapacitanceValue
  dsimp only
  split_ifs <;> rfl

theorem run_cycles_capAverage (pin : ℕ → Bool) (n : ℕ) :
    ∀ (s : cap_state α) (a : α),
      run_cycles pin n { s with capAverage := a }
        = { run_cycles pin n s with capAverage := a } := by
  induction n with
  | zero => intro s a; rfl
  | succ n ih =>
    intro s a
    simp only [run_cycles, getCapacitanceValue_capAverage]
    exact ih _ a

theorem run_cycles_keeps_capAverage (pin : ℕ → Bool) (n : ℕ) :
    ∀ (s : cap_state α), (run_cycles pin n s).capAverage = s.capAverage := by
  induction n with
  | zero => intro s; rfl
  | succ n ih =>
    intro s
    simp only [run_cycles]
    rw [ih, getCapacitanceValue_keeps_capAverage]

theorem run_cycles_add (pin : ℕ → Bool) (m : ℕ) :
    ∀ (n : ℕ) (s : cap_state α),
      run_cycles pin (m + n) s = run_cycles pin n (run_cycles pin m s) := by
  induction m with
  | zero => intro n s; simp [run_cycles]
  | succ m ih =>
    intro n s
    rw [show m + 1 + n = (m + n) + 1 by omega]
    simp only [run_cycles]
    exact ih n _

theorem cycle_ret_capAverage (pin : ℕ → Bool) (s : cap_state α) (a : α) (k : ℕ) :
    cycle_ret pin { s with capAverage := a } k = cycle_ret pin s k := by
  unfold cycle_ret
  rw [run_cycles_capAverage, getCapacitanceValue_capAverage]

theorem cycle_ret_add (pin : ℕ → Bool) (s : cap_state α) (m k : ℕ) :
    cycle_ret pin s (m + k) = cycle_ret pin (run_cycles pin m s) k := by
  unfold cycle_ret
  rw [run_cycles_add]

theorem sum_outputs_capAverage (pin : ℕ → Bool) (s : cap_state α) (a : α) (m n : ℕ) :
    sum_outputs pin { s with capAverage := a } m n = sum_outputs pin s m n := by
  induction n with
  | zero => rfl
  | succ n ih => simp only [sum_outputs, ih, run_cycles_capAverage]

theorem sum_outputs_add (pin : ℕ → Bool) (s : cap_state α) (j m n : ℕ) :
    sum_outputs pin s (j + m) n = sum_outputs pin (run_cycles pin j s) m n := by
  induction n with
  | zero => rfl
  | succ n ih =>
    simp only [sum_outputs, ih]
    rw [show j + m + n + 1 = j + (m + n + 1) by omega, run_cycles_add]

theorem sum_outputs_front (pin : ℕ → Bool) (s : cap_state α) (m n : ℕ) :
    sum_outputs pin s m (n + 1)
      = (run_cycles pin (m + 1) s).yv.v5 + sum_outputs pin s (m + 1) n := by
  induction n with
  | zero => simp [sum_outputs]
  | succ n ih =>
    rw [sum_outputs, ih]
    simp only [sum_outputs]
    rw [show m + 1 + n + 1 = m + (n + 1) + 1 by omega]
    ring

theorem warm_up_loop_ok (pin : ℕ → Bool) (n : ℕ) :
    ∀ (s : cap_state α), (∀ k, k < n → cycle_ret pin s k = 0) →
      warm_up_loop pin n s = (0, run_cycles pin n s) := by
  induction n with
  | zero => intro s _; rfl
  | succ n ih =>
    intro s h
    have h0 : (getCapacitanceValue pin s).1 = 0 := h 0 (Nat.succ_pos n)
    simp only [warm_up_loop, run_cycles, h0, lt_self_iff_false, if_false]
    exact ih _ (fun k hk => by
      have := h (k + 1) (by omega)
      rwa [show k + 1 = 1 + k by omega, cycle_ret_add] at this)

theorem warm_up_loop_fail (pin : ℕ → Bool) (n : ℕ) :
    ∀ (s : cap_state α) (j : ℕ), j < n → (∀ k, k < j → cycle_ret pin s k = 0) →
      cycle_ret pin s j ≠ 0 →
      warm_up_loop pin n s = (-1, run_cycles pin (j + 1) s) := by
  induction n with
  | zero => intro s j hj; omega
  | succ n ih =>
    intro s j hj hok hfail
    cases j with
    | zero =>
      have h0 : (getCapacitanceValue pin s).1 = -1 := by
        rcases getCapacitanceValue_ret pin s with h | h
        · exact absurd h hfail
        · exact h
      simp [warm_up_loop, run_cycles, h0]
    | succ j =>
      have h0 : (getCapacitanceValue pin s).1 = 0 := hok 0 (Nat.succ_pos j)
      simp only [warm_up_loop, h0, lt_self_iff_false, if_false]
      rw [ih _ j (by omega) (fun k hk => by
          have := hok (k + 1) (by omega)
          rwa [show k + 1 = 1 + k by omega, cycle_ret_add] at this)
        (by rwa [show j + 1 = 1 + j by omega, cycle_ret_add] at hfail)]
      rfl

theorem average_loop_ok (pin : ℕ → Bool) (n : ℕ) :
    ∀ (s : cap_state α), (∀ k, k < n → cycle_ret pin s k = 0) →
      average_loop pin n s
        = (0, { run_cycles pin n s with
                capAverage := s.capAverage + sum_outputs pin s 0 n }) := by
  induction n with
  | zero => intro s _; simp [average_loop, run_cycles, sum_outputs]
  | succ n ih =>
    intro s h
    have h0 : (getCapacitanceValue pin s).1 = 0 := h 0 (Nat.succ_pos n)
    simp only [average_loop, h0, lt_self_iff_false, if_false]
    rw [ih _ (fun k hk => by
      have := h (k + 1) (by omega)
      rw [show k + 1 = 1 + k by omega, cycle_ret_add] at this
      rw [cycle_ret_capAverage]
      exact this)]
    rw [run_cycles_capAverage, sum_outputs_capAverage, sum_outputs_front,
      getCapacitanceValue_keeps_capAverage, show 0 + 1 = 1 + 0 by rfl, sum_outputs_add]
    simp only [run_cycles, add_assoc]

theorem average_loop_fail (pin : ℕ → Bool) (n : ℕ) :
    ∀ (s : cap_state α) (j : ℕ), j < n → (∀ k, k < j → cycle_ret pin s k = 0) →
      cycle_ret pin s j ≠ 0 →
      average_loop pin n s
        = (-1, { run_cycles pin (j + 1) s with
                 capAverage := s.capAverage + sum_outputs pin s 0 j }) := by
  induction n with
  | zero => intro s j hj; omega
  | succ n ih =>
    intro s j hj hok hfail
    cases j with
    | zero =>
      have h0 : (getCapacitanceValue pin s).1 = -1 := by
        rcases getCapacitanceValue_ret pin s with h | h
        · exact absurd h hfail
        · exact h
      simp only [average_loop, run_cycles, sum_outputs, h0, add_zero]
      have e := getCapacitanceValue_keeps_capAverage pin s
      generalize (getCapacitanceValue pin s).2 = t at e ⊢
      cases t
      simp at e ⊢
      exact e
    | succ j =>
      have h0 : (getCapacitanceValue pin s).1 = 0 := hok 0 (Nat.succ_pos j)
      simp only [average_loop, h0, lt_self_iff_false, if_false]
      rw [ih _ j (by omega) (fun k hk => by
          have := hok (k + 1) (by omega)
          rw [show k + 1 = 1 + k by omega, cycle_ret_add] at this
          rw [cycle_ret_capAverage]
          exact this)
        (by
          rw [show j + 1 = 1 + j by omega, cycle_ret_add] at hfail
          rw [cycle_ret_capAverage]
          exact hfail)]
      rw [run_cycles_capAverage, sum_outputs_capAverage, sum_outputs_front,
        getCapacitanceValue_keeps_capAverage, show 0 + 1 = 1 + 0 by rfl, sum_outputs_add]
      simp only [run_cycles, add_assoc]

theorem cc_axisAverageCapValue_ok (pins : ℤ → ℕ → Bool) (axis : ℤ) (numSamples : ℕ)
    (s : cap_state α)
    (h : ∀ k, k < numSamples + 6 → cycle_ret (pins axis) (initLowPass s) k = 0) :
    cc_axisAverageCapValue pins axis numSamples s
      = (0, { run_cycles (pins axis) (numSamples + 6) (initLowPass s) with
              capAverage := sum_outputs (pins axis) (initLowPass s) 6 numSamples
                / (numSamples : α) }) := by
  unfold cc_axisAverageCapValue
  dsimp only
  rw [show NZEROS + 1 = 6 by rfl, warm_up_loop_ok (pins axis) 6 _ (fun k hk => h k (by omega))]
  dsimp only
  rw [if_neg (by decide : ¬ (0 : ℤ) < 0)]
  rw [average_loop_ok (pins axis) numSamples _ (fun k hk => by
    rw [cycle_ret_capAverage, ← cycle_ret_add]
    exact h (6 + k) (by omega))]
  dsimp only
  rw [if_neg (by decide : ¬ (0 : ℤ) < 0), zero_add]
  rw [run_cycles_capAverage, sum_outputs_capAverage, ← run_cycles_add,
    show (6 : ℕ) = 6 + 0 by rfl, sum_outputs_add, Nat.add_zero, Nat.add_comm 6 numSamples,
    ← sum_outputs_add, Nat.add_zero]

theorem cc_axisAverageCapValue_fail (pins : ℤ → ℕ → Bool) (axis : ℤ) (numSamples : ℕ)
    (s : cap_state α) (j : ℕ) (hj : j < numSamples + 6)
    (hok : ∀ k, k < j → cycle_ret (pins axis) (initLowPass s) k = 0)
    (hfail : cycle_ret (pins axis) (initLowPass s) j ≠ 0) :
    cc_axisAverageCapValue pins axis numSamples s
      = (-1, { run_cycles (pins axis) (j + 1) (initLowPass s) with
               capAverage := if j < 6 then s.capAverage
                 else sum_outputs (pins axis) (initLowPass s) 6 (j - 6) }) := by
  unfold cc_axisAverageCapValue
  dsimp only
  rw [show NZEROS + 1 = 6 by rfl]
  by_cases h6 : j < 6
  · rw [warm_up_loop_fail (pins axis) 6 _ j h6 hok hfail]
    dsimp only
    rw [if_pos (by decide : (-1 : ℤ) < 0), if_pos h6]
    have e := run_cycles_keeps_capAverage (pins axis) (j + 1) (initLowPass s)
    generalize run_cycles (pins axis) (j + 1) (initLowPass s) = t at e ⊢
    cases t
    simp [initLowPass] at e ⊢
    exact e
  · obtain ⟨i, rfl⟩ : ∃ i, j = 6 + i := ⟨j - 6, by omega⟩
    rw [warm_up_loop_ok (pins axis) 6 _ (fun k hk => hok k (by omega))]
    dsimp only
    rw [if_neg (by decide : ¬ (0 : ℤ) < 0)]
    rw [average_loop_fail (pins axis) numSamples _ i (by omega) (fun k hk => by
        rw [cycle_ret_capAverage, ← cycle_ret_add]
        exact hok (6 + k) (by omega))
      (by
        rw [cycle_ret_capAverage, ← cycle_ret_add]
        exact hfail)]
    dsimp only
    rw [if_pos (by decide : (-1 : ℤ) < 0), if_neg h6, zero_add]
    rw [run_cycles_capAverage, sum_outputs_capAverage, ← run_cycles_add,
      show (6 : ℕ) = 6 + 0 by rfl, sum_outputs_add, Nat.add_zero,
      show 6 + i - 6 = i by omega, show 6 + (i + 1) = 6 + i + 1 by omega]

theorem first_failing_cycle (pin : ℕ → Bool) (s : cap_state α) (n : ℕ)
    (h : ∃ k, k < n ∧ cycle_ret pin s k ≠ 0) :
    ∃ j, j < n ∧ (∀ k, k < j → cycle_ret pin s k = 0) ∧ cycle_ret pin s j ≠ 0 := by
  classical
  refine ⟨Nat.find h, (Nat.find_spec h).1, fun k hk => ?_, (Nat.find_spec h).2⟩
  have := Nat.find_min h hk
  by_contra hne
  exact this ⟨lt_trans hk (Nat.find_spec h).1, hne⟩

/-- Claim C23 (averaged read).  A run of consecutive calls of `getCapacitanceValue` is
started from the zeroed filter `initLowPass s`.  For every axis in {0, 1, 2} and every
`numSamples ≥ 1`: if `cc_axisAverageCapValue` returns 0 then the first `numSamples + 6`
calls of the run all return 0, the globals are those after exactly these
`numSamples + 6` calls, and `capAverage` is the sum of `yv[5]` after each of the last
`numSamples` calls divided by `numSamples`.  It returns -1 if and only if one of these
calls returns -1 (the first such call is one that the function makes), and it returns
nothing but 0 and -1. -/
theorem C23_averaged_read (pins : ℤ → ℕ → Bool) (axis : ℤ) (numSamples : ℕ)
    (s : cap_state α) (haxis : axis = 0 ∨ axis = 1 ∨ axis = 2) (hN : 1 ≤ numSamples) :
    ((cc_axisAverageCapValue pins axis numSamples s).1 = 0 →
      (∀ k, k < numSamples + 6 → cycle_ret (pins axis) (initLowPass s) k = 0)
      ∧ (cc_axisAverageCapValue pins axis numSamples s).2
        = { run_cycles (pins axis) (numSamples + 6) (initLowPass s) with
            capAverage := sum_outputs (pins axis) (initLowPass s) 6 numSamples
              / (numSamples : α) })
    ∧ ((cc_axisAverageCapValue pins axis numSamples s).1 = -1
        ↔ ∃ k, k < numSamples + 6 ∧ cycle_ret (pins axis) (initLowPass s) k = -1)
    ∧ ((cc_axisAverageCapValue pins axis numSamples s).1 = 0
        ∨ (cc_axisAverageCapValue pins axis numSamples s).1 = -1) := by
  by_cases hall : ∀ k, k < numSamples + 6 → cycle_ret (pins axis) (initLowPass s) k = 0
  · have hr := cc_axisAverageCapValue_ok pins axis numSamples s hall
    have h1 : (cc_axisAverageCapValue pins axis numSamples s).1 = 0 := by rw [hr]
    refine ⟨fun _ => ⟨hall, by rw [hr]⟩, ⟨fun h => by omega, fun ⟨k, hk, h⟩ => ?_⟩,
      Or.inl h1⟩
    rw [hall k hk] at h
    exact absurd h (by decide)
  · have hex : ∃ k, k < numSamples + 6 ∧ cycle_ret (pins axis) (initLowPass s) k ≠ 0 := by
      by_contra hne
      exact hall (fun k hk => by
        by_contra h0
        exact hne ⟨k, hk, h0⟩)
    obtain ⟨j, hj, hok, hfail⟩ := first_failing_cycle (pins axis) (initLowPass s) _ hex
    have hr := cc_axisAverageCapValue_fail pins axis numSamples s j hj hok hfail
    have h1 : (cc_axisAverageCapValue pins axis numSamples s).1 = -1 := by rw [hr]
    refine ⟨fun h => by omega, ⟨fun _ => ⟨j, hj, ?_⟩, fun _ => h1⟩, Or.inr h1⟩
    rcases getCapacitanceValue_ret (pins axis) (run_cycles (pins axis) j (initLowPass s))
      with h | h
    · exact absurd h hfail
    · exact h

/-- Claim C24 (a timed-out averaged read), amended to what the code does.  A run of
consecutive calls of `getCapacitanceValue` is started from the zeroed filter
`initLowPass s`; the call number `j` is the first that times out, and it is one of the
`numSamples + 6` calls of the averaged read.  Then `cc_axisAverageCapValue` returns -1.  If
the call is one of the 6 warm-up calls, `capAverage` keeps the value it had before; if it
is a later one, `capAverage` has been overwritten: it is the sum of `yv[5]` after the
`j - 6` averaging calls made before, which is 0 when there is none. -/
theorem C24_timed_out_averaged_read (pins : ℤ → ℕ → Bool) (axis : ℤ) (numSamples : ℕ)
    (s : cap_state α) (j : ℕ) (haxis : axis = 0 ∨ axis = 1 ∨ axis = 2)
    (hj : j < numSamples + 6)
    (hok : ∀ k, k < j → cycle_ret (pins axis) (initLowPass s) k = 0)
    (hfail : cycle_ret (pins axis) (initLowPass s) j = -1) :
    (cc_axisAverageCapValue pins axis numSamples s).1 = -1
    ∧ (j < 6 → (cc_axisAverageCapValue pins axis numSamples s).2.capAverage = s.capAverage)
    ∧ (6 ≤ j → (cc_axisAverageCapValue pins axis numSamples s).2.capAverage
        = sum_outputs (pins axis) (initLowPass s) 6 (j - 6))
    ∧ (j = 6 → (cc_axisAverageCapValue pins axis numSamples s).2.capAverage = 0) := by
  have hne : cycle_ret (pins axis) (initLowPass s) j ≠ 0 := by rw [hfail]; decide
  rw [cc_axisAverageCapValue_fail pins axis numSamples s j hj hok hne]
  refine ⟨rfl, fun h => by simp [h], fun h => ?_, fun h => ?_⟩
  · have : ¬ j < 6 := by omega
    simp [this]
  · subst h
    simp [sum_outputs]

theorem C23_averaged_read_witness :
    (cc_axisAverageCapValue (fun _ i => decide (i % 2 = 0)) 0 1
      ({ xv := ⟨1, 2, 3, 4, 5, 6⟩, yv := ⟨1, 2, 3, 4, 5, 6⟩, capAverage := 7, capTotal := 9,
         capTimeout := 1, polls := 0 } : cap_state ℚ)).1 = 0
    ∨ (cc_axisAverageCapValue (fun _ i => decide (i % 2 = 0)) 0 1
      ({ xv := ⟨1, 2, 3, 4, 5, 6⟩, yv := ⟨1, 2, 3, 4, 5, 6⟩, capAverage := 7, capTotal := 9,
         capTimeout := 1, polls := 0 } : cap_state ℚ)).1 = -1 :=
  (C23_averaged_read (fun _ i => decide (i % 2 = 0)) 0 1
    ({ xv := ⟨1, 2, 3, 4, 5, 6⟩, yv := ⟨1, 2, 3, 4, 5, 6⟩, capAverage := 7, capTotal := 9,
       capTimeout := 1, polls := 0 } : cap_state ℚ) (Or.inl rfl) (le_refl 1)).2.2

/-- Claim C24, as stated, fails: the receive pin reads high, low, high, low, ... for the
12 reads of the 6 warm-up cycles and low from then on, and the timeout is 1.  The first
averaging cycle times out; `cc_axisAverageCapValue` returns -1 and leaves
`capAverage = 0`, while it was 7 before the call. -/
theorem C24_counterexample :
    cc_axisAverageCapValue (fun _ i => decide (i < 12 ∧ i % 2 = 0)) 0 3
      ({ xv := ⟨1, 2, 3, 4, 5, 6⟩, yv := ⟨1, 2, 3, 4, 5, 6⟩, capAverage := 7, capTotal := 9,
         capTimeout := 1, polls := 0 } : cap_state ℚ)
      = (-1, { xv := ⟨0, 0, 0, 0, 0, 0⟩, yv := ⟨0, 0, 0, 0, 0, 0⟩, capAverage := 0,
               capTotal := 1, capTimeout := 1, polls := 15 }) := by
  simp [cc_axisAverageCapValue, warm_up_loop, average_loop, getCapacitanceValue,
    count_while, lowPassFilter, initLowPass, NZEROS]

theorem C24_timed_out_averaged_read_witness :
    (cc_axisAverageCapValue (fun _ i => decide (i < 12 ∧ i % 2 = 0)) 0 3
      ({ xv := ⟨1, 2, 3, 4, 5, 6⟩, yv := ⟨1, 2, 3, 4, 5, 6⟩, capAverage := 7, capTotal := 9,
         capTimeout := 1, polls := 0 } : cap_state ℚ)).1 = -1
    ∧ (cc_axisAverageCapValue (fun _ i => decide (i < 12 ∧ i % 2 = 0)) 0 3
      ({ xv := ⟨1, 2, 3, 4, 5, 6⟩, yv := ⟨1, 2, 3, 4, 5, 6⟩, capAverage := 7, capTotal := 9,
         capTimeout := 1, polls := 0 } : cap_state ℚ)).2.capAverage = 0 := by
  have h := C24_timed_out_averaged_read (fun _ i => decide (i < 12 ∧ i % 2 = 0)) 0 3
    ({ xv := ⟨1, 2, 3, 4, 5, 6⟩, yv := ⟨1, 2, 3, 4, 5, 6⟩, capAverage := 7, capTotal := 9,
       capTimeout := 1, polls := 0 } : cap_state ℚ) 6 (Or.inl rfl) (by decide)
    (fun k hk => by
      interval_cases k <;>
        simp [cycle_ret, run_cycles, getCapacitanceValue, count_while, lowPassFilter,
          initLowPass])
    (by
      simp [cycle_ret, run_cycles, getCapacitanceValue, count_while, lowPassFilter,
        initLowPass])
  exact ⟨h.1, h.2.2.2 rfl⟩

/-! ## The moves of the homing routine -/

theorem homing_move_eq (axis : ℤ) (feedRate moveVal : α) (pos : Vec3 α)
    (haxis : axis = 0 ∨ axis = 1 ∨ axis = 2) :
    [Call.st_synchronize] ++ homing_move axis feedRate moveVal (pos.set axis 0)
        ++ [Call.st_synchronize, Call.cc_axisAverageCapValue axis (10 * 5)]
      = homing_iteration axis feedRate moveVal pos := by
  rcases haxis with h | h | h <;> subst h <;>
    simp [homing_move, homing_iteration, Vec3.set]

theorem homing_iteration_set (axis : ℤ) (feedRate moveVal : α) (pos : Vec3 α) :
    homing_iteration axis feedRate moveVal (pos.set axis 0)
      = homing_iteration axis feedRate moveVal pos := by
  simp only [homing_iteration, Vec3_set_set]

theorem homing_loop_calls (sensor : ℕ → Option α) (axis : ℤ) (feedRate moveVal thr : α)
    (haxis : axis = 0 ∨ axis = 1 ∨ axis = 2) (left : ℕ) :
    ∀ (n : ℕ) (last : Option α) (pos : Vec3 α),
      n ≤ (homing_loop sensor axis feedRate moveVal thr left n last pos).numTimesMoved
      ∧ (homing_loop sensor axis feedRate moveVal thr left n last pos).numTimesMoved
          ≤ n + left
      ∧ (homing_loop sensor axis feedRate moveVal thr left n last pos).calls
        = (List.replicate
            ((homing_loop sensor axis feedRate moveVal thr left n last pos).numTimesMoved - n)
            (homing_iteration axis feedRate moveVal pos)).flatten
      ∧ (homing_loop sensor axis feedRate moveVal thr left n last pos).position.set axis 0
        = pos.set axis 0 := by
  induction left with
  | zero => intro n last pos; simp [homing_loop]
  | succ l ih =>
    intro n last pos
    cases last with
    | none => simp [homing_loop]
    | some v =>
      by_cases hv : v < thr
      · obtain ⟨a, b, c, d⟩ := ih (n + 1) (sensor (n + 1)) (pos.set axis 0)
        simp only [homing_loop, hv, if_true]
        refine ⟨by omega, by omega, ?_, by rw [d, Vec3_set_set]⟩
        rw [c, homing_move_eq axis feedRate moveVal pos haxis, homing_iteration_set,
          show (homing_loop sensor axis feedRate moveVal thr l (n + 1) (sensor (n + 1))
              (pos.set axis 0)).numTimesMoved - n
            = ((homing_loop sensor axis feedRate moveVal thr l (n + 1) (sensor (n + 1))
              (pos.set axis 0)).numTimesMoved - (n + 1)) + 1 by omega,
          List.replicate_succ, List.flatten_cons]
      · simp [homing_loop, hv]

/-- Claim C27 (homing moves are bounded fixed-step moves).  For every axis in {0, 1, 2} and
every behaviour of the sensor, the calls of `mc_do_homing_with_params` are: the three
opening calls; then `numTimesMoved` times the same five calls (synchronise,
`plan_redefine_current_position` with the homed axis at 0 and the other two axes at the
caller's values, `plan_buffer_line` with the homed axis at `moveVal`, the other two axes at
the caller's values, the rate `feedRate` and `invert_feed_rate` false, synchronise, the
averaged read); then the report `TimesMoved = numTimesMoved` and the closing calls.  So
there are exactly `numTimesMoved` calls of `plan_buffer_line`, each right after a
`plan_redefine_current_position`, and `numTimesMoved ≤ maxNumTimesToMove`. -/
theorem C27_homing_fixed_step_moves (sensor : ℕ → Option α)
    (acceleration_manager_was_enabled : Bool) (axis : ℤ) (feedRate moveVal thr : α)
    (maxNumTimesToMove : ℕ) (pos : Vec3 α) (haxis : axis = 0 ∨ axis = 1 ∨ axis = 2) :
    (mc_do_homing_with_params sensor acceleration_manager_was_enabled axis feedRate moveVal
        thr maxNumTimesToMove pos).numTimesMoved ≤ maxNumTimesToMove
    ∧ (mc_do_homing_with_params sensor acceleration_manager_was_enabled axis feedRate moveVal
        thr maxNumTimesToMove pos).calls
      = [Call.plan_set_acceleration_manager_enabled false, Call.st_synchronize,
          Call.cc_axisAverageCapValue axis 50]
        ++ (List.replicate
            (mc_do_homing_with_params sensor acceleration_manager_was_enabled axis feedRate
              moveVal thr maxNumTimesToMove pos).numTimesMoved
            [Call.st_synchronize,
             Call.plan_redefine_current_position (pos.set axis 0).x (pos.set axis 0).y
               (pos.set axis 0).z,
             Call.plan_buffer_line (pos.set axis moveVal).x (pos.set axis moveVal).y
               (pos.set axis moveVal).z feedRate false,
             Call.st_synchronize, Call.cc_axisAverageCapValue axis 50]).flatten
        ++ [Call.printString "TimesMoved = ",
            Call.printInteger ((mc_do_homing_with_params sensor
              acceleration_manager_was_enabled axis feedRate moveVal thr maxNumTimesToMove
              pos).numTimesMoved : ℤ),
            Call.print_newline,
            Call.plan_redefine_current_position (pos.set axis 0).x (pos.set axis 0).y
              (pos.set axis 0).z,
            Call.plan_set_acceleration_manager_enabled acceleration_manager_was_enabled]
    ∧ (mc_do_homing_with_params sensor acceleration_manager_was_enabled axis feedRate moveVal
        thr maxNumTimesToMove pos).calls.countP Call.is_plan_buffer_line
      = (mc_do_homing_with_params sensor acceleration_manager_was_enabled axis feedRate
          moveVal thr maxNumTimesToMove pos).numTimesMoved
    ∧ (pos.set axis 0).get axis = 0 ∧ (pos.set axis moveVal).get axis = moveVal
    ∧ (∀ i : ℤ, i ≠ axis →
        (pos.set axis 0).get i = pos.get i ∧ (pos.set axis moveVal).get i = pos.get i) := by
  obtain ⟨a, b, c, d⟩ := homing_loop_calls sensor axis feedRate moveVal thr haxis
    maxNumTimesToMove 0 (sensor 0) pos
  have hred : ∀ p : Vec3 α, homing_redefine axis (p.set axis 0)
      = [Call.plan_redefine_current_position (p.set axis 0).x (p.set axis 0).y
          (p.set axis 0).z] := by
    intro p
    rcases haxis with h | h | h <;> subst h <;> simp [homing_redefine, Vec3.set]
  have hget : ∀ (v : α) (i : ℤ), i ≠ axis → (pos.set axis v).get i = pos.get i := by
    intro v i hi
    rcases haxis with h | h | h <;> subst h <;> simp [Vec3.set, Vec3.get, hi]
  have hcount : ∀ k : ℕ, (List.replicate k
      (homing_iteration axis feedRate moveVal pos)).flatten.countP Call.is_plan_buffer_line
      = k := by
    intro k
    induction k with
    | zero => simp
    | succ k ih =>
      rw [List.replicate_succ, List.flatten_cons, List.countP_append, ih]
      simp [homing_iteration, Call.is_plan_buffer_line]
      omega
  unfold mc_do_homing_with_params
  dsimp only
  generalize homing_loop sensor axis feedRate moveVal thr maxNumTimesToMove 0 (sensor 0) pos
    = loop at a b c d ⊢
  rw [Nat.sub_zero] at c
  refine ⟨by omega, ?_, ?_, Vec3_get_set _ _ _ haxis, Vec3_get_set _ _ _ haxis,
    fun i hi => ⟨hget 0 i hi, hget moveVal i hi⟩⟩
  · rw [c, hred, d]
    simp [homing_iteration]
  · rw [c, hred]
    simp only [List.countP_append, hcount]
    simp [Call.is_plan_buffer_line]

theorem C27_homing_fixed_step_moves_witness :
    (mc_do_homing_with_params (fun i => some (1 + 10 * (i : ℚ))) true 0 10 (-200) 15 5
        ⟨7, 3, -4⟩).numTimesMoved ≤ 5
    ∧ (mc_do_homing_with_params (fun i => some (1 + 10 * (i : ℚ))) true 0 10 (-200) 15 5
        ⟨7, 3, -4⟩).calls.countP Call.is_plan_buffer_line
      = (mc_do_homing_with_params (fun i => some (1 + 10 * (i : ℚ))) true 0 10 (-200) 15 5
        ⟨7, 3, -4⟩).numTimesMoved :=
  ⟨(C27_homing_fixed_step_moves (fun i => some (1 + 10 * (i : ℚ))) true 0 10 (-200) 15 5
      ⟨7, 3, -4⟩ (Or.inl rfl)).1,
   (C27_homing_fixed_step_moves (fun i => some (1 + 10 * (i : ℚ))) true 0 10 (-200) 15 5
      ⟨7, 3, -4⟩ (Or.inl rfl)).2.2.1⟩

/-! ## Truncation in the arc routine and in pass 1; rejected lines -/

/-- Claim C28 (arc travel length): what the code does.  The travel is
`hypot(angular_travel*radius, labs(linear_travel))`, and `labs` takes an integer: the linear
travel is truncated toward zero before its absolute value is taken.  For
`angular_travel = 0`, `radius = 0` and `linear_travel = 1/2` the travel is 0 and `mc_arc`
returns without a call, though `linear_travel` is not 0. -/
theorem C28_arc_travel_truncates :
    (∀ (libc : Libc α) (angular_travel radius linear_travel : α),
      arc_millimeters_of_travel libc angular_travel radius linear_travel
        = libc.hypot (angular_travel * radius) ((|trunc linear_travel| : ℤ) : α))
    ∧ trunc (1 / 2 : ℚ) = 0
    ∧ arc_millimeters_of_travel libcQ 0 0 (1 / 2) = 0
    ∧ mc_arc libcQ 1 false 0 0 0 (1 / 2) 0 1 2 10 false ⟨0, 0, 0⟩ = [] := by
  have ht : trunc (1 / 2 : ℚ) = 0 := by
    unfold trunc
    rw [if_pos (by norm_num)]
    rw [Int.floor_eq_iff]
    norm_num
  have hz : arc_millimeters_of_travel libcQ 0 0 (1 / 2) = 0 := by
    show Rat.sqrt ((0 * 0) * (0 * 0)
      + ((|trunc (1 / 2 : ℚ)| : ℤ) : ℚ) * ((|trunc (1 / 2 : ℚ)| : ℤ) : ℚ)) = 0
    rw [ht]
    norm_num [Rat.sqrt]
  refine ⟨fun _ _ _ _ => rfl, ht, hz, ?_⟩
  unfold mc_arc
  dsimp only
  rw [if_pos hz]
  rfl

theorem pass1_statements_congr (pre post : List (Char × α)) (s t : Char × α)
    (h : ∀ fr : Frame α, pass1_statement fr s.1 s.2 = pass1_statement fr t.1 t.2)
    (st : Status) :
    ∀ fr : Frame α, pass1_statements (pre ++ s :: post) st fr
      = pass1_statements (pre ++ t :: post) st fr := by
  induction pre with
  | nil => intro fr; simp only [List.nil_append, pass1_statements, h]
  | cons a pre ih =>
    intro fr
    simp only [List.cons_append, pass1_statements, List.append_eq, ih]

theorem pass2_statements_congr (pre post : List (Char × α)) (s t : Char × α)
    (h : ∀ fr : Frame α, pass2_statement fr s.1 s.2 = pass2_statement fr t.1 t.2)
    (st : Status) :
    ∀ fr : Frame α, pass2_statements (pre ++ s :: post) st fr
      = pass2_statements (pre ++ t :: post) st fr := by
  induction pre with
  | nil => intro fr; simp only [List.nil_append, pass2_statements, h]
  | cons a pre ih =>
    intro fr
    simp only [List.cons_append, pass2_statements, List.append_eq, ih]

theorem pass1_statement_trunc (fr : Frame α) (c : Char) (v : α) (hc : c = 'G' ∨ c = 'M') :
    pass1_statement fr c v = pass1_statement fr c ((trunc v : ℤ) : α) := by
  rcases hc with h | h <;> subst h <;> simp [pass1_statement, trunc_intCast]

theorem pass2_statement_code (fr : Frame α) (c : Char) (v : α) (hc : c = 'G' ∨ c = 'M') :
    pass2_statement fr c v = fr := by
  rcases hc with h | h <;> subst h <;> simp [pass2_statement]

/-- Claim C29 (G and M numbers are truncated).  For every frame and every value `v`, the
pass-1 loop body does for the word `Gv` what it does for `G(trunc v)`, and the same for M;
the pass-2 loop body does nothing for either.  So two G-code lines whose statements differ
in one G or M word only, `v` in one and `trunc v` in the other, leave the same outcome from
every state.  `G1.9` sets the linear mode, `G28.1` asks for homing, `G0.5` and `G-0.5`
set the seek mode, and none of them changes the status code. -/
theorem C29_codes_are_truncated (libc : Libc α) (gc : parser_state_t α) (l1 l2 : List Char)
    (pre post : List (Char × α)) (c : Char) (v : α) (hc : c = 'G' ∨ c = 'M')
    (h1 : charAt l1 0 ≠ '(' ∧ charAt l1 0 ≠ '$' ∧ charAt l1 0 ≠ '/')
    (h2 : charAt l2 0 ≠ '(' ∧ charAt l2 0 ≠ '$' ∧ charAt l2 0 ≠ '/')
    (hs1 : (pass2_scan libc l1).stmts = pre ++ (c, v) :: post)
    (hs2 : (pass2_scan libc l2).stmts = pre ++ (c, ((trunc v : ℤ) : α)) :: post)
    (hst : (pass2_scan libc l1).status_code = (pass2_scan libc l2).status_code) :
    gc_execute_line libc gc l1 = gc_execute_line libc gc l2
    ∧ (∀ (fr : Frame α) (w : α),
        pass1_statement fr 'G' w = pass1_statement fr 'G' ((trunc w : ℤ) : α)
        ∧ pass1_statement fr 'M' w = pass1_statement fr 'M' ((trunc w : ℤ) : α)
        ∧ pass2_statement fr 'G' w = fr ∧ pass2_statement fr 'M' w = fr)
    ∧ (∀ fr : Frame α,
        pass1_statement fr 'G' (1.9 : α) = fr.set_motion_mode MotionMode.LINEAR
        ∧ pass1_statement fr 'G' (28.1 : α) = fr.set_next_action NextAction.GO_HOME
        ∧ pass1_statement fr 'G' (0.5 : α) = fr.set_motion_mode MotionMode.SEEK
        ∧ pass1_statement fr 'G' (-0.5 : α) = fr.set_motion_mode MotionMode.SEEK) := by
  refine ⟨?_, fun fr w => ⟨pass1_statement_trunc fr 'G' w (Or.inl rfl),
    pass1_statement_trunc fr 'M' w (Or.inr rfl), pass2_statement_code fr 'G' w (Or.inl rfl),
    pass2_statement_code fr 'M' w (Or.inr rfl)⟩, fun fr => ?_⟩
  · rw [gc_execute_line_eq libc gc l1 h1.1 h1.2.1, gc_execute_line_eq libc gc l2 h2.1 h2.2.1,
      pass1_scan_eq_pass2_scan libc l1 h1.2.2, pass1_scan_eq_pass2_scan libc l2 h2.2.2]
    unfold execute_statements
    dsimp only
    rw [hs1, hs2, hst,
      pass1_statements_congr pre post (c, v) (c, ((trunc v : ℤ) : α))
        (fun fr => pass1_statement_trunc fr c v hc),
      pass2_statements_congr pre post (c, v) (c, ((trunc v : ℤ) : α))
        (fun fr => by
          rw [pass2_statement_code fr c v hc, pass2_statement_code fr c _ hc])]
  · have t1 : trunc (1.9 : α) = 1 := by
      unfold trunc
      rw [if_pos (by norm_num), Int.floor_eq_iff]
      norm_num
    have t2 : trunc (28.1 : α) = 28 := by
      unfold trunc
      rw [if_pos (by norm_num), Int.floor_eq_iff]
      norm_num
    have t3 : trunc (0.5 : α) = 0 := by
      unfold trunc
      rw [if_pos (by norm_num), Int.floor_eq_iff]
      norm_num
    have t4 : trunc (-0.5 : α) = 0 := by
      unfold trunc
      rw [if_neg (by norm_num), Int.ceil_eq_iff]
      norm_num
    simp [pass1_statement, pass1_G, t1, t2, t3, t4]

theorem C29_codes_are_truncated_witness :
    gc_execute_line libcQ (gc_init 381 381) "G1.9X5".toList
      = gc_execute_line libcQ (gc_init 381 381) "G1X5".toList := by
  have t : trunc (19 / 10 : ℚ) = 1 := by
    unfold trunc
    rw [if_pos (by norm_num), Int.floor_eq_iff]
    norm_num
  exact (C29_codes_are_truncated libcQ (gc_init 381 381) "G1.9X5".toList "G1X5".toList
    [] [('X', 5)] 'G' (19 / 10) (Or.inl rfl)
    ⟨by simp [charAt], by simp [charAt], by simp [charAt]⟩
    ⟨by simp [charAt], by simp [charAt], by simp [charAt]⟩
    (by simp [pass1_scan, pass2_scan, first_counter, statements, next_statement, read_double, libcQ, strtod_decimal, scanNumeral, takeDigits, takeSign, charAt, Numeral.value])
    (by rw [t]; simp [pass1_scan, pass2_scan, first_counter, statements, next_statement, read_double, libcQ, strtod_decimal, scanNumeral, takeDigits, takeSign, charAt, Numeral.value])
    (by simp [pass1_scan, pass2_scan, first_counter, statements, next_statement, read_double, libcQ, strtod_decimal, scanNumeral, takeDigits, takeSign, charAt, Numeral.value])).1

theorem FAIL_of_status (fr : Frame α) (st : Status) (h : fr.gc.status_code = st) :
    FAIL fr st = fr := by
  cases fr with
  | mk gc loc calls =>
    cases gc
    simp only [FAIL] at h ⊢
    subst h
    rfl

theorem pass1_statements_append (pre rest : List (Char × α)) (st : Status)
    (hpre : ∀ s ∈ pre, supported s) :
    ∀ fr : Frame α, fr.gc.status_code = Status.OK →
      pass1_statements (pre ++ rest) st fr
        = pass1_statements rest st (pass1_statements pre Status.OK fr) := by
  induction pre with
  | nil =>
    intro fr hfr
    simp only [List.nil_append, pass1_statements, FAIL_of_status fr _ hfr]
  | cons a pre ih =>
    intro fr hfr
    have ha := pass1_statement_supported fr a (hpre a (List.mem_cons_self _ _))
    rw [hfr] at ha
    simp only [List.cons_append, pass1_statements, List.append_eq, ha, ne_eq,
      not_true_eq_false, if_false]
    exact ih (fun s hs => hpre s (List.mem_cons_of_mem _ hs)) _ ha

theorem pass1_statement_rejected (fr : Frame α) (s : Char × α)
    (h : (s.1 = 'G' ∧ trunc s.2 ∉ supported_G) ∨ (s.1 = 'M' ∧ trunc s.2 ∉ supported_M)) :
    pass1_statement fr s.1 s.2 = FAIL fr Status.UNSUPPORTED_STATEMENT := by
  rcases h with ⟨hl, hn⟩ | ⟨hl, hn⟩
  · simp only [supported_G, List.mem_cons, List.mem_singleton, List.not_mem_nil, or_false,
      not_or] at hn
    simp [pass1_statement, hl, pass1_G, hn]
  · simp only [supported_M, List.mem_cons, List.mem_singleton, List.not_mem_nil, or_false,
      not_or] at hn
    simp [pass1_statement, hl, pass1_M, hn]

/-- A line that pass 1 rejects keeps the modal changes of the words before the rejected
one, and nothing else: for a G-code line that does not start with a slash, whose statements
start with the supported statements `pre` and then either end with a status code other than
OK (a malformed word) or go on with a G or M word of an unsupported code, the state `gc`
after `gc_execute_line` is the state after the pass-1 loop body has run on `pre`, with the
status code of the return; no call is made, whatever follows the rejected word. -/
theorem rejected_line_keeps_earlier_words (libc : Libc α) (gc : parser_state_t α) (line : List Char)
    (pre rest : List (Char × α))
    (h1 : charAt line 0 ≠ '(') (h2 : charAt line 0 ≠ '$') (h3 : charAt line 0 ≠ '/')
    (hs : (pass2_scan libc line).stmts = pre ++ rest)
    (hpre : ∀ s ∈ pre, supported s)
    (hrej : (rest = [] ∧ (pass2_scan libc line).status_code ≠ Status.OK)
      ∨ ∃ s post, rest = s :: post
          ∧ ((s.1 = 'G' ∧ trunc s.2 ∉ supported_G) ∨ (s.1 = 'M' ∧ trunc s.2 ∉ supported_M))) :
    (gc_execute_line libc gc line).ret ≠ Status.OK
    ∧ (gc_execute_line libc gc line).gc
      = { (pass1_statements pre Status.OK (initial_frame gc)).gc with
          status_code := (gc_execute_line libc gc line).ret }
    ∧ (gc_execute_line libc gc line).calls = [] := by
  rw [gc_execute_line_eq libc gc line h1 h2, pass1_scan_eq_pass2_scan libc line h3]
  unfold execute_statements
  dsimp only
  rw [hs, pass1_statements_append pre rest _ hpre _ rfl]
  have hc := pass1_statements_calls pre Status.OK (initial_frame gc)
  have hk := pass1_statements_supported pre Status.OK (initial_frame gc) hpre rfl
  generalize pass1_statements pre Status.OK (initial_frame gc) = frP at hc hk ⊢
  have hf : ∃ code, code ≠ Status.OK
      ∧ pass1_statements rest (pass2_scan libc line).status_code frP = FAIL frP code := by
    rcases hrej with ⟨hr, hst⟩ | ⟨s, post, hr, hu⟩
    · subst hr
      exact ⟨_, hst, rfl⟩
    · subst hr
      refine ⟨Status.UNSUPPORTED_STATEMENT, by decide, ?_⟩
      simp only [pass1_statements, pass1_statement_rejected frP s hu]
      rw [if_pos (by simp [FAIL])]
  obtain ⟨code, hcode, hf⟩ := hf
  rw [hf, if_pos (by simpa [FAIL] using hcode)]
  exact ⟨hcode, rfl, hc⟩

/-- Claim C30 (a rejected line is not atomic), evaluated on the code.  From the power-on
state the line `G91G99G20` returns UnsupportedStatement and leaves the interpreter in
relative mode and in millimetres: the change of G91 persists and G20 has no effect.  The
line `/G91` returns ExpectedCommandLetter for the slash at position 0, yet it leaves the
interpreter in relative mode: the word G91, which comes after the rejected position, has
taken effect. -/
theorem C30_rejected_line_is_not_atomic :
    (gc_execute_line libcQ (gc_init 381 381) "G91G99G20".toList).ret
      = Status.UNSUPPORTED_STATEMENT
    ∧ (gc_execute_line libcQ (gc_init 381 381) "G91G99G20".toList).gc
      = { gc_init 381 381 with status_code := Status.UNSUPPORTED_STATEMENT,
                               absolute_mode := false }
    ∧ (gc_init 381 381 : parser_state_t ℚ).absolute_mode = true
    ∧ (gc_execute_line libcQ (gc_init 381 381) "/G91".toList).ret
      = Status.EXPECTED_COMMAND_LETTER
    ∧ (gc_execute_line libcQ (gc_init 381 381) "/G91".toList).gc.absolute_mode = false := by
  refine ⟨?_, ?_, rfl, ?_, ?_⟩
  all_goals
    rw [gc_execute_line_eq _ _ _ (by simp [charAt]) (by simp [charAt])]
    simp [pass1_scan, pass2_scan, first_counter, statements, next_statement, read_double, libcQ, strtod_decimal, scanNumeral, takeDigits, takeSign, charAt, Numeral.value, gc_init, clear_vector, execute_statements, pass1_statements, pass2_statements, pass1_statement,
    pass2_statement, pass1_G, pass1_M, finish_line, perform_action, update_spindle,
    initial_frame, pass2_frame, initial_locals, FAIL, Frame.returns, to_millimeters, Vec3.set,
    Vec3.get, select_plane, Frame.set_motion_mode, Frame.set_next_action, Frame.set_plane,
    Frame.set_inches_mode, Frame.set_absolute_override, Frame.set_absolute_mode,
    Frame.set_inverse_feed_rate_mode, Frame.set_program_flow, Frame.set_spindle_direction,
    Frame.set_tool, Frame.set_inverse_feed_rate, Frame.set_homing_feed_rate,
    Frame.set_seek_rate, Frame.set_feed_rate, Frame.set_offset, Frame.set_p, Frame.set_r,
    Frame.set_spindle_speed, Frame.set_target, Frame.set_homing_dist_to_move,
    Frame.set_homing_threshold, Frame.set_homing_max_number_of_times]

/-! ## The angle helper and the centre of a radius-mode arc -/

theorem hypot_eq_abs_mul (x y : ℝ) (hy : y ≠ 0) :
    Real.sqrt (x * x + y * y) = |y| * Real.sqrt (1 + (x / |y|) ^ 2) := by
  have hpos : 0 < |y| := abs_pos.mpr hy
  have e : x * x + y * y = |y| * |y| * (1 + (x / |y|) ^ 2) := by
    have : |y| * |y| = y * y := abs_mul_abs_self y
    field_simp
    nlinarith [this]
  rw [e, Real.sqrt_mul (mul_self_nonneg _), Real.sqrt_mul_self hpos.le]

theorem sin_arctan_mul_hypot (x y : ℝ) (hy : y ≠ 0) :
    Real.sin (Real.arctan (x / |y|)) * Real.sqrt (x * x + y * y) = x
    ∧ Real.cos (Real.arctan (x / |y|)) * Real.sqrt (x * x + y * y) = |y| := by
  have hpos : 0 < |y| := abs_pos.mpr hy
  have hs : 0 < Real.sqrt (1 + (x / |y|) ^ 2) := Real.sqrt_pos.mpr (by positivity)
  rw [hypot_eq_abs_mul x y hy, Real.sin_arctan, Real.cos_arctan]
  generalize Real.sqrt (1 + (x / |y|) ^ 2) = s at hs
  constructor
  · field_simp
  · field_simp

theorem theta_eq_some (libc : Libc ℝ) (hreal : libc.is_real) (x y : ℝ) (hy : y ≠ 0) :
    theta libc x y
      = some (if y > 0 then Real.arctan (x / |y|)
          else if Real.arctan (x / |y|) > 0 then Real.pi - Real.arctan (x / |y|)
          else -Real.pi - Real.arctan (x / |y|)) := by
  obtain ⟨_, _, ha, _, _, hpi⟩ := hreal
  simp only [theta, hy, and_false, false_and, if_false, ha, hpi]
  split_ifs <;> rfl

theorem theta_bounds (libc : Libc ℝ) (hreal : libc.is_real) (x y : ℝ) (hxy : x ≠ 0 ∨ y ≠ 0) :
    ∃ t : ℝ, theta libc x y = some t ∧ -Real.pi ≤ t ∧ t ≤ Real.pi := by
  have hpipos := Real.pi_pos
  by_cases hy : y = 0
  · have hpi : libc.M_PI = Real.pi := hreal.2.2.2.2.2
    have hx : x ≠ 0 := by
      rcases hxy with h | h
      · exact h
      · exact absurd hy h
    rcases lt_or_gt_of_ne hx with hneg | hpos
    · have a : ¬ (0 < x) := not_lt.mpr hneg.le
      refine ⟨-Real.pi - -(Real.pi / 2), ?_, by linarith, by linarith⟩
      simp only [theta, hy, hx, and_true, true_and, a, if_false, hneg, if_true, hpi, gt_iff_lt,
        lt_self_iff_false]
      rw [if_neg (by linarith)]
    · refine ⟨Real.pi - Real.pi / 2, ?_, by linarith, by linarith⟩
      simp only [theta, hy, hx, and_true, true_and, hpos, if_true, hpi, gt_iff_lt,
        lt_self_iff_false, if_false]
      rw [if_pos (by linarith)]
  · have hlo := Real.neg_pi_div_two_lt_arctan (x / |y|)
    have hhi := Real.arctan_lt_pi_div_two (x / |y|)
    refine ⟨_, theta_eq_some libc hreal x y hy, ?_⟩
    split_ifs <;> constructor <;> linarith

/-- Claim C21 (range of the `theta` helper), amended to what the code does.  With the
circular functions of the reals, for every `x` and every `y ≠ 0`, `theta x y` is a number
of the closed interval from -pi to pi, and it is the clockwise angle from the positive y
axis: `sin(theta) * hypot(x, y) = x` and `cos(theta) * hypot(x, y) = y`. -/
theorem C21_theta_range (libc : Libc ℝ) (hreal : libc.is_real) (x y : ℝ) (hy : y ≠ 0) :
    ∃ t : ℝ, theta libc x y = some t
      ∧ -Real.pi ≤ t ∧ t ≤ Real.pi
      ∧ libc.sin t * libc.hypot x y = x
      ∧ libc.cos t * libc.hypot x y = y := by
  refine ⟨_, theta_eq_some libc hreal x y hy, ?_⟩
  obtain ⟨_, hh, ha, hsin, hcos, hpi⟩ := hreal
  have hlo := Real.neg_pi_div_two_lt_arctan (x / |y|)
  have hhi := Real.arctan_lt_pi_div_two (x / |y|)
  have hpipos := Real.pi_pos
  obtain ⟨e1, e2⟩ := sin_arctan_mul_hypot x y hy
  simp only [hsin, hcos, hh]
  by_cases hy0 : y > 0
  · rw [if_pos hy0]
    exact ⟨by linarith, by linarith, e1, by rw [e2, abs_of_pos hy0]⟩
  · have hyneg : y < 0 := lt_of_le_of_ne (not_lt.mp hy0) hy
    rw [if_neg hy0]
    by_cases ht : Real.arctan (x / |y|) > 0
    · rw [if_pos ht]
      refine ⟨by linarith, by linarith, ?_, ?_⟩
      · rw [Real.sin_pi_sub]; exact e1
      · rw [Real.cos_pi_sub, neg_mul, e2, abs_of_neg hyneg, neg_neg]
    · rw [if_neg ht]
      have ht2 : Real.arctan (x / |y|) ≤ 0 := not_lt.mp ht
      refine ⟨by linarith, by linarith, ?_, ?_⟩
      · rw [show -Real.pi - Real.arctan (x / |y|) = -(Real.arctan (x / |y|) + Real.pi) by ring,
          Real.sin_neg, Real.sin_add_pi, neg_neg]
        exact e1
      · rw [show -Real.pi - Real.arctan (x / |y|) = -(Real.arctan (x / |y|) + Real.pi) by ring,
          Real.cos_neg, Real.cos_add_pi, neg_mul, e2, abs_of_neg hyneg, neg_neg]

theorem C21_theta_range_witness :
    ∃ t : ℝ, theta
      ({ strtod := strtod_decimal, sqrt := Real.sqrt,
         hypot := fun x y => Real.sqrt (x * x + y * y), atan := Real.arctan,
         sin := Real.sin, cos := Real.cos, M_PI := Real.pi,
         clear_vector_pointer := fun v => ⟨0, v.y, v.z⟩ } : Libc ℝ) 3 (-4) = some t
      ∧ -Real.pi ≤ t ∧ t ≤ Real.pi
      ∧ Real.sin t * Real.sqrt (3 * 3 + (-4) * (-4)) = 3
      ∧ Real.cos t * Real.sqrt (3 * 3 + (-4) * (-4)) = -4 := by
  obtain ⟨t, h1, h2, h3, h4, h5⟩ := C21_theta_range
      ({ strtod := strtod_decimal, sqrt := Real.sqrt,
         hypot := fun x y => Real.sqrt (x * x + y * y), atan := Real.arctan,
         sin := Real.sin, cos := Real.cos, M_PI := Real.pi,
         clear_vector_pointer := fun v => ⟨0, v.y, v.z⟩ } : Libc ℝ)
    ⟨rfl, rfl, rfl, rfl, rfl, rfl⟩ 3 (-4) (by norm_num)
  exact ⟨t, h1, h2, h3, h4, h5⟩

/-- Claim C21, as stated, fails: with the circular functions of the reals
`theta 0 (-1) = -pi`, which is not in the interval from -pi (excluded) to pi. -/
theorem C21_counterexample :
    theta
      ({ strtod := strtod_decimal, sqrt := Real.sqrt,
         hypot := fun x y => Real.sqrt (x * x + y * y), atan := Real.arctan,
         sin := Real.sin, cos := Real.cos, M_PI := Real.pi,
         clear_vector_pointer := fun v => ⟨0, v.y, v.z⟩ } : Libc ℝ) 0 (-1) = some (-Real.pi)
    ∧ ¬ (-Real.pi < (-Real.pi : ℝ) ∧ (-Real.pi : ℝ) ≤ Real.pi) := by
  refine ⟨?_, fun h => lt_irrefl _ h.1⟩
  simp [theta]

theorem plane_offset_get (a0 a1 : ℕ) (u v : α) (h01 : a0 ≠ a1) (h0 : a0 ≤ 2) (h1 : a1 ≤ 2) :
    (((clear_vector : Vec3 α).set (a0 : ℤ) u).set (a1 : ℤ) v).get (a0 : ℤ) = u
    ∧ (((clear_vector : Vec3 α).set (a0 : ℤ) u).set (a1 : ℤ) v).get (a1 : ℤ) = v := by
  interval_cases a0 <;> interval_cases a1 <;>
    first
    | exact absurd rfl h01
    | simp [Vec3.set, Vec3.get, clear_vector]

/-- The centre offset of a radius-mode arc, with the square root and the norm of the reals:
the entries on the plane axes are `(x - y*H)/2` and `(y + x*H)/2` for a number `H` with
`H*H*(x*x + y*y) = 4*r*r - x*x - y*y` whose sign is fixed by the direction of the arc and
the sign of `r`. -/
theorem radius_mode_offset_eq (libc : Libc ℝ) (hreal : libc.is_real) (fr : Frame ℝ)
    (x y : ℝ)
    (hplane : fr.gc.plane_axis_0 ≠ fr.gc.plane_axis_1 ∧ fr.gc.plane_axis_0 ≤ 2
      ∧ fr.gc.plane_axis_1 ≤ 2)
    (hreach : x * x + y * y ≤ 4 * fr.loc.r * fr.loc.r) (hxy : x ≠ 0 ∨ y ≠ 0) :
    ∃ H : ℝ,
      (radius_mode_offset libc fr x y).get (fr.gc.plane_axis_0 : ℤ) = (x - y * H) / 2
      ∧ (radius_mode_offset libc fr x y).get (fr.gc.plane_axis_1 : ℤ) = (y + x * H) / 2
      ∧ H * H * (x * x + y * y) = 4 * fr.loc.r * fr.loc.r - x * x - y * y
      ∧ (fr.gc.motion_mode ≠ MotionMode.CCW_ARC → 0 ≤ fr.loc.r → H ≤ 0)
      ∧ (fr.gc.motion_mode = MotionMode.CCW_ARC → 0 ≤ fr.loc.r → 0 ≤ H)
      ∧ (fr.gc.motion_mode ≠ MotionMode.CCW_ARC → fr.loc.r < 0 → 0 ≤ H)
      ∧ (fr.gc.motion_mode = MotionMode.CCW_ARC → fr.loc.r < 0 → H ≤ 0) := by
  obtain ⟨hs, hh, _, _, _, _⟩ := hreal
  have hd : 0 < x * x + y * y := by
    rcases hxy with h | h
    · have := mul_self_pos.mpr h
      nlinarith [mul_self_nonneg y]
    · have := mul_self_pos.mpr h
      nlinarith [mul_self_nonneg x]
  have hD : 0 ≤ 4 * fr.loc.r * fr.loc.r - x * x - y * y := by linarith
  have hp0 : -Real.sqrt (4 * fr.loc.r * fr.loc.r - x * x - y * y)
      / Real.sqrt (x * x + y * y) ≤ 0 :=
    div_nonpos_of_nonpos_of_nonneg (neg_nonpos.mpr (Real.sqrt_nonneg _)) (Real.sqrt_nonneg _)
  have hp : (-Real.sqrt (4 * fr.loc.r * fr.loc.r - x * x - y * y)
      / Real.sqrt (x * x + y * y))
      * (-Real.sqrt (4 * fr.loc.r * fr.loc.r - x * x - y * y) / Real.sqrt (x * x + y * y))
      * (x * x + y * y) = 4 * fr.loc.r * fr.loc.r - x * x - y * y := by
    have h1 := Real.mul_self_sqrt hD
    have h2 := Real.mul_self_sqrt hd.le
    have h3 : Real.sqrt (x * x + y * y) ≠ 0 := (Real.sqrt_pos.mpr hd).ne'
    field_simp
  have hg := fun u v : ℝ => plane_offset_get fr.gc.plane_axis_0 fr.gc.plane_axis_1 u v
    hplane.1 hplane.2.1 hplane.2.2
  simp only [radius_mode_offset, hs, hh]
  generalize -Real.sqrt (4 * fr.loc.r * fr.loc.r - x * x - y * y)
      / Real.sqrt (x * x + y * y) = p at hp0 hp
  by_cases hccw : fr.gc.motion_mode = MotionMode.CCW_ARC <;>
    by_cases hr : fr.loc.r < 0
  · simp only [hccw, hr, if_true, neg_neg]
    refine ⟨p, (hg _ _).1, (hg _ _).2, by linarith, ?_, ?_, ?_, ?_⟩
    all_goals
      intro a b
      first
        | linarith
        | exact absurd rfl a
        | exact a.elim
        | exact b.elim
  · simp only [hccw, hr, if_true, if_false]
    refine ⟨-p, (hg _ _).1, (hg _ _).2, by linarith, ?_, ?_, ?_, ?_⟩
    all_goals
      intro a b
      first
        | linarith
        | exact absurd rfl a
        | exact a.elim
        | exact b.elim
  · simp only [hccw, hr, if_true, if_false]
    refine ⟨-p, (hg _ _).1, (hg _ _).2, by linarith, ?_, ?_, ?_, ?_⟩
    all_goals
      intro a b
      first
        | linarith
        | exact absurd rfl a
        | exact a.elim
        | exact b.elim
  · simp only [hccw, hr, if_false]
    refine ⟨p, (hg _ _).1, (hg _ _).2, by linarith, ?_, ?_, ?_, ?_⟩
    all_goals
      intro a b
      first
        | linarith
        | exact absurd rfl a
        | exact a.elim
        | exact b.elim

theorem finish_line_offset (libc : Libc α) (fr : Frame α) (x y : α)
    (hp2 : fr.gc.status_code = Status.OK)
    (hmode : fr.gc.motion_mode = MotionMode.CW_ARC ∨ fr.gc.motion_mode = MotionMode.CCW_ARC)
    (hna : fr.loc.next_action = NextAction.DEFAULT)
    (hR : fr.loc.radius_mode = true)
    (hx : x = fr.loc.target.get (fr.gc.plane_axis_0 : ℤ)
      - fr.gc.position.get (fr.gc.plane_axis_0 : ℤ))
    (hy : y = fr.loc.target.get (fr.gc.plane_axis_1 : ℤ)
      - fr.gc.position.get (fr.gc.plane_axis_1 : ℤ))
    (hreach : 0 ≤ 4 * fr.loc.r * fr.loc.r - x * x - y * y) (hxy : x ≠ 0 ∨ y ≠ 0) :
    (finish_line libc fr).loc.offset = radius_mode_offset libc fr x y := by
  have hg := update_spindle_gc fr
  have hl := update_spindle_loc fr
  unfold finish_line
  rw [if_neg (by simp [hp2])]
  generalize update_spindle fr = fu at hg hl ⊢
  have hd : perform_action libc fu = dispatch_arc libc fu := by
    have a : fu.loc.next_action = NextAction.DEFAULT := by rw [hl]; exact hna
    have b : fu.gc.motion_mode = MotionMode.CW_ARC ∨ fu.gc.motion_mode = MotionMode.CCW_ARC := by
      rw [hg]; exact hmode
    rcases b with b | b <;> simp only [perform_action, a, b]
  have hR2 : fu.loc.radius_mode = true := by rw [hl]; exact hR
  have hx2 : fu.loc.target.get (fu.gc.plane_axis_0 : ℤ)
      - fu.gc.position.get (fu.gc.plane_axis_0 : ℤ) = x := by rw [hl, hg]; exact hx.symm
  have hy2 : fu.loc.target.get (fu.gc.plane_axis_1 : ℤ)
      - fu.gc.position.get (fu.gc.plane_axis_1 : ℤ) = y := by rw [hl, hg]; exact hy.symm
  have hr2 : fu.loc.r = fr.loc.r := by rw [hl]
  have hnan : isnan_h_x2_div_d fr.loc.r x y = false := by
    have a : ¬ (4 * fr.loc.r * fr.loc.r - x * x - y * y < 0) := not_lt.mpr hreach
    rcases hxy with hxy | hxy <;> simp [isnan_h_x2_div_d, a, hxy]
  dsimp only
  rw [hd]
  simp only [dispatch_arc, hR2, if_true, hx2, hy2, hr2, hnan, Frame.returns]
  simp [radius_mode_offset, hg, hl]

/-- Claim C26 (radius-mode centre geometry).  The square root and the norm are those of the
reals.  Take a G-code line on which both passes end with status OK, leaving the frame `fr`:
the motion mode is CW_ARC or CCW_ARC, no other action is pending, an R word was read and the
two plane axes are two different axes.  Let `x`, `y` be the travel from `gc.position` to the
target on the plane axes, not both 0, with `x*x + y*y ≤ 4*r*r`, and `o0`, `o1` the entries
of `offset` on the plane axes when `gc_execute_line` returns.  Then `r ≠ 0`, the centre is
at the distance `|r|` from the current position and from the target, and it lies on the
right of the travel vector (or on it) for a CW arc with `r > 0`; CCW or a negative `r` each
flip the side. -/
theorem C26_radius_mode_centre (libc : Libc ℝ) (hreal : libc.is_real)
    (gc : parser_state_t ℝ) (line : List Char) (fr : Frame ℝ) (x y o0 o1 : ℝ)
    (h1 : charAt line 0 ≠ '(') (h2 : charAt line 0 ≠ '$')
    (hp1 : (pass1_frame libc gc line).gc.status_code = Status.OK)
    (hfr : fr = parsed_frame libc gc line)
    (hp2 : fr.gc.status_code = Status.OK)
    (hmode : fr.gc.motion_mode = MotionMode.CW_ARC ∨ fr.gc.motion_mode = MotionMode.CCW_ARC)
    (hna : fr.loc.next_action = NextAction.DEFAULT)
    (hR : fr.loc.radius_mode = true)
    (hplane : fr.gc.plane_axis_0 ≠ fr.gc.plane_axis_1 ∧ fr.gc.plane_axis_0 ≤ 2
      ∧ fr.gc.plane_axis_1 ≤ 2)
    (hx : x = fr.loc.target.get (fr.gc.plane_axis_0 : ℤ)
      - gc.position.get (fr.gc.plane_axis_0 : ℤ))
    (hy : y = fr.loc.target.get (fr.gc.plane_axis_1 : ℤ)
      - gc.position.get (fr.gc.plane_axis_1 : ℤ))
    (hreach : x * x + y * y ≤ 4 * fr.loc.r * fr.loc.r) (hxy : x ≠ 0 ∨ y ≠ 0)
    (ho0 : o0 = (gc_execute_line libc gc line).loc.offset.get (fr.gc.plane_axis_0 : ℤ))
    (ho1 : o1 = (gc_execute_line libc gc line).loc.offset.get (fr.gc.plane_axis_1 : ℤ)) :
    fr.loc.r ≠ 0
    ∧ o0 * o0 + o1 * o1 = fr.loc.r * fr.loc.r
    ∧ (x - o0) * (x - o0) + (y - o1) * (y - o1) = fr.loc.r * fr.loc.r
    ∧ (fr.gc.motion_mode = MotionMode.CW_ARC → 0 < fr.loc.r → x * o1 - y * o0 ≤ 0)
    ∧ (fr.gc.motion_mode = MotionMode.CCW_ARC → 0 < fr.loc.r → 0 ≤ x * o1 - y * o0)
    ∧ (fr.gc.motion_mode = MotionMode.CW_ARC → fr.loc.r < 0 → 0 ≤ x * o1 - y * o0)
    ∧ (fr.gc.motion_mode = MotionMode.CCW_ARC → fr.loc.r < 0 → x * o1 - y * o0 ≤ 0) := by
  have hpos : fr.gc.position = gc.position := by
    rw [hfr]; exact parsed_frame_position libc gc line hp1
  rw [← hpos] at hx hy
  have hoff := finish_line_offset libc fr x y hp2 hmode hna hR hx hy (by linarith) hxy
  rw [gc_execute_line_eq_finish_line libc gc line h1 h2 hp1, ← hfr, hoff] at ho0 ho1
  obtain ⟨H, e0, e1, hH, s1, s2, s3, s4⟩ :=
    radius_mode_offset_eq libc hreal fr x y hplane hreach hxy
  rw [e0] at ho0
  rw [e1] at ho1
  have hd : 0 < x * x + y * y := by
    rcases hxy with h | h
    · have := mul_self_pos.mpr h
      nlinarith [mul_self_nonneg y]
    · have := mul_self_pos.mpr h
      nlinarith [mul_self_nonneg x]
  have hside : x * o1 - y * o0 = (x * x + y * y) * H / 2 := by
    rw [ho0, ho1]; ring
  have hcw : ∀ m : MotionMode, m = MotionMode.CW_ARC → m ≠ MotionMode.CCW_ARC := by
    intro m hm; rw [hm]; decide
  refine ⟨?_, ?_, ?_, ?_, ?_, ?_, ?_⟩
  · intro h0
    rw [h0] at hreach
    linarith
  · rw [ho0, ho1]
    linear_combination (1 / 4) * hH
  · rw [ho0, ho1]
    linear_combination (1 / 4) * hH
  · intro hm hr
    have := s1 (hcw _ hm) hr.le
    rw [hside]
    nlinarith
  · intro hm hr
    have := s2 hm hr.le
    rw [hside]
    nlinarith
  · intro hm hr
    have := s3 (hcw _ hm) hr
    rw [hside]
    nlinarith
  · intro hm hr
    have := s4 hm hr
    rw [hside]
    nlinarith

theorem C26_radius_mode_centre_witness :
    (gc_execute_line
      ({ strtod := strtod_decimal, sqrt := Real.sqrt,
         hypot := fun x y => Real.sqrt (x * x + y * y), atan := Real.arctan,
         sin := Real.sin, cos := Real.cos, M_PI := Real.pi,
         clear_vector_pointer := fun v => ⟨0, v.y, v.z⟩ } : Libc ℝ) (gc_init 381 381) "G2X10R5".toList).loc.offset.get 0
      * (gc_execute_line
      ({ strtod := strtod_decimal, sqrt := Real.sqrt,
         hypot := fun x y => Real.sqrt (x * x + y * y), atan := Real.arctan,
         sin := Real.sin, cos := Real.cos, M_PI := Real.pi,
         clear_vector_pointer := fun v => ⟨0, v.y, v.z⟩ } : Libc ℝ) (gc_init 381 381) "G2X10R5".toList).loc.offset.get 0
      + (gc_execute_line
      ({ strtod := strtod_decimal, sqrt := Real.sqrt,
         hypot := fun x y => Real.sqrt (x * x + y * y), atan := Real.arctan,
         sin := Real.sin, cos := Real.cos, M_PI := Real.pi,
         clear_vector_pointer := fun v => ⟨0, v.y, v.z⟩ } : Libc ℝ) (gc_init 381 381) "G2X10R5".toList).loc.offset.get 1
      * (gc_execute_line
      ({ strtod := strtod_decimal, sqrt := Real.sqrt,
         hypot := fun x y => Real.sqrt (x * x + y * y), atan := Real.arctan,
         sin := Real.sin, cos := Real.cos, M_PI := Real.pi,
         clear_vector_pointer := fun v => ⟨0, v.y, v.z⟩ } : Libc ℝ) (gc_init 381 381) "G2X10R5".toList).loc.offset.get 1 = 5 * 5 := by
  have hp1 : (pass1_frame
      ({ strtod := strtod_decimal, sqrt := Real.sqrt,
         hypot := fun x y => Real.sqrt (x * x + y * y), atan := Real.arctan,
         sin := Real.sin, cos := Real.cos, M_PI := Real.pi,
         clear_vector_pointer := fun v => ⟨0, v.y, v.z⟩ } : Libc ℝ) (gc_init 381 381) "G2X10R5".toList).gc.status_code = Status.OK := by
    rw [pass1_frame_eq]
    simp [pass1_scan, pass2_scan, first_counter, statements, next_statement, read_double, libcQ, strtod_decimal, scanNumeral, takeDigits, takeSign, charAt, Numeral.value, gc_init, clear_vector, execute_statements, pass1_statements, pass2_statements, pass1_statement,
    pass2_statement, pass1_G, pass1_M, finish_line, perform_action, update_spindle,
    initial_frame, pass2_frame, initial_locals, FAIL, Frame.returns, to_millimeters, Vec3.set,
    Vec3.get, select_plane, Frame.set_motion_mode, Frame.set_next_action, Frame.set_plane,
    Frame.set_inches_mode, Frame.set_absolute_override, Frame.set_absolute_mode,
    Frame.set_inverse_feed_rate_mode, Frame.set_program_flow, Frame.set_spindle_direction,
    Frame.set_tool, Frame.set_inverse_feed_rate, Frame.set_homing_feed_rate,
    Frame.set_seek_rate, Frame.set_feed_rate, Frame.set_offset, Frame.set_p, Frame.set_r,
    Frame.set_spindle_speed, Frame.set_target, Frame.set_homing_dist_to_move,
    Frame.set_homing_threshold, Frame.set_homing_max_number_of_times]
  have hall : ∀ fr, fr = parsed_frame
      ({ strtod := strtod_decimal, sqrt := Real.sqrt,
         hypot := fun x y => Real.sqrt (x * x + y * y), atan := Real.arctan,
         sin := Real.sin, cos := Real.cos, M_PI := Real.pi,
         clear_vector_pointer := fun v => ⟨0, v.y, v.z⟩ } : Libc ℝ) (gc_init 381 381) "G2X10R5".toList →
      fr.gc.status_code = Status.OK ∧ fr.gc.motion_mode = MotionMode.CW_ARC
      ∧ fr.loc.next_action = NextAction.DEFAULT ∧ fr.loc.radius_mode = true
      ∧ fr.loc.r = 5 ∧ fr.loc.target = ⟨10, 0, 0⟩
      ∧ fr.gc.plane_axis_0 = 0 ∧ fr.gc.plane_axis_1 = 1 := by
    intro fr h
    rw [parsed_frame_eq _ _ _ hp1, pass1_frame_eq] at h
    subst h
    simp [pass1_scan, pass2_scan, first_counter, statements, next_statement, read_double, libcQ, strtod_decimal, scanNumeral, takeDigits, takeSign, charAt, Numeral.value, gc_init, clear_vector, X_AXIS, Y_AXIS, Z_AXIS, execute_statements, pass1_statements, pass2_statements, pass1_statement,
    pass2_statement, pass1_G, pass1_M, finish_line, perform_action, update_spindle,
    initial_frame, pass2_frame, initial_locals, FAIL, Frame.returns, to_millimeters, Vec3.set,
    Vec3.get, select_plane, Frame.set_motion_mode, Frame.set_next_action, Frame.set_plane,
    Frame.set_inches_mode, Frame.set_absolute_override, Frame.set_absolute_mode,
    Frame.set_inverse_feed_rate_mode, Frame.set_program_flow, Frame.set_spindle_direction,
    Frame.set_tool, Frame.set_inverse_feed_rate, Frame.set_homing_feed_rate,
    Frame.set_seek_rate, Frame.set_feed_rate, Frame.set_offset, Frame.set_p, Frame.set_r,
    Frame.set_spindle_speed, Frame.set_target, Frame.set_homing_dist_to_move,
    Frame.set_homing_threshold, Frame.set_homing_max_number_of_times]
  obtain ⟨a1, a2, a3, a4, a5, a6, a7, a8⟩ := hall _ rfl
  have h := (C26_radius_mode_centre
      ({ strtod := strtod_decimal, sqrt := Real.sqrt,
         hypot := fun x y => Real.sqrt (x * x + y * y), atan := Real.arctan,
         sin := Real.sin, cos := Real.cos, M_PI := Real.pi,
         clear_vector_pointer := fun v => ⟨0, v.y, v.z⟩ } : Libc ℝ)
    ⟨rfl, rfl, rfl, rfl, rfl, rfl⟩ (gc_init 381 381) "G2X10R5".toList _ 10 0 _ _
    (by simp [charAt]) (by simp [charAt]) hp1 rfl a1 (Or.inl a2) a3 a4
    ⟨by rw [a7, a8]; decide, by rw [a7]; decide, by rw [a8]; decide⟩
    (by rw [a6, a7]; norm_num [Vec3.get, gc_init, clear_vector, select_plane])
    (by rw [a6, a8]; norm_num [Vec3.get, gc_init, clear_vector, select_plane])
    (by rw [a5]; norm_num) (Or.inl (by norm_num)) rfl rfl).2.1
  rw [a5, a7, a8] at h
  exact_mod_cast h

/-! ## Settings lines whose numbers do not parse -/

theorem read_double_value (libc : Libc α) (line : List Char) (cc : ℕ) (st : Status) :
    (read_double libc line cc st).value = (libc.strtod (line.drop cc)).1 := by
  unfold read_double
  dsimp only
  split_ifs <;> rfl

theorem read_double_char_counter (libc : Libc α) (line : List Char) (cc : ℕ) (st : Status) :
    (read_double libc line cc st).char_counter = cc + (libc.strtod (line.drop cc)).2 := by
  unfold read_double
  dsimp only
  split_ifs with h
  · rw [h]; rfl
  · rfl

theorem read_double_status_code (libc : Libc α) (line : List Char) (cc : ℕ) (st : Status) :
    (read_double libc line cc st).status_code
      = if (libc.strtod (line.drop cc)).2 = 0 then Status.BAD_NUMBER_FORMAT else st := by
  unfold read_double
  dsimp only
  split_ifs <;> rfl

theorem scanNumeral_len (s : List Char) (n : Numeral) (h : scanNumeral s = some n) :
    n.len ≠ 0 := by
  unfold scanNumeral at h
  dsimp only at h
  split_ifs at h with h0
  simp only [Option.some.injEq] at h
  rw [← h]
  dsimp only
  omega

theorem strtod_decimal_no_conversion {β : Type} [Field β] (s : List Char)
    (h : (strtod_decimal s : β × ℕ).2 = 0) : (strtod_decimal s : β × ℕ).1 = 0 := by
  unfold strtod_decimal at h ⊢
  cases hs : scanNumeral s with
  | none => rfl
  | some n =>
    rw [hs] at h
    exact absurd h (scanNumeral_len s n hs)

/-- Claim C31 (a settings line reaches the store even when its numbers do not parse).  Take
a line that starts with the dollar sign, followed neither by a second dollar sign nor by the
end of the line.  The first call of `strtod`, at position 1, returns `p` and reads `k1`
characters; the second, one character further, returns `v` and reads `k2` characters
(`k1 = 0` or `k2 = 0` is a failed parse, of which `strtod` returns 0).  If the character at
`1 + k1` is the equals sign and the line ends at `1 + k1 + 1 + k2`, then `gc_execute_line`
makes the single call `settings_store_setting(p, v)`, where a failed parse has contributed
the value 0, and returns BadNumberFormat if a parse failed and OK if none did.  Otherwise it
returns UnsupportedStatement and makes no call. -/
theorem C31_settings_store_without_parse (libc : Libc α) (gc : parser_state_t α)
    (line : List Char) (p v : α) (k1 k2 : ℕ)
    (h0 : charAt line 0 = '$') (h1 : charAt line 1 ≠ '$') (h2 : charAt line 1 ≠ Char.ofNat 0)
    (hzero : ∀ s, (libc.strtod s).2 = 0 → (libc.strtod s).1 = 0)
    (hn1 : libc.strtod (line.drop 1) = (p, k1))
    (hn2 : libc.strtod (line.drop (1 + k1 + 1)) = (v, k2)) :
    (charAt line (1 + k1) = '=' ∧ charAt line (1 + k1 + 1 + k2) = Char.ofNat 0 →
      (gc_execute_line libc gc line).calls = [Call.settings_store_setting p v]
      ∧ (k1 = 0 → p = 0) ∧ (k2 = 0 → v = 0)
      ∧ (k1 = 0 ∨ k2 = 0 → (gc_execute_line libc gc line).ret = Status.BAD_NUMBER_FORMAT)
      ∧ (k1 ≠ 0 ∧ k2 ≠ 0 → (gc_execute_line libc gc line).ret = Status.OK))
    ∧ (¬ (charAt line (1 + k1) = '=' ∧ charAt line (1 + k1 + 1 + k2) = Char.ofNat 0) →
      (gc_execute_line libc gc line).calls = []
      ∧ (gc_execute_line libc gc line).ret = Status.UNSUPPORTED_STATEMENT) := by
  have h3 : charAt line 0 ≠ '(' := by rw [h0]; decide
  have hp : k1 = 0 → p = 0 := by
    intro hk
    have := hzero (line.drop 1) (by rw [hn1]; exact hk)
    rw [hn1] at this
    exact this
  have hv : k2 = 0 → v = 0 := by
    intro hk
    have := hzero (line.drop (1 + k1 + 1)) (by rw [hn2]; exact hk)
    rw [hn2] at this
    exact this
  unfold gc_execute_line execute_settings_line
  simp only [h3, h0, h1, h2, if_false, if_true, read_double_value, read_double_char_counter,
    read_double_status_code, hn1, FAIL]
  refine ⟨fun e => ⟨?_, hp, hv, fun hk => ?_, fun hk => ?_⟩, fun e => ?_⟩
  · simp only [e.1, ne_eq, not_true_eq_false, if_false, hn2, e.2]
    simp [initial_frame, Frame.returns]
  · simp only [e.1, ne_eq, not_true_eq_false, if_false, hn2, e.2]
    rcases hk with hk | hk
    · by_cases hk2 : k2 = 0 <;> simp [initial_frame, Frame.returns, hk, hk2]
    · simp [initial_frame, Frame.returns, hk]
  · simp only [e.1, ne_eq, not_true_eq_false, if_false, hn2, e.2]
    simp [initial_frame, Frame.returns, hk.1, hk.2]
  · by_cases e1 : charAt line (1 + k1) = '='
    · have e2 : charAt line (1 + k1 + 1 + k2) ≠ Char.ofNat 0 := fun z => e ⟨e1, z⟩
      simp only [e1, ne_eq, not_true_eq_false, if_false, hn2, e2, not_false_eq_true, if_true]
      simp [initial_frame, Frame.returns]
    · simp only [e1, ne_eq, not_false_eq_true, if_true]
      simp [initial_frame, Frame.returns]

theorem C31_settings_store_without_parse_witness :
    ((gc_execute_line libcQ (gc_init 381 381) "$=5".toList).calls
        = [Call.settings_store_setting 0 5]
      ∧ (gc_execute_line libcQ (gc_init 381 381) "$=5".toList).ret = Status.BAD_NUMBER_FORMAT)
    ∧ ((gc_execute_line libcQ (gc_init 381 381) "$3=".toList).calls
        = [Call.settings_store_setting 3 0]
      ∧ (gc_execute_line libcQ (gc_init 381 381) "$3=".toList).ret
        = Status.BAD_NUMBER_FORMAT) := by
  have a := (C31_settings_store_without_parse libcQ (gc_init 381 381) "$=5".toList 0 5 0 1
    (by simp [charAt]) (by simp [charAt]) (by simp [charAt])
    (fun s h => strtod_decimal_no_conversion s h)
    (by simp [libcQ, strtod_decimal, scanNumeral, takeDigits, takeSign])
    (by simp [libcQ, strtod_decimal, scanNumeral, takeDigits, takeSign, Numeral.value])).1
    (by simp [charAt])
  have b := (C31_settings_store_without_parse libcQ (gc_init 381 381) "$3=".toList 3 0 1 0
    (by simp [charAt]) (by simp [charAt]) (by simp [charAt])
    (fun s h => strtod_decimal_no_conversion s h)
    (by simp [libcQ, strtod_decimal, scanNumeral, takeDigits, takeSign, Numeral.value])
    (by simp [libcQ, strtod_decimal, scanNumeral, takeDigits, takeSign])).1
    (by simp [charAt])
  exact ⟨⟨a.1, a.2.2.2.1 (Or.inl rfl)⟩, ⟨b.1, b.2.2.2.1 (Or.inr rfl)⟩⟩

/-! ## Axis words on lines without motion -/

theorem pass2_statement_modes (fr : Frame α) (l : Char) (v : α) :
    (pass2_statement fr l v).gc.absolute_mode = fr.gc.absolute_mode
    ∧ (pass2_statement fr l v).gc.inches_mode = fr.gc.inches_mode
    ∧ (pass2_statement fr l v).loc.absolute_override = fr.loc.absolute_override := by
  unfold pass2_statement
  dsimp only
  repeat' (first
    | exact ⟨rfl, rfl, rfl⟩
    | refine P_ite (fun f : Frame α => f.gc.absolute_mode = fr.gc.absolute_mode
        ∧ f.gc.inches_mode = fr.gc.inches_mode
        ∧ f.loc.absolute_override = fr.loc.absolute_override) _ _ _ ?_ ?_)

theorem pass2_statement_target (fr : Frame α) (l : Char) (v : α) :
    (pass2_statement fr l v).loc.target
      = axis_word_target (fr.gc.absolute_mode || fr.loc.absolute_override) fr.gc.inches_mode
          fr.loc.target (l, v) := by
  have key : ∀ (i : ℤ),
      (if fr.gc.absolute_mode = true ∨ fr.loc.absolute_override = true then
          fr.set_target i (to_millimeters fr.gc v)
        else fr.set_target i (fr.loc.target.get i + to_millimeters fr.gc v)).loc.target
      = fr.loc.target.set i
          (if (fr.gc.absolute_mode || fr.loc.absolute_override) = true then
            if fr.gc.inches_mode = true then v * MM_PER_INCH else v
          else fr.loc.target.get i + if fr.gc.inches_mode = true then v * MM_PER_INCH else v) := by
    intro i
    cases fr.gc.absolute_mode <;> cases fr.loc.absolute_override <;> rfl
  by_cases hX : l = 'X'
  · subst hX
    unfold pass2_statement axis_word_target
    dsimp only
    rw [if_neg (by decide), if_neg (by decide), if_neg (by decide), if_neg (by decide),
      if_neg (by decide), if_pos (by decide), if_pos rfl]
    exact key _
  · by_cases hY : l = 'Y'
    · subst hY
      unfold pass2_statement axis_word_target
      dsimp only
      rw [if_neg (by decide), if_neg (by decide), if_neg (by decide), if_neg (by decide),
        if_neg (by decide), if_pos (by decide : 'Y' = 'X' ∨ 'Y' = 'Y' ∨ 'Y' = 'Z'),
        if_neg (by decide : ¬ 'Y' = 'X'), if_pos rfl]
      exact key _
    · by_cases hZ : l = 'Z'
      · subst hZ
        unfold pass2_statement axis_word_target
        dsimp only
        rw [if_neg (by decide), if_neg (by decide), if_neg (by decide), if_neg (by decide),
          if_neg (by decide), if_pos (by decide : 'Z' = 'X' ∨ 'Z' = 'Y' ∨ 'Z' = 'Z'),
          if_neg (by decide : ¬ 'Z' = 'X'), if_neg (by decide : ¬ 'Z' = 'Y'), if_pos rfl]
        exact key _
      · have hr : axis_word_target (fr.gc.absolute_mode || fr.loc.absolute_override)
            fr.gc.inches_mode fr.loc.target (l, v) = fr.loc.target := by
          unfold axis_word_target
          dsimp only
          rw [if_neg hX, if_neg hY, if_neg hZ]
        have hn : ¬ (l = 'X' ∨ l = 'Y' ∨ l = 'Z') := by
          rintro (h | h | h)
          · exact hX h
          · exact hY h
          · exact hZ h
        rw [hr]
        unfold pass2_statement
        dsimp only
        rw [if_neg hn]
        repeat' (first
          | rfl
          | refine P_ite (fun f : Frame α => f.loc.target = fr.loc.target) _ _ _ ?_ ?_)

theorem pass2_statements_modes (stmts : List (Char × α)) (st : Status) (fr : Frame α) :
    (pass2_statements stmts st fr).gc.absolute_mode = fr.gc.absolute_mode
    ∧ (pass2_statements stmts st fr).gc.inches_mode = fr.gc.inches_mode
    ∧ (pass2_statements stmts st fr).loc.absolute_override = fr.loc.absolute_override := by
  induction stmts generalizing fr with
  | nil => exact ⟨rfl, rfl, rfl⟩
  | cons s rest ih =>
    simp only [pass2_statements]
    obtain ⟨a, b, c⟩ := ih (pass2_statement fr s.1 s.2)
    obtain ⟨a2, b2, c2⟩ := pass2_statement_modes fr s.1 s.2
    exact ⟨a.trans a2, b.trans b2, c.trans c2⟩

theorem pass2_statements_target (stmts : List (Char × α)) (st : Status) (fr : Frame α) :
    (pass2_statements stmts st fr).loc.target
      = axis_words_target (fr.gc.absolute_mode || fr.loc.absolute_override) fr.gc.inches_mode
          stmts fr.loc.target := by
  induction stmts generalizing fr with
  | nil => rfl
  | cons s rest ih =>
    simp only [pass2_statements, axis_words_target, List.foldl_cons]
    obtain ⟨a2, b2, c2⟩ := pass2_statement_modes fr s.1 s.2
    rw [ih, a2, b2, c2, pass2_statement_target]
    rfl

theorem parsed_frame_target (libc : Libc α) (gc : parser_state_t α) (line : List Char)
    (h : (pass1_frame libc gc line).gc.status_code = Status.OK) :
    (parsed_frame libc gc line).loc.target
      = axis_words_target ((parsed_frame libc gc line).gc.absolute_mode
            || (parsed_frame libc gc line).loc.absolute_override)
          (parsed_frame libc gc line).gc.inches_mode (pass2_scan libc line).stmts
          gc.position := by
  have hpos : (pass1_frame libc gc line).gc.position = gc.position := by
    rw [pass1_frame_eq, pass1_statements_position]
    rfl
  rw [parsed_frame_eq libc gc line h]
  obtain ⟨a, b, c⟩ := pass2_statements_modes (pass2_scan libc line).stmts
    (pass2_scan libc line).status_code (pass2_frame (pass1_frame libc gc line))
  rw [a, b, c, pass2_statements_target]
  show axis_words_target _ _ _ (pass1_frame libc gc line).gc.position = _
  rw [hpos]

theorem gc_execute_line_OK (libc : Libc α) (gc : parser_state_t α) (line : List Char)
    (h1 : charAt line 0 ≠ '(') (h2 : charAt line 0 ≠ '$')
    (hret : (gc_execute_line libc gc line).ret = Status.OK) :
    (pass1_frame libc gc line).gc.status_code = Status.OK
    ∧ (parsed_frame libc gc line).gc.status_code = Status.OK := by
  have hp1 : (pass1_frame libc gc line).gc.status_code = Status.OK := by
    by_contra hne
    have e : gc_execute_line libc gc line
        = (pass1_frame libc gc line).returns (pass1_frame libc gc line).gc.status_code := by
      unfold gc_execute_line
      unfold pass1_frame at hne ⊢
      simp only [h1, h2, if_false]
      rw [if_pos (by simpa using hne)]
    rw [e] at hret
    exact hne hret
  refine ⟨hp1, ?_⟩
  by_contra hne
  rw [gc_execute_line_eq_finish_line libc gc line h1 h2 hp1] at hret
  unfold finish_line at hret
  rw [if_pos (by simpa using hne)] at hret
  exact hne hret

/-- Claim C32 (axis words move the interpreter position even when no motion is queued).
Take a G-code line that returns OK and let `fr` be the frame after the two passes.  If the
action is Dwell, MeasureCap, AccelOff or AccelOn, or if it is the default action while the
motion mode is Cancel, then no call made by `gc_execute_line` is a `plan_buffer_line` (nor an
`mc_arc`), and `gc.position` afterwards is the target built from the words of the line,
starting from the old position: an X, Y or Z word sets its entry to the value of the word in
millimetres when coordinates are absolute (G90 or G53) and adds it when they are
relative. -/
theorem C32_axis_words_move_position (libc : Libc α) (gc : parser_state_t α)
    (line : List Char) (fr : Frame α)
    (h1 : charAt line 0 ≠ '(') (h2 : charAt line 0 ≠ '$')
    (hret : (gc_execute_line libc gc line).ret = Status.OK)
    (hfr : fr = parsed_frame libc gc line)
    (hact : fr.loc.next_action = NextAction.DWELL
      ∨ fr.loc.next_action = NextAction.MEASURE_CAP
      ∨ fr.loc.next_action = NextAction.TURN_OFF_ACCEL
      ∨ fr.loc.next_action = NextAction.TURN_ON_ACCEL
      ∨ (fr.loc.next_action = NextAction.DEFAULT ∧ fr.gc.motion_mode = MotionMode.CANCEL)) :
    (∀ c ∈ (gc_execute_line libc gc line).calls,
        c.is_plan_buffer_line = false ∧ c.is_mc_arc = false)
    ∧ (gc_execute_line libc gc line).gc.position
      = axis_words_target (fr.gc.absolute_mode || fr.loc.absolute_override) fr.gc.inches_mode
          (pass2_scan libc line).stmts gc.position := by
  obtain ⟨hp1, hp2⟩ := gc_execute_line_OK libc gc line h1 h2 hret
  have htar : fr.loc.target = axis_words_target
      (fr.gc.absolute_mode || fr.loc.absolute_override) fr.gc.inches_mode
      (pass2_scan libc line).stmts gc.position := by
    rw [hfr]; exact parsed_frame_target libc gc line hp1
  have hcalls : fr.calls = [] := by rw [hfr]; exact parsed_frame_calls libc gc line hp1
  rw [← hfr] at hp2
  rw [gc_execute_line_eq_finish_line libc gc line h1 h2 hp1, ← hfr, ← htar]
  have hg := update_spindle_gc fr
  have hl := update_spindle_loc fr
  have hc := update_spindle_calls fr hcalls
  unfold finish_line
  rw [if_neg (by simp [hp2])]
  generalize update_spindle fr = fu at hg hl hc ⊢
  have hd : ∃ cs : List (Call α), perform_action libc fu = ({ fu with calls := fu.calls ++ cs }, false)
      ∧ ∀ c ∈ cs, c.is_plan_buffer_line = false ∧ c.is_mc_arc = false := by
    rw [← hl, ← hg] at hact
    rcases hact with a | a | a | a | ⟨a, b⟩
    · exact ⟨[Call.mc_dwell (trunc (fu.loc.p * 1000) % 4294967296)],
        by simp only [perform_action, a],
        by simp [Call.is_plan_buffer_line, Call.is_mc_arc]⟩
    · exact ⟨[Call.cc_measure_cap (trunc fu.loc.p)], by simp only [perform_action, a],
        by simp [Call.is_plan_buffer_line, Call.is_mc_arc]⟩
    · exact ⟨[Call.plan_set_acceleration_manager_enabled false],
        by simp only [perform_action, a], by simp [Call.is_plan_buffer_line, Call.is_mc_arc]⟩
    · exact ⟨[Call.plan_set_acceleration_manager_enabled true],
        by simp only [perform_action, a], by simp [Call.is_plan_buffer_line, Call.is_mc_arc]⟩
    · exact ⟨[], by simp only [perform_action, a, b, List.append_nil], by simp⟩
  obtain ⟨cs, hd, hcs⟩ := hd
  dsimp only
  rw [hd]
  simp only [Bool.false_eq_true, if_false, Frame.returns]
  refine ⟨?_, by rw [hl]⟩
  intro c hc2
  rcases List.mem_append.mp hc2 with hc3 | hc3
  · rcases hc with hc | ⟨d, s, hc⟩ | hc <;> rw [hc] at hc3 <;>
      simp only [List.mem_cons, List.mem_singleton, List.not_mem_nil, or_false] at hc3
    · rcases hc3 with e | e <;> rw [e] <;> exact ⟨rfl, rfl⟩
    · rcases hc3 with e | e <;> rw [e] <;> exact ⟨rfl, rfl⟩
  · exact hcs c hc3

theorem C32_axis_words_move_position_witness :
    (∀ c ∈ (gc_execute_line libcQ (gc_init 381 381) "G4P1X10".toList).calls,
        c.is_plan_buffer_line = false ∧ c.is_mc_arc = false)
    ∧ (gc_execute_line libcQ (gc_init 381 381) "G4P1X10".toList).gc.position
      = ⟨10, 0, 0⟩ := by
  have hs : (pass2_scan libcQ "G4P1X10".toList).stmts = [('G', 4), ('P', 1), ('X', 10)] := by
    simp [pass1_scan, pass2_scan, first_counter, statements, next_statement, read_double, libcQ, strtod_decimal, scanNumeral, takeDigits, takeSign, charAt, Numeral.value]
  have hst : (pass2_scan libcQ "G4P1X10".toList).status_code = Status.OK := by
    simp [pass1_scan, pass2_scan, first_counter, statements, next_statement, read_double, libcQ, strtod_decimal, scanNumeral, takeDigits, takeSign, charAt, Numeral.value]
  have hp1 : (pass1_frame libcQ (gc_init 381 381) "G4P1X10".toList).gc.status_code
      = Status.OK := by
    rw [pass1_frame_eq, pass1_scan_eq_pass2_scan _ _ (by simp [charAt]), hs, hst]
    simp [gc_init, clear_vector, execute_statements, pass1_statements, pass2_statements, pass1_statement,
    pass2_statement, pass1_G, pass1_M, finish_line, perform_action, update_spindle,
    initial_frame, pass2_frame, initial_locals, FAIL, Frame.returns, to_millimeters, Vec3.set,
    Vec3.get, select_plane, Frame.set_motion_mode, Frame.set_next_action, Frame.set_plane,
    Frame.set_inches_mode, Frame.set_absolute_override, Frame.set_absolute_mode,
    Frame.set_inverse_feed_rate_mode, Frame.set_program_flow, Frame.set_spindle_direction,
    Frame.set_tool, Frame.set_inverse_feed_rate, Frame.set_homing_feed_rate,
    Frame.set_seek_rate, Frame.set_feed_rate, Frame.set_offset, Frame.set_p, Frame.set_r,
    Frame.set_spindle_speed, Frame.set_target, Frame.set_homing_dist_to_move,
    Frame.set_homing_threshold, Frame.set_homing_max_number_of_times]
  have hall : ∀ fr, fr = parsed_frame libcQ (gc_init 381 381) "G4P1X10".toList →
      fr.gc.status_code = Status.OK ∧ fr.loc.next_action = NextAction.DWELL
      ∧ fr.gc.absolute_mode = true ∧ fr.loc.absolute_override = false
      ∧ fr.gc.inches_mode = false := by
    intro fr h
    rw [parsed_frame_eq _ _ _ hp1, pass1_frame_eq,
      pass1_scan_eq_pass2_scan _ _ (by simp [charAt]), hs, hst] at h
    subst h
    simp [gc_init, clear_vector, X_AXIS, Y_AXIS, Z_AXIS, execute_statements, pass1_statements, pass2_statements, pass1_statement,
    pass2_statement, pass1_G, pass1_M, finish_line, perform_action, update_spindle,
    initial_frame, pass2_frame, initial_locals, FAIL, Frame.returns, to_millimeters, Vec3.set,
    Vec3.get, select_plane, Frame.set_motion_mode, Frame.set_next_action, Frame.set_plane,
    Frame.set_inches_mode, Frame.set_absolute_override, Frame.set_absolute_mode,
    Frame.set_inverse_feed_rate_mode, Frame.set_program_flow, Frame.set_spindle_direction,
    Frame.set_tool, Frame.set_inverse_feed_rate, Frame.set_homing_feed_rate,
    Frame.set_seek_rate, Frame.set_feed_rate, Frame.set_offset, Frame.set_p, Frame.set_r,
    Frame.set_spindle_speed, Frame.set_target, Frame.set_homing_dist_to_move,
    Frame.set_homing_threshold, Frame.set_homing_max_number_of_times]
  obtain ⟨a1, a2, a3, a4, a5⟩ := hall _ rfl
  have hret : (gc_execute_line libcQ (gc_init 381 381) "G4P1X10".toList).ret = Status.OK := by
    rw [gc_execute_line_eq _ _ _ (by simp [charAt]) (by simp [charAt]),
      pass1_scan_eq_pass2_scan _ _ (by simp [charAt])]
    simp only [execute_statements, hs, hst]
    simp [gc_init, clear_vector, execute_statements, pass1_statements, pass2_statements, pass1_statement,
    pass2_statement, pass1_G, pass1_M, finish_line, perform_action, update_spindle,
    initial_frame, pass2_frame, initial_locals, FAIL, Frame.returns, to_millimeters, Vec3.set,
    Vec3.get, select_plane, Frame.set_motion_mode, Frame.set_next_action, Frame.set_plane,
    Frame.set_inches_mode, Frame.set_absolute_override, Frame.set_absolute_mode,
    Frame.set_inverse_feed_rate_mode, Frame.set_program_flow, Frame.set_spindle_direction,
    Frame.set_tool, Frame.set_inverse_feed_rate, Frame.set_homing_feed_rate,
    Frame.set_seek_rate, Frame.set_feed_rate, Frame.set_offset, Frame.set_p, Frame.set_r,
    Frame.set_spindle_speed, Frame.set_target, Frame.set_homing_dist_to_move,
    Frame.set_homing_threshold, Frame.set_homing_max_number_of_times]
  have h := C32_axis_words_move_position libcQ (gc_init 381 381) "G4P1X10".toList _
    (by simp [charAt]) (by simp [charAt]) hret rfl (Or.inl a2)
  rw [a3, a4, a5, hs] at h
  refine ⟨h.1, ?_⟩
  rw [h.2]
  simp [axis_words_target, axis_word_target, gc_init, clear_vector, select_plane, Vec3.set,
    Vec3.get]

/-! ## The angular travel of an arc -/

theorem mc_arc_countP (libc : Libc α) (mm_per_arc_segment : α) (enabled : Bool)
    (th angular_travel radius linear_travel : α) (axis_1 axis_2 axis_linear : ℤ)
    (feed_rate : α) (invert_feed_rate : Bool) (position : Vec3 α) :
    (mc_arc libc mm_per_arc_segment enabled th angular_travel radius linear_travel
        axis_1 axis_2 axis_linear feed_rate invert_feed_rate position).countP
      Call.is_plan_buffer_line
    = if arc_millimeters_of_travel libc angular_travel radius linear_travel = 0 then 0
      else arc_segment_count
        (arc_millimeters_of_travel libc angular_travel radius linear_travel)
        mm_per_arc_segment + 1 := by
  unfold mc_arc
  dsimp only
  by_cases hm : arc_millimeters_of_travel libc angular_travel radius linear_travel = 0
  · rw [if_pos hm, if_pos hm]
    cases enabled <;> simp [Call.is_plan_buffer_line]
  · rw [if_neg hm, if_neg hm]
    simp only [List.countP_append, arc_segments_countP]
    cases enabled <;> simp [Call.is_plan_buffer_line]

theorem trace_arc_congr (libc : Libc α) (fu fr : Frame α) (hg : fu.gc = fr.gc)
    (hl : fu.loc = fr.loc) : trace_arc libc fu = trace_arc libc fr := by
  unfold trace_arc
  rw [hg, hl]

theorem finish_line_arc (libc : Libc α) (fr : Frame α) (x y : α)
    (hp2 : fr.gc.status_code = Status.OK)
    (hmode : fr.gc.motion_mode = MotionMode.CW_ARC ∨ fr.gc.motion_mode = MotionMode.CCW_ARC)
    (hna : fr.loc.next_action = NextAction.DEFAULT)
    (hx : x = fr.loc.target.get (fr.gc.plane_axis_0 : ℤ)
      - fr.gc.position.get (fr.gc.plane_axis_0 : ℤ))
    (hy : y = fr.loc.target.get (fr.gc.plane_axis_1 : ℤ)
      - fr.gc.position.get (fr.gc.plane_axis_1 : ℤ))
    (hrm : fr.loc.radius_mode = true →
      0 ≤ 4 * fr.loc.r * fr.loc.r - x * x - y * y ∧ (x ≠ 0 ∨ y ≠ 0)) :
    (finish_line libc fr).calls
        = (update_spindle fr).calls
          ++ trace_arc libc { fr with loc := (finish_line libc fr).loc }
    ∧ (finish_line libc fr).loc.target = fr.loc.target
    ∧ (fr.loc.radius_mode = false → (finish_line libc fr).loc.offset = fr.loc.offset) := by
  have hg := update_spindle_gc fr
  have hl := update_spindle_loc fr
  unfold finish_line
  rw [if_neg (by simp [hp2])]
  generalize update_spindle fr = fu at hg hl ⊢
  have hd : perform_action libc fu = dispatch_arc libc fu := by
    have a : fu.loc.next_action = NextAction.DEFAULT := by rw [hl]; exact hna
    have b : fu.gc.motion_mode = MotionMode.CW_ARC ∨ fu.gc.motion_mode = MotionMode.CCW_ARC := by
      rw [hg]; exact hmode
    rcases b with b | b <;> simp only [perform_action, a, b]
  have hx2 : fu.loc.target.get (fu.gc.plane_axis_0 : ℤ)
      - fu.gc.position.get (fu.gc.plane_axis_0 : ℤ) = x := by rw [hl, hg]; exact hx.symm
  have hy2 : fu.loc.target.get (fu.gc.plane_axis_1 : ℤ)
      - fu.gc.position.get (fu.gc.plane_axis_1 : ℤ) = y := by rw [hl, hg]; exact hy.symm
  have hr2 : fu.loc.r = fr.loc.r := by rw [hl]
  dsimp only
  rw [hd]
  cases hR : fr.loc.radius_mode with
  | false =>
    have hR2 : fu.loc.radius_mode = false := by rw [hl]; exact hR
    simp only [dispatch_arc, hR2, Bool.false_eq_true, if_false, Frame.returns]
    refine ⟨?_, by rw [hl], fun _ => by rw [hl]⟩
    rw [trace_arc_congr libc fu { fr with loc := fu.loc } hg rfl]
  | true =>
    have hR2 : fu.loc.radius_mode = true := by rw [hl]; exact hR
    obtain ⟨hreach, hxy⟩ := hrm hR
    have hnan : isnan_h_x2_div_d fr.loc.r x y = false := by
      have a : ¬ (4 * fr.loc.r * fr.loc.r - x * x - y * y < 0) := not_lt.mpr hreach
      rcases hxy with hxy | hxy <;> simp [isnan_h_x2_div_d, a, hxy]
    simp only [dispatch_arc, hR2, if_true, hx2, hy2, hr2, hnan, Bool.false_eq_true, if_false,
      Frame.returns]
    refine ⟨?_, by rw [hl], fun h => by simp at h⟩
    congr 1
    exact trace_arc_congr libc _ _ hg rfl

/-- Claim C33 (full circles are direction-asymmetric), amended for the arcs whose angles
are not numbers.  The circular functions, the norm and pi are those of the reals.  Take a
G-code line on which both passes end with status OK, leaving the frame `fr`: the motion mode
is CW_ARC (G2) or CCW_ARC (G3) and no other action is pending; in radius mode the radius
reaches the target, `x*x + y*y ≤ 4*r*r` for the travel `(x, y) ≠ (0, 0)` on the plane.  Let
`off` be the centre offset of the arc, which in IJK mode is that of the I, J, K words, and
let it be non-zero on the selected plane.  Then `gc_execute_line` calls `mc_arc` once, from
the current position, and after it `plan_buffer_line` to the target, and no earlier call is
one of these two; the `theta` passed is `theta(-off[a0], -off[a1])`.  For the
`angular_travel` passed to `mc_arc`: if the target is not the centre of the arc, it is a
number between 0 and 2*pi for G2 and between -2*pi and 0 for G3.  In IJK mode, if the
target is the current position and the two angles that `theta` returns are equal
(`theta_end = theta_start`), it is 0 for G2, the travel of `mc_arc` is 0 and `mc_arc` calls
no `plan_buffer_line`, so that the line to the target is the only one queued; for G3 it is
-2*pi, the travel of `mc_arc` is `2*pi*radius`, which is positive, and `mc_arc` calls
`plan_buffer_line` once more than it counts segments. -/
theorem C33_full_circle_asymmetry (libc : Libc ℝ) (hreal : libc.is_real)
    (gc : parser_state_t ℝ) (line : List Char) (fr : Frame ℝ) (x y : ℝ) (off : Vec3 ℝ)
    (h1 : charAt line 0 ≠ '(') (h2 : charAt line 0 ≠ '$')
    (hp1 : (pass1_frame libc gc line).gc.status_code = Status.OK)
    (hfr : fr = parsed_frame libc gc line)
    (hp2 : fr.gc.status_code = Status.OK)
    (hmode : fr.gc.motion_mode = MotionMode.CW_ARC ∨ fr.gc.motion_mode = MotionMode.CCW_ARC)
    (hna : fr.loc.next_action = NextAction.DEFAULT)
    (hx : x = fr.loc.target.get (fr.gc.plane_axis_0 : ℤ)
      - gc.position.get (fr.gc.plane_axis_0 : ℤ))
    (hy : y = fr.loc.target.get (fr.gc.plane_axis_1 : ℤ)
      - gc.position.get (fr.gc.plane_axis_1 : ℤ))
    (hrm : fr.loc.radius_mode = true →
      0 ≤ 4 * fr.loc.r * fr.loc.r - x * x - y * y ∧ (x ≠ 0 ∨ y ≠ 0))
    (hoffd : off = (gc_execute_line libc gc line).loc.offset)
    (hoff : off.get (fr.gc.plane_axis_0 : ℤ) ≠ 0 ∨ off.get (fr.gc.plane_axis_1 : ℤ) ≠ 0) :
    (fr.loc.radius_mode = false → off = fr.loc.offset)
    ∧ ∃ (pre : List (Call ℝ)) (theta_start angular_travel : Option ℝ)
        (radius depth rate : ℝ),
      (gc_execute_line libc gc line).calls
        = pre ++ [Call.mc_arc theta_start angular_travel radius depth fr.gc.plane_axis_0
            fr.gc.plane_axis_1 fr.gc.plane_axis_2 rate fr.gc.inverse_feed_rate_mode
            gc.position,
          Call.plan_buffer_line fr.loc.target.x fr.loc.target.y fr.loc.target.z rate
            fr.gc.inverse_feed_rate_mode]
      ∧ (∀ c ∈ pre, c.is_mc_arc = false ∧ c.is_plan_buffer_line = false)
      ∧ theta_start
        = theta libc (-off.get (fr.gc.plane_axis_0 : ℤ)) (-off.get (fr.gc.plane_axis_1 : ℤ))
      ∧ ((fr.loc.target.get (fr.gc.plane_axis_0 : ℤ) - off.get (fr.gc.plane_axis_0 : ℤ)
              - gc.position.get (fr.gc.plane_axis_0 : ℤ) ≠ 0
            ∨ fr.loc.target.get (fr.gc.plane_axis_1 : ℤ) - off.get (fr.gc.plane_axis_1 : ℤ)
              - gc.position.get (fr.gc.plane_axis_1 : ℤ) ≠ 0) →
          ∃ a : ℝ, angular_travel = some a
            ∧ (fr.gc.motion_mode = MotionMode.CW_ARC → 0 ≤ a ∧ a ≤ 2 * Real.pi)
            ∧ (fr.gc.motion_mode = MotionMode.CCW_ARC → -(2 * Real.pi) ≤ a ∧ a ≤ 0))
      ∧ (fr.loc.radius_mode = false → fr.loc.target = gc.position →
          theta libc
              (fr.loc.target.get (fr.gc.plane_axis_0 : ℤ) - off.get (fr.gc.plane_axis_0 : ℤ)
                - gc.position.get (fr.gc.plane_axis_0 : ℤ))
              (fr.loc.target.get (fr.gc.plane_axis_1 : ℤ) - off.get (fr.gc.plane_axis_1 : ℤ)
                - gc.position.get (fr.gc.plane_axis_1 : ℤ))
            = theta libc (-off.get (fr.gc.plane_axis_0 : ℤ))
                (-off.get (fr.gc.plane_axis_1 : ℤ)) →
          ∃ ts : ℝ, theta_start = some ts
            ∧ (fr.gc.motion_mode = MotionMode.CW_ARC →
              angular_travel = some 0
              ∧ arc_millimeters_of_travel libc 0 radius depth = 0
              ∧ ∀ (mm_per_arc_segment : ℝ) (enabled : Bool),
                (mc_arc libc mm_per_arc_segment enabled ts 0 radius depth
                    fr.gc.plane_axis_0 fr.gc.plane_axis_1 fr.gc.plane_axis_2 rate
                    fr.gc.inverse_feed_rate_mode gc.position).countP
                  Call.is_plan_buffer_line = 0)
            ∧ (fr.gc.motion_mode = MotionMode.CCW_ARC →
              angular_travel = some (-(2 * Real.pi))
              ∧ arc_millimeters_of_travel libc (-(2 * Real.pi)) radius depth
                = 2 * Real.pi * radius
              ∧ 0 < 2 * Real.pi * radius
              ∧ ∀ (mm_per_arc_segment : ℝ) (enabled : Bool),
                (mc_arc libc mm_per_arc_segment enabled ts (-(2 * Real.pi)) radius depth
                    fr.gc.plane_axis_0 fr.gc.plane_axis_1 fr.gc.plane_axis_2 rate
                    fr.gc.inverse_feed_rate_mode gc.position).countP
                  Call.is_plan_buffer_line
                = arc_segment_count (2 * Real.pi * radius) mm_per_arc_segment + 1)) := by
  have hpos : fr.gc.position = gc.position := by
    rw [hfr]; exact parsed_frame_position libc gc line hp1
  have hcalls : fr.calls = [] := by rw [hfr]; exact parsed_frame_calls libc gc line hp1
  have hc := update_spindle_calls fr hcalls
  rw [← hpos] at hx hy
  obtain ⟨k1, k2, k3⟩ := finish_line_arc libc fr x y hp2 hmode hna hx hy hrm
  rw [gc_execute_line_eq_finish_line libc gc line h1 h2 hp1, ← hfr] at hoffd ⊢
  generalize (finish_line libc fr).loc = F at k1 k2 k3 hoffd
  subst hoffd
  unfold trace_arc at k1
  dsimp only at k1
  rw [k2, hpos] at k1
  have hpi : libc.M_PI = Real.pi := hreal.2.2.2.2.2
  have hhyp : libc.hypot = fun x y => Real.sqrt (x * x + y * y) := hreal.2.1
  have hpipos := Real.pi_pos
  obtain ⟨ts, hts, s1, s2⟩ := theta_bounds libc hreal (-F.offset.get (fr.gc.plane_axis_0 : ℤ))
    (-F.offset.get (fr.gc.plane_axis_1 : ℤ))
    (by rcases hoff with h | h
        · exact Or.inl (neg_ne_zero.mpr h)
        · exact Or.inr (neg_ne_zero.mpr h))
  have hrad : 0 < libc.hypot (F.offset.get (fr.gc.plane_axis_0 : ℤ))
      (F.offset.get (fr.gc.plane_axis_1 : ℤ)) := by
    rw [hhyp]
    apply Real.sqrt_pos.mpr
    rcases hoff with h | h
    · have := mul_self_pos.mpr h
      nlinarith [mul_self_nonneg (F.offset.get (fr.gc.plane_axis_1 : ℤ))]
    · have := mul_self_pos.mpr h
      nlinarith [mul_self_nonneg (F.offset.get (fr.gc.plane_axis_0 : ℤ))]
  have hcw : ∀ m : MotionMode, m = MotionMode.CW_ARC → m ≠ MotionMode.CCW_ARC := by
    intro m hm; rw [hm]; decide
  rw [hts, hpi] at k1
  refine ⟨k3, (update_spindle fr).calls, _, _, _, _, _, k1, ?_, hts.symm, ?_, ?_⟩
  · intro c hc2
    rcases hc with hc | ⟨d, s, hc⟩ | hc <;> rw [hc] at hc2 <;>
      simp only [List.mem_cons, List.mem_singleton, List.not_mem_nil, or_false] at hc2
    · rcases hc2 with e | e <;> rw [e] <;> exact ⟨rfl, rfl⟩
    · rcases hc2 with e | e <;> rw [e] <;> exact ⟨rfl, rfl⟩
  · intro hend
    obtain ⟨te, hte, e1, e2⟩ := theta_bounds libc hreal _ _ hend
    rw [hte]
    by_cases hlt : te < ts
    · simp only [hlt, if_true]
      rcases hmode with hm | hm
      · rw [if_neg (hcw _ hm)]
        exact ⟨_, rfl, fun _ => ⟨by linarith, by linarith⟩, fun h => absurd h (hcw _ hm)⟩
      · rw [if_pos hm]
        exact ⟨te + 2 * Real.pi - ts - 2 * Real.pi, rfl, fun h => absurd hm (hcw _ h),
          fun _ => ⟨by linarith, by linarith⟩⟩
    · simp only [hlt, if_false]
      have hge : ts ≤ te := not_lt.mp hlt
      rcases hmode with hm | hm
      · rw [if_neg (hcw _ hm)]
        exact ⟨_, rfl, fun _ => ⟨by linarith, by linarith⟩, fun h => absurd h (hcw _ hm)⟩
      · rw [if_pos hm]
        exact ⟨te - ts - 2 * Real.pi, rfl, fun h => absurd hm (hcw _ h),
          fun _ => ⟨by linarith, by linarith⟩⟩
  · intro _ htar hte
    have hd : fr.loc.target.get (fr.gc.plane_axis_2 : ℤ)
        - gc.position.get (fr.gc.plane_axis_2 : ℤ) = 0 := by
      rw [htar]
      ring
    rw [hts] at hte
    rw [hte, hd]
    simp only [lt_self_iff_false, if_false, sub_self]
    refine ⟨ts, rfl, fun hm => ?_, fun hm => ?_⟩
    · rw [if_neg (hcw _ hm)]
      have htr : arc_millimeters_of_travel libc 0
          (libc.hypot (F.offset.get (fr.gc.plane_axis_0 : ℤ))
            (F.offset.get (fr.gc.plane_axis_1 : ℤ))) 0 = 0 := by
        unfold arc_millimeters_of_travel
        rw [hhyp]
        simp
      refine ⟨rfl, htr, fun mm enabled => ?_⟩
      rw [mc_arc_countP, if_pos htr]
    · rw [if_pos hm]
      have htr : arc_millimeters_of_travel libc (-(2 * Real.pi))
          (libc.hypot (F.offset.get (fr.gc.plane_axis_0 : ℤ))
            (F.offset.get (fr.gc.plane_axis_1 : ℤ))) 0
          = 2 * Real.pi * libc.hypot (F.offset.get (fr.gc.plane_axis_0 : ℤ))
            (F.offset.get (fr.gc.plane_axis_1 : ℤ)) := by
        generalize libc.hypot (F.offset.get (fr.gc.plane_axis_0 : ℤ))
          (F.offset.get (fr.gc.plane_axis_1 : ℤ)) = r at hrad ⊢
        unfold arc_millimeters_of_travel
        rw [hhyp]
        simp only [trunc_zero, abs_zero, Int.cast_zero, mul_zero, add_zero]
        rw [show -(2 * Real.pi) * r * (-(2 * Real.pi) * r)
          = (2 * Real.pi * r) * (2 * Real.pi * r) by ring]
        exact Real.sqrt_mul_self (by positivity)
      have hpos2 : 0 < 2 * Real.pi * libc.hypot (F.offset.get (fr.gc.plane_axis_0 : ℤ))
          (F.offset.get (fr.gc.plane_axis_1 : ℤ)) := by positivity
      refine ⟨by simp, htr, hpos2, fun mm enabled => ?_⟩
      rw [mc_arc_countP, htr, if_neg hpos2.ne']

theorem C33_full_circle_asymmetry_witness :
    (∃ (pre : List (Call ℝ)) (theta_start : Option ℝ) (radius depth rate : ℝ),
      (gc_execute_line
      ({ strtod := strtod_decimal, sqrt := Real.sqrt,
         hypot := fun x y => Real.sqrt (x * x + y * y), atan := Real.arctan,
         sin := Real.sin, cos := Real.cos, M_PI := Real.pi,
         clear_vector_pointer := fun v => ⟨0, v.y, v.z⟩ } : Libc ℝ) (gc_init 381 381) "G2I5".toList).calls
        = pre ++ [Call.mc_arc theta_start (some 0) radius depth 0 1 2 rate false
            (gc_init 381 381).position, Call.plan_buffer_line 0 0 0 rate false]
      ∧ arc_millimeters_of_travel
      ({ strtod := strtod_decimal, sqrt := Real.sqrt,
         hypot := fun x y => Real.sqrt (x * x + y * y), atan := Real.arctan,
         sin := Real.sin, cos := Real.cos, M_PI := Real.pi,
         clear_vector_pointer := fun v => ⟨0, v.y, v.z⟩ } : Libc ℝ) 0 radius depth = 0)
    ∧ (∃ (pre : List (Call ℝ)) (theta_start : Option ℝ) (radius depth rate : ℝ),
      (gc_execute_line
      ({ strtod := strtod_decimal, sqrt := Real.sqrt,
         hypot := fun x y => Real.sqrt (x * x + y * y), atan := Real.arctan,
         sin := Real.sin, cos := Real.cos, M_PI := Real.pi,
         clear_vector_pointer := fun v => ⟨0, v.y, v.z⟩ } : Libc ℝ) (gc_init 381 381) "G3I5".toList).calls
        = pre ++ [Call.mc_arc theta_start (some (-(2 * Real.pi))) radius depth 0 1 2 rate
            false (gc_init 381 381).position, Call.plan_buffer_line 0 0 0 rate false]
      ∧ arc_millimeters_of_travel
      ({ strtod := strtod_decimal, sqrt := Real.sqrt,
         hypot := fun x y => Real.sqrt (x * x + y * y), atan := Real.arctan,
         sin := Real.sin, cos := Real.cos, M_PI := Real.pi,
         clear_vector_pointer := fun v => ⟨0, v.y, v.z⟩ } : Libc ℝ) (-(2 * Real.pi)) radius depth = 2 * Real.pi * radius
      ∧ 0 < 2 * Real.pi * radius) := by
  have hp1 : ∀ line, line = "G2I5".toList ∨ line = "G3I5".toList → (pass1_frame
      ({ strtod := strtod_decimal, sqrt := Real.sqrt,
         hypot := fun x y => Real.sqrt (x * x + y * y), atan := Real.arctan,
         sin := Real.sin, cos := Real.cos, M_PI := Real.pi,
         clear_vector_pointer := fun v => ⟨0, v.y, v.z⟩ } : Libc ℝ) (gc_init 381 381) line).gc.status_code = Status.OK := by
    intro line hl
    rw [pass1_frame_eq]
    rcases hl with hl | hl <;> subst hl <;>
      simp [pass1_scan, pass2_scan, first_counter, statements, next_statement, read_double, libcQ, strtod_decimal, scanNumeral, takeDigits, takeSign, charAt, Numeral.value, gc_init, clear_vector, execute_statements, pass1_statements, pass2_statements, pass1_statement,
    pass2_statement, pass1_G, pass1_M, finish_line, perform_action, update_spindle,
    initial_frame, pass2_frame, initial_locals, FAIL, Frame.returns, to_millimeters, Vec3.set,
    Vec3.get, select_plane, Frame.set_motion_mode, Frame.set_next_action, Frame.set_plane,
    Frame.set_inches_mode, Frame.set_absolute_override, Frame.set_absolute_mode,
    Frame.set_inverse_feed_rate_mode, Frame.set_program_flow, Frame.set_spindle_direction,
    Frame.set_tool, Frame.set_inverse_feed_rate, Frame.set_homing_feed_rate,
    Frame.set_seek_rate, Frame.set_feed_rate, Frame.set_offset, Frame.set_p, Frame.set_r,
    Frame.set_spindle_speed, Frame.set_target, Frame.set_homing_dist_to_move,
    Frame.set_homing_threshold, Frame.set_homing_max_number_of_times]
  have hall2 : ∀ fr, fr = parsed_frame
      ({ strtod := strtod_decimal, sqrt := Real.sqrt,
         hypot := fun x y => Real.sqrt (x * x + y * y), atan := Real.arctan,
         sin := Real.sin, cos := Real.cos, M_PI := Real.pi,
         clear_vector_pointer := fun v => ⟨0, v.y, v.z⟩ } : Libc ℝ) (gc_init 381 381) "G2I5".toList →
      fr.gc.status_code = Status.OK ∧ fr.gc.motion_mode = MotionMode.CW_ARC
      ∧ fr.loc.next_action = NextAction.DEFAULT ∧ fr.loc.radius_mode = false
      ∧ fr.loc.offset = ⟨5, 0, 0⟩ ∧ fr.loc.target = ⟨0, 0, 0⟩
      ∧ fr.gc.plane_axis_0 = 0 ∧ fr.gc.plane_axis_1 = 1 ∧ fr.gc.plane_axis_2 = 2
      ∧ fr.gc.inverse_feed_rate_mode = false := by
    intro fr h
    rw [parsed_frame_eq _ _ _ (hp1 _ (Or.inl rfl)), pass1_frame_eq] at h
    subst h
    simp [pass1_scan, pass2_scan, first_counter, statements, next_statement, read_double, libcQ, strtod_decimal, scanNumeral, takeDigits, takeSign, charAt, Numeral.value, gc_init, clear_vector, X_AXIS, Y_AXIS, Z_AXIS, execute_statements, pass1_statements, pass2_statements, pass1_statement,
    pass2_statement, pass1_G, pass1_M, finish_line, perform_action, update_spindle,
    initial_frame, pass2_frame, initial_locals, FAIL, Frame.returns, to_millimeters, Vec3.set,
    Vec3.get, select_plane, Frame.set_motion_mode, Frame.set_next_action, Frame.set_plane,
    Frame.set_inches_mode, Frame.set_absolute_override, Frame.set_absolute_mode,
    Frame.set_inverse_feed_rate_mode, Frame.set_program_flow, Frame.set_spindle_direction,
    Frame.set_tool, Frame.set_inverse_feed_rate, Frame.set_homing_feed_rate,
    Frame.set_seek_rate, Frame.set_feed_rate, Frame.set_offset, Frame.set_p, Frame.set_r,
    Frame.set_spindle_speed, Frame.set_target, Frame.set_homing_dist_to_move,
    Frame.set_homing_threshold, Frame.set_homing_max_number_of_times]
  have hall3 : ∀ fr, fr = parsed_frame
      ({ strtod := strtod_decimal, sqrt := Real.sqrt,
         hypot := fun x y => Real.sqrt (x * x + y * y), atan := Real.arctan,
         sin := Real.sin, cos := Real.cos, M_PI := Real.pi,
         clear_vector_pointer := fun v => ⟨0, v.y, v.z⟩ } : Libc ℝ) (gc_init 381 381) "G3I5".toList →
      fr.gc.status_code = Status.OK ∧ fr.gc.motion_mode = MotionMode.CCW_ARC
      ∧ fr.loc.next_action = NextAction.DEFAULT ∧ fr.loc.radius_mode = false
      ∧ fr.loc.offset = ⟨5, 0, 0⟩ ∧ fr.loc.target = ⟨0, 0, 0⟩
      ∧ fr.gc.plane_axis_0 = 0 ∧ fr.gc.plane_axis_1 = 1 ∧ fr.gc.plane_axis_2 = 2
      ∧ fr.gc.inverse_feed_rate_mode = false := by
    intro fr h
    rw [parsed_frame_eq _ _ _ (hp1 _ (Or.inr rfl)), pass1_frame_eq] at h
    subst h
    simp [pass1_scan, pass2_scan, first_counter, statements, next_statement, read_double, libcQ, strtod_decimal, scanNumeral, takeDigits, takeSign, charAt, Numeral.value, gc_init, clear_vector, X_AXIS, Y_AXIS, Z_AXIS, execute_statements, pass1_statements, pass2_statements, pass1_statement,
    pass2_statement, pass1_G, pass1_M, finish_line, perform_action, update_spindle,
    initial_frame, pass2_frame, initial_locals, FAIL, Frame.returns, to_millimeters, Vec3.set,
    Vec3.get, select_plane, Frame.set_motion_mode, Frame.set_next_action, Frame.set_plane,
    Frame.set_inches_mode, Frame.set_absolute_override, Frame.set_absolute_mode,
    Frame.set_inverse_feed_rate_mode, Frame.set_program_flow, Frame.set_spindle_direction,
    Frame.set_tool, Frame.set_inverse_feed_rate, Frame.set_homing_feed_rate,
    Frame.set_seek_rate, Frame.set_feed_rate, Frame.set_offset, Frame.set_p, Frame.set_r,
    Frame.set_spindle_speed, Frame.set_target, Frame.set_homing_dist_to_move,
    Frame.set_homing_threshold, Frame.set_homing_max_number_of_times]
  have hz : (gc_init 381 381 : parser_state_t ℝ).position = ⟨0, 0, 0⟩ := rfl
  constructor
  · obtain ⟨a1, a2, a3, a4, a5, a6, a7, a8, a9, a10⟩ := hall2 _ rfl
    have hrm : ∀ P : Prop, (parsed_frame
      ({ strtod := strtod_decimal, sqrt := Real.sqrt,
         hypot := fun x y => Real.sqrt (x * x + y * y), atan := Real.arctan,
         sin := Real.sin, cos := Real.cos, M_PI := Real.pi,
         clear_vector_pointer := fun v => ⟨0, v.y, v.z⟩ } : Libc ℝ) (gc_init 381 381) "G2I5".toList).loc.radius_mode = true → P := by
      intro P h
      rw [a4] at h
      exact absurd h (by decide)
    have hoffd : (⟨5, 0, 0⟩ : Vec3 ℝ) = (gc_execute_line
      ({ strtod := strtod_decimal, sqrt := Real.sqrt,
         hypot := fun x y => Real.sqrt (x * x + y * y), atan := Real.arctan,
         sin := Real.sin, cos := Real.cos, M_PI := Real.pi,
         clear_vector_pointer := fun v => ⟨0, v.y, v.z⟩ } : Libc ℝ) (gc_init 381 381) "G2I5".toList).loc.offset := by
      rw [gc_execute_line_eq_finish_line _ _ _ (by simp [charAt]) (by simp [charAt])
        (hp1 _ (Or.inl rfl)),
        (finish_line_arc _ _ _ _ a1 (Or.inl a2) a3 rfl rfl (hrm _)).2.2 a4, a5]
    obtain ⟨_, pre, ts, ang, r, d, rate, c1, _, _, _, c4⟩ := C33_full_circle_asymmetry
      ({ strtod := strtod_decimal, sqrt := Real.sqrt,
         hypot := fun x y => Real.sqrt (x * x + y * y), atan := Real.arctan,
         sin := Real.sin, cos := Real.cos, M_PI := Real.pi,
         clear_vector_pointer := fun v => ⟨0, v.y, v.z⟩ } : Libc ℝ)
      ⟨rfl, rfl, rfl, rfl, rfl, rfl⟩ (gc_init 381 381) "G2I5".toList _ _ _ ⟨5, 0, 0⟩
      (by simp [charAt]) (by simp [charAt]) (hp1 _ (Or.inl rfl)) rfl a1 (Or.inl a2) a3
      rfl rfl (hrm _) hoffd (Or.inl (by rw [a7]; norm_num [Vec3.get]))
    obtain ⟨t, _, c5⟩ := c4 a4 (by rw [a6, hz])
      (by rw [a6, a7, a8, hz]; norm_num [Vec3.get])
    obtain ⟨c6, c7, _⟩ := c5.1 a2
    refine ⟨pre, ts, r, d, rate, ?_, c7⟩
    rw [c1, c6, a6, a7, a8, a9, a10]
  · obtain ⟨a1, a2, a3, a4, a5, a6, a7, a8, a9, a10⟩ := hall3 _ rfl
    have hrm : ∀ P : Prop, (parsed_frame
      ({ strtod := strtod_decimal, sqrt := Real.sqrt,
         hypot := fun x y => Real.sqrt (x * x + y * y), atan := Real.arctan,
         sin := Real.sin, cos := Real.cos, M_PI := Real.pi,
         clear_vector_pointer := fun v => ⟨0, v.y, v.z⟩ } : Libc ℝ) (gc_init 381 381) "G3I5".toList).loc.radius_mode = true → P := by
      intro P h
      rw [a4] at h
      exact absurd h (by decide)
    have hoffd : (⟨5, 0, 0⟩ : Vec3 ℝ) = (gc_execute_line
      ({ strtod := strtod_decimal, sqrt := Real.sqrt,
         hypot := fun x y => Real.sqrt (x * x + y * y), atan := Real.arctan,
         sin := Real.sin, cos := Real.cos, M_PI := Real.pi,
         clear_vector_pointer := fun v => ⟨0, v.y, v.z⟩ } : Libc ℝ) (gc_init 381 381) "G3I5".toList).loc.offset := by
      rw [gc_execute_line_eq_finish_line _ _ _ (by simp [charAt]) (by simp [charAt])
        (hp1 _ (Or.inr rfl)),
        (finish_line_arc _ _ _ _ a1 (Or.inr a2) a3 rfl rfl (hrm _)).2.2 a4, a5]
    obtain ⟨_, pre, ts, ang, r, d, rate, c1, _, _, _, c4⟩ := C33_full_circle_asymmetry
      ({ strtod := strtod_decimal, sqrt := Real.sqrt,
         hypot := fun x y => Real.sqrt (x * x + y * y), atan := Real.arctan,
         sin := Real.sin, cos := Real.cos, M_PI := Real.pi,
         clear_vector_pointer := fun v => ⟨0, v.y, v.z⟩ } : Libc ℝ)
      ⟨rfl, rfl, rfl, rfl, rfl, rfl⟩ (gc_init 381 381) "G3I5".toList _ _ _ ⟨5, 0, 0⟩
      (by simp [charAt]) (by simp [charAt]) (hp1 _ (Or.inr rfl)) rfl a1 (Or.inr a2) a3
      rfl rfl (hrm _) hoffd (Or.inl (by rw [a7]; norm_num [Vec3.get]))
    obtain ⟨t, _, c5⟩ := c4 a4 (by rw [a6, hz])
      (by rw [a6, a7, a8, hz]; norm_num [Vec3.get])
    obtain ⟨c6, c7, c8, _⟩ := c5.2 a2
    refine ⟨pre, ts, r, d, rate, ?_, c7, c8⟩
    rw [c1, c6, a6, a7, a8, a9, a10]

/-- Claim C33, as stated, fails: the line `G2X10` names no centre, so the offset is zero
and `theta(-0, -0)` is the arc tangent of 0/0.  From the power-on state `gc_execute_line`
passes a NaN to `mc_arc` as `theta` and as `angular_travel`, which is not a number between
0 and 2*pi. -/
theorem C33_counterexample :
    (gc_execute_line
      ({ strtod := strtod_decimal, sqrt := Real.sqrt,
         hypot := fun x y => Real.sqrt (x * x + y * y), atan := Real.arctan,
         sin := Real.sin, cos := Real.cos, M_PI := Real.pi,
         clear_vector_pointer := fun v => ⟨0, v.y, v.z⟩ } : Libc ℝ) (gc_init 381 381) "G2X10".toList).calls
      = [Call.mc_arc none none 0 0 0 1 2 (381 / 60) false ⟨0, 0, 0⟩,
         Call.plan_buffer_line 10 0 0 (381 / 60) false] := by
  rw [gc_execute_line_eq _ _ _ (by simp [charAt]) (by simp [charAt])]
  simp [pass1_scan, pass2_scan, first_counter, statements, next_statement, read_double, libcQ, strtod_decimal, scanNumeral, takeDigits, takeSign, charAt, Numeral.value, gc_init, clear_vector, dispatch_arc, trace_arc, theta, X_AXIS, Y_AXIS, Z_AXIS,
    execute_statements, pass1_statements, pass2_statements, pass1_statement,
    pass2_statement, pass1_G, pass1_M, finish_line, perform_action, update_spindle,
    initial_frame, pass2_frame, initial_locals, FAIL, Frame.returns, to_millimeters, Vec3.set,
    Vec3.get, select_plane, Frame.set_motion_mode, Frame.set_next_action, Frame.set_plane,
    Frame.set_inches_mode, Frame.set_absolute_override, Frame.set_absolute_mode,
    Frame.set_inverse_feed_rate_mode, Frame.set_program_flow, Frame.set_spindle_direction,
    Frame.set_tool, Frame.set_inverse_feed_rate, Frame.set_homing_feed_rate,
    Frame.set_seek_rate, Frame.set_feed_rate, Frame.set_offset, Frame.set_p, Frame.set_r,
    Frame.set_spindle_speed, Frame.set_target, Frame.set_homing_dist_to_move,
    Frame.set_homing_threshold, Frame.set_homing_max_number_of_times]

end Claims

end MMFirmware
